import Mathlib

/-!
# Quiz-game engine of `go-websocket-server`: shallow embedding

Embedding of `src/main/models/quiz.go`, `message_types.go`, `quiz_game.go`,
`message_commands.go`, `message_parse.go` and of `src/main/websocket/hub.go`
and `client.go` (`readPump`).

Modelling conventions
* Go `int` values are `Int`.  The counters of the engine only ever move by
  one per call, so 64-bit wrap-around is out of reach and is not modelled.
* A Go `map[K]V` is a `GoMap K V`: a key-unique association list.  `get?`
  is the comma-ok read, `set` the assignment `m[k] = v`, `len` is `len(m)`.
  Maps are reference values in Go; a struct copy shares them.  The
  embedding threads the one shared map explicitly.
* A `*T` that may be `nil` is an `Option T`.
* `time.Time` fields (`StartedAt`, `startedAt`) and the log output are left
  out.
* `GetConnectedPlayersCount` is a callback reading the hub; sequentially it
  is the integer it returns at the time of the call.
* A run-time panic (index out of range, nil dereference) is the outcome
  `Outcome.panicked`, carrying the state at the point of the panic.
* A timer is a heap object that outlives the field `questionTimer`.  The
  ghost field `retiredTimers` lists the timer objects the field has stopped
  referencing, in the state they were in when the field was overwritten; it
  is written by every assignment to `questionTimer` and read by no code.
* `commandServices.MessageSender` is taken as set (`startQuiz` sets it before
  `Start`); a call of it is recorded in the list of sent messages.
* The interface `Command` is an inductive type with one constructor per
  implementing type; a command returns the engine, the actor and the calls it
  made to the services.  JSON decoding is not modelled.
* The hub processes one event at a time.  A `*Client` is the identity of the
  pointer together with the session id of its user; a channel is its buffer,
  its capacity and whether it is closed.  `close` of a closed channel and a
  send on a closed channel are panics of the hub goroutine, which end the run.
* `readPump` is a loop over the results of the successive reads of the
  connection; the handler of a message is a service and is not run.
* Goroutines are interleaved at the reads and writes of the shared maps.  The
  engine methods are sequential functions; the interleaving of two submissions
  is modelled for the body of the grading loop only (`Grader`, `Race`).
-/

/-! ## Go maps -/

/-- A Go map: an association list without repeated keys. -/
structure GoMap (K V : Type) where
  entries : List (K × V)
  nodupKeys : (entries.map Prod.fst).Nodup

namespace GoMap

variable {K V : Type} [DecidableEq K]

/-- First value stored under `k` in an association list. -/
def lookupEntries (k : K) : List (K × V) → Option V
  | [] => none
  | e :: rest => if e.1 = k then some e.2 else lookupEntries k rest

/-- Overwrite the value under `k` in place, or append a new entry. -/
def setEntries (k : K) (v : V) : List (K × V) → List (K × V)
  | [] => [(k, v)]
  | e :: rest => if e.1 = k then (k, v) :: rest else e :: setEntries k v rest

theorem keys_setEntries (k : K) (v : V) (l : List (K × V)) :
    (setEntries k v l).map Prod.fst =
      if k ∈ l.map Prod.fst then l.map Prod.fst else l.map Prod.fst ++ [k] := by
  induction l with
  | nil => simp [setEntries]
  | cons e rest ih =>
    by_cases h : e.1 = k
    · simp [setEntries, h]
    · have h' : ¬ k = e.1 := fun c => h c.symm
      simp only [setEntries, h, if_false, List.map_cons, ih, List.mem_cons, h', false_or]
      split <;> simp

theorem nodup_setEntries (k : K) (v : V) (l : List (K × V))
    (h : (l.map Prod.fst).Nodup) : ((setEntries k v l).map Prod.fst).Nodup := by
  rw [keys_setEntries]
  split
  · exact h
  · rename_i hk
    rw [List.nodup_append]
    refine ⟨h, List.nodup_singleton k, ?_⟩
    intro a ha hb
    rw [List.mem_singleton] at hb
    exact hk (hb ▸ ha)

/-- The empty map, `make(map[K]V)`. -/
def empty : GoMap K V := ⟨[], List.nodup_nil⟩

/-- Comma-ok read `v, ok := m[k]`. -/
def get? (m : GoMap K V) (k : K) : Option V := lookupEntries k m.entries

/-- Assignment `m[k] = v`. -/
def set (m : GoMap K V) (k : K) (v : V) : GoMap K V :=
  ⟨setEntries k v m.entries, nodup_setEntries k v m.entries m.nodupKeys⟩

/-- Drop the entry under `k`, if any. -/
def deleteEntries (k : K) (l : List (K × V)) : List (K × V) :=
  l.filter fun e => e.1 ≠ k

theorem nodup_deleteEntries (k : K) (l : List (K × V))
    (h : (l.map Prod.fst).Nodup) : ((deleteEntries k l).map Prod.fst).Nodup :=
  h.sublist ((List.filter_sublist l).map Prod.fst)

/-- Builtin `delete(m, k)`. -/
def delete (m : GoMap K V) (k : K) : GoMap K V :=
  ⟨deleteEntries k m.entries, nodup_deleteEntries k m.entries m.nodupKeys⟩

/-- Number of keys, `len(m)`. -/
def len (m : GoMap K V) : Nat := m.entries.length

/-- Keys of the map. -/
def keys (m : GoMap K V) : List K := m.entries.map Prod.fst

instance [DecidableEq V] : DecidableEq (GoMap K V) := fun a b =>
  decidable_of_iff (a.entries = b.entries) (by cases a; cases b; simp)

end GoMap

/-! ## Quiz content (`quiz.go`) -/

def ANSWER_CORRECT_UNKNOWN : Int := -1
def ANSWER_CORRECT_INCORRECT : Int := 0
def ANSWER_CORRECT_CORRECT : Int := 1

def QUESTION_TYPE_MCQ : Int := 0
def QUESTION_TYPE_FREE_TEXT : Int := 1

def QUESTION_STATUS_IN_PROGRESS : Int := 0
def QUESTION_STATUS_TIMEOUT : Int := 1
def QUESTION_STATUS_ENDED : Int := 2

def MESSAGE_TYPE_USER_CONNECTED : Int := 0
def MESSAGE_TYPE_USER_DISCONNECTED : Int := 1
def MESSAGE_TYPE_MESSAGE : Int := 2
def MESSAGE_TYPE_NOTIFICATION : Int := 3
def MESSAGE_TYPE_QUIZ_MESSAGE : Int := 4

def RECIPIENT_TYPE_SESSION : Int := 0
def RECIPIENT_TYPE_LEARNER : Int := 1

def QUIZ_MESSAGE_ACTION_START : Int := 0
def QUIZ_MESSAGE_ACTION_QUESTION_START : Int := 1
def QUIZ_MESSAGE_ACTION_LEARNER_ANSWER : Int := 2
def QUIZ_MESSAGE_ACTION_QUESTION_STATS : Int := 3
def QUIZ_MESSAGE_ACTION_QUESTION_END : Int := 4
def QUIZ_MESSAGE_ACTION_NEXT_QUESTION : Int := 5
def QUIZ_MESSAGE_ACTION_STATS : Int := 6
def QUIZ_MESSAGE_ACTION_LEARNER_ANSWER_FREE_TEXT : Int := 7

def DEFAULT_TIMEOUT_SECONDS : Int := 30

/-- A possible answer to a question. -/
structure Answer where
  ID : Int
  Title : String
  URL : String
  Correct : Int
  deriving DecidableEq

/-- A single quiz question (`Text` is the Go field `Question`). -/
structure Question where
  ID : Int
  Text : String
  QuestionType : Int
  URL : String
  Answers : List Answer
  deriving DecidableEq

/-- A complete quiz (`Kind` is the Go field `Type`). -/
structure Quiz where
  ID : Int
  Kind : Int
  Title : String
  URL : String
  Questions : List Question
  deriving DecidableEq

structure AnswerStat where
  AnswerID : Int
  Count : Int
  Correct : Int
  deriving DecidableEq

structure FreeTextAnswerStat where
  Text : String
  Login : String
  deriving DecidableEq

structure QuestionPlayerStat where
  PlayerLogin : String
  Correct : Int
  deriving DecidableEq

structure QuestionStats where
  QuestionID : Int
  QuestionStatus : Int
  AnswersStats : GoMap Int AnswerStat
  FreeTextAnswersStats : List FreeTextAnswerStat
  PlayerStats : GoMap String QuestionPlayerStat
  deriving DecidableEq

structure PlayerStat where
  PlayerLogin : String
  CountAnswered : Int
  CountCorrect : Int
  deriving DecidableEq

/-- The actor of a command; only `Login` and `SessionID` are read by the engine. -/
structure User where
  Login : String
  UserID : String
  SessionID : String
  InstanceName : String
  deriving DecidableEq

/-- A timer created by `time.AfterFunc`: the question captured by its
callback, the armed duration, whether `Stop` has been called on it, and
whether the runtime has fired it. -/
structure Timer where
  question : Question
  duration : Int
  stopped : Bool
  fired : Bool := false
  deriving DecidableEq

/-- Method `Stop` of a timer. -/
def Timer.Stop (t : Timer) : Timer := { t with stopped := true }

/-- The engine state. -/
structure QuizGame where
  SessionID : String
  quiz : Option Quiz
  questionStats : GoMap Int QuestionStats
  playerStats : GoMap String PlayerStat
  currentQuestionIndex : Int
  StartedBy : String
  GetConnectedPlayersCount : Int
  currentQuizQuestion : Option Question
  questionTimer : Option Timer
  questionTimeout : Int
  retiredTimers : List Timer := []
  deriving DecidableEq

/-- Assignment `quizGame.questionTimer = timer`: the timer object referenced
so far stays on the heap, recorded in `retiredTimers`. -/
def QuizGame.setQuestionTimer (quizGame : QuizGame) (timer : Option Timer) : QuizGame :=
  { quizGame with
    retiredTimers := quizGame.retiredTimers ++ quizGame.questionTimer.toList
    questionTimer := timer }

/-! ## Messages (`message_types.go`) -/

/-- Common header of every wire message (`MsgType` is the Go field `Type`). -/
structure Envelope where
  MsgType : Int
  Action : Int
  Timestamp : Int
  ClientId : String
  deriving DecidableEq

structure QuizInfo where
  ID : Int
  Title : String
  Kind : Int
  URL : String
  StartedBy : String
  deriving DecidableEq

structure QuizQuestionMessage where
  Envelope : Envelope
  QuizInfo : QuizInfo
  Question : Question
  QuestionType : Int
  QuestionNumber : Int
  QuestionCount : Int
  Timeout : Int
  deriving DecidableEq

structure QuizQuestionStatsMessage where
  Envelope : Envelope
  QuestionID : Int
  Status : Int
  LearnersCount : Int
  AnsweredCount : Int
  AnswersStats : GoMap Int AnswerStat
  FreeTextAnswersStats : List FreeTextAnswerStat
  deriving DecidableEq

structure QuizStatsMessage where
  Envelope : Envelope
  QuizId : Int
  LearnersCount : Int
  PlayerStats : GoMap String PlayerStat
  deriving DecidableEq

/-- Sender or addressee of a chat message (`RecipientType` is the Go field
`Type`). -/
structure Recipient where
  RecipientType : Int
  Id : String
  deriving DecidableEq

structure UserConnectMessage where
  From : Recipient
  To : List Recipient
  Envelope : Envelope
  deriving DecidableEq

structure UserDisconnectMessage where
  From : Recipient
  To : List Recipient
  Envelope : Envelope
  deriving DecidableEq

/-- A chat message. -/
structure Message where
  From : Recipient
  To : List Recipient
  Msg : String
  Envelope : Envelope
  deriving DecidableEq

structure QuizStartMessage where
  QuizId : Int
  Envelope : Envelope
  deriving DecidableEq

structure QuizNextQuestionMessage where
  QuizId : Int
  Envelope : Envelope
  deriving DecidableEq

structure QuizQuestionEndMessage where
  QuizQuestionStatsMessage : QuizQuestionStatsMessage
  deriving DecidableEq

/-- The value returned by `NextQuizQuestionMessage` (Go type `any`). -/
inductive OutMessage where
  | quizStats (m : QuizStatsMessage)
  | quizQuestion (m : QuizQuestionMessage)
  deriving DecidableEq

/-- The errors built by `fmt.Errorf` in `quiz_game.go`, with their arguments. -/
inductive GameError where
  | quizNotStarted
  | quizEnded
  | questionMismatch (questionId current : Int)
  | notMultipleChoice (questionId : Int)
  | notFreeText (questionId : Int)
  | alreadyAnswered (login : String) (questionId : Int)
  | invalidAnswer (answerId : Int)
  deriving DecidableEq

/-- Text of an error, as formatted by `fmt.Errorf`. -/
def GameError.message : GameError → String
  | .quizNotStarted => "quiz not started"
  | .quizEnded => "quiz ended"
  | .questionMismatch q c =>
    "question ID " ++ toString q ++ " does not match current question ID " ++ toString c
  | .notMultipleChoice q => "question ID " ++ toString q ++ " is not a multiple choice question"
  | .notFreeText q => "question ID " ++ toString q ++ " is not a free text question"
  | .alreadyAnswered l q => "user " ++ l ++ " already answered question " ++ toString q
  | .invalidAnswer a => "answer ID " ++ toString a ++ " is invalid"

/-- The pair `(*QuizQuestionStatsMessage, error)` returned by a submission. -/
structure AnswerReturn where
  msg : Option QuizQuestionStatsMessage
  err : Option GameError
  deriving DecidableEq

/-- Result of running an engine method: it returns a value, or it panics. -/
inductive Outcome (α : Type) where
  | returned (game : QuizGame) (value : α)
  | panicked (game : QuizGame)
  deriving DecidableEq

/-- Engine state after the call. -/
def Outcome.game {α : Type} : Outcome α → QuizGame
  | .returned g _ => g
  | .panicked g => g

/-- Returned value, if the call returned. -/
def Outcome.value? {α : Type} : Outcome α → Option α
  | .returned _ v => some v
  | .panicked _ => none

/-! ## Engine (`quiz_game.go`) -/

/-- Slice indexing `l[i]`; `none` is the index-out-of-range panic. -/
def index? {α : Type} (l : List α) (i : Int) : Option α :=
  if i < 0 then none else l[i.toNat]?

def Answer.Clone (a : Answer) : Answer := a

def Question.Clone (q : Question) : Question :=
  { q with Answers := q.Answers.map Answer.Clone }

/-- The loop of `GetAnswerByID` over the answers. -/
def GetAnswerByID.loop (id : Int) : List Answer → Option Answer
  | [] => none
  | answer :: rest => if answer.ID = id then some answer else GetAnswerByID.loop id rest

/-- Method `GetAnswerByID`; `none` is nil, and the pointer returned is to a copy
of the answer. -/
def Question.GetAnswerByID (q : Question) (id : Int) : Option Answer :=
  GetAnswerByID.loop id q.Answers

/-- The loop of `GetQuestionByID` over the questions. -/
def GetQuestionByID.loop (id : Int) : List Question → Option Question
  | [] => none
  | question :: rest =>
    if question.ID = id then some question else GetQuestionByID.loop id rest

/-- Method `GetQuestionByID`; `none` is nil. -/
def Quiz.GetQuestionByID (q : Quiz) (id : Int) : Option Question :=
  GetQuestionByID.loop id q.Questions

/-- Method `Start`. The quiz and user pointers are taken non-nil. -/
def Start (quizGame : QuizGame) (quiz : Quiz) (user : User) : QuizGame :=
  { quizGame with
    questionTimer := quizGame.questionTimer.map Timer.Stop
    quiz := some quiz
    questionStats := GoMap.empty
    playerStats := GoMap.empty
    StartedBy := user.Login
    currentQuestionIndex := -1 }

/-- Function `contains`: linear search in a slice. -/
def contains : List Int → Int → Bool
  | [], _ => false
  | v :: rest, element => if v = element then true else contains rest element

/-- Method `getNextQuestion`: increments the index, then reads the quiz. -/
def getNextQuestion (q : QuizGame) : Outcome (Option Question) :=
  let q1 := { q with currentQuestionIndex := q.currentQuestionIndex + 1 }
  match q1.quiz with
  | none => .panicked q1
  | some quiz =>
    if q1.currentQuestionIndex < quiz.Questions.length then
      match index? quiz.Questions q1.currentQuestionIndex with
      | some question => .returned q1 (some question)
      | none => .panicked q1
    else .returned q1 none

/-- The loop of `NextQuizQuestionMessage` that hides the correct answers. -/
def redactAnswers : List Answer → List Answer
  | [] => []
  | answer :: rest => { answer with Correct := ANSWER_CORRECT_UNKNOWN } :: redactAnswers rest

/-- Method `NextQuizQuestionMessage`. -/
def NextQuizQuestionMessage (quizGame : QuizGame) : Outcome OutMessage :=
  match getNextQuestion quizGame with
  | .panicked g1 => .panicked g1
  | .returned g1 none =>
    match g1.quiz with
    | none => .panicked g1
    | some quiz =>
      .returned g1 (.quizStats
        { Envelope :=
            { MsgType := MESSAGE_TYPE_QUIZ_MESSAGE, Action := QUIZ_MESSAGE_ACTION_STATS,
              Timestamp := 0, ClientId := "" }
          LearnersCount := g1.playerStats.len
          QuizId := quiz.ID
          PlayerStats := g1.playerStats })
  | .returned g1 (some question) =>
    match g1.quiz with
    | none => .panicked g1
    | some quiz =>
      let g2 := { g1 with questionTimer := g1.questionTimer.map Timer.Stop }
      let questionClone := question.Clone
      let g3 := g2.setQuestionTimer
        (some { question := question, duration := g2.questionTimeout, stopped := false })
      let questionClone := { questionClone with Answers := redactAnswers questionClone.Answers }
      let g4 := { g3 with currentQuizQuestion := some questionClone }
      .returned g4 (.quizQuestion
        { Envelope :=
            { MsgType := MESSAGE_TYPE_QUIZ_MESSAGE, Action := QUIZ_MESSAGE_ACTION_QUESTION_START,
              Timestamp := 0, ClientId := "" }
          QuizInfo :=
            { ID := quiz.ID, Title := quiz.Title, Kind := quiz.Kind, URL := quiz.URL,
              StartedBy := g4.StartedBy }
          Question := questionClone
          QuestionType := 0
          QuestionNumber := g4.currentQuestionIndex + 1
          QuestionCount := quiz.Questions.length
          Timeout := DEFAULT_TIMEOUT_SECONDS })

/-- Method `GetQuestionStatsOrCreate`: the stored entry, created empty when
absent, and the struct copy handed to the caller. -/
def GetQuestionStatsOrCreate (quizGame : QuizGame) (questionId : Int) :
    QuizGame × QuestionStats :=
  match quizGame.questionStats.get? questionId with
  | some stats => (quizGame, stats)
  | none =>
    let stats : QuestionStats :=
      { QuestionID := questionId
        QuestionStatus := 0
        AnswersStats := GoMap.empty
        FreeTextAnswersStats := []
        PlayerStats := GoMap.empty }
    ({ quizGame with questionStats := quizGame.questionStats.set questionId stats }, stats)

/-- Method `GetAnswerStatsOrCreate` of `QuestionStats`. -/
def QuestionStats.GetAnswerStatsOrCreate (qs : QuestionStats) (_questionId answerId : Int) :
    QuestionStats × AnswerStat :=
  match qs.AnswersStats.get? answerId with
  | some stats => (qs, stats)
  | none =>
    let stats : AnswerStat :=
      { AnswerID := answerId, Count := 0, Correct := ANSWER_CORRECT_UNKNOWN }
    ({ qs with AnswersStats := qs.AnswersStats.set answerId stats }, stats)

/-- Method `getQuizQuestionStatsMessage`. -/
def getQuizQuestionStatsMessage (quizGame : QuizGame) (questionId action : Int) :
    Option QuizQuestionStatsMessage :=
  match quizGame.questionStats.get? questionId with
  | none => none
  | some questionStats =>
    some
      { Envelope :=
          { MsgType := MESSAGE_TYPE_QUIZ_MESSAGE, Action := action, Timestamp := 0,
            ClientId := "" }
        QuestionID := questionId
        Status := questionStats.QuestionStatus
        LearnersCount := quizGame.GetConnectedPlayersCount
        AnsweredCount := questionStats.PlayerStats.len
        AnswersStats := questionStats.AnswersStats
        FreeTextAnswersStats := questionStats.FreeTextAnswersStats }

/-- The validation loop of `AnswerMCQuestion`: the first submitted id that is
not in `validAnswerIds`. -/
def firstInvalidAnswer (validAnswerIds : List Int) : List Int → Option Int
  | [] => none
  | answerId :: rest =>
    if !contains validAnswerIds answerId then some answerId
    else firstInvalidAnswer validAnswerIds rest

/-- The grading loop of `AnswerMCQuestion` over the answers of the question:
updates the aggregate counts and the flag `questionAnsweredCorrectly`. -/
def gradeAnswers (questionId : Int) (answers : List Int) :
    List Answer → QuestionStats → Bool → QuestionStats × Bool
  | [], questionStats, questionAnsweredCorrectly => (questionStats, questionAnsweredCorrectly)
  | answer :: rest, questionStats, questionAnsweredCorrectly =>
    let (questionStats, answerStat) := questionStats.GetAnswerStatsOrCreate questionId answer.ID
    let answerStat := { answerStat with Correct := answer.Correct }
    if contains answers answer.ID then
      let answerStat := { answerStat with Count := answerStat.Count + 1 }
      let questionAnsweredCorrectly :=
        if answer.Correct ≠ ANSWER_CORRECT_CORRECT then false else questionAnsweredCorrectly
      gradeAnswers questionId answers rest
        { questionStats with AnswersStats := questionStats.AnswersStats.set answer.ID answerStat }
        questionAnsweredCorrectly
    else
      let questionAnsweredCorrectly :=
        if answer.Correct ≠ ANSWER_CORRECT_INCORRECT then false else questionAnsweredCorrectly
      gradeAnswers questionId answers rest
        { questionStats with AnswersStats := questionStats.AnswersStats.set answer.ID answerStat }
        questionAnsweredCorrectly

/-- Lines 194-268 of `AnswerMCQuestion`: validation of the submitted ids,
grading, consolidation of the player statistics and convergence test.
`questionStats` is the struct copy obtained from `GetQuestionStatsOrCreate`,
`questionPlayerStats` the per-question result found or created for the user. -/
def AnswerMCQuestion.grade (quizGame : QuizGame) (question : Question) (questionId : Int)
    (answers : List Int) (user : User) (questionStats : QuestionStats)
    (questionPlayerStats : QuestionPlayerStat) : Outcome AnswerReturn :=
  let validAnswerIds := question.Answers.map (fun answer => answer.ID)
  match firstInvalidAnswer validAnswerIds answers with
  | some answerId => .returned quizGame ⟨none, some (.invalidAnswer answerId)⟩
  | none =>
    let (questionStats, questionAnsweredCorrectly) :=
      gradeAnswers questionId answers question.Answers questionStats true
    let questionPlayerStats :=
      if questionAnsweredCorrectly then
        { questionPlayerStats with Correct := ANSWER_CORRECT_CORRECT }
      else questionPlayerStats
    let questionStats :=
      { questionStats with
        PlayerStats := questionStats.PlayerStats.set user.Login questionPlayerStats }
    let playerStat : PlayerStat :=
      match quizGame.playerStats.get? user.Login with
      | some playerStat => playerStat
      | none => { PlayerLogin := user.Login, CountAnswered := 0, CountCorrect := 0 }
    let playerStat := { playerStat with PlayerLogin := user.Login }
    let playerStat := { playerStat with CountAnswered := playerStat.CountAnswered + 1 }
    let playerStat :=
      if questionAnsweredCorrectly then
        { playerStat with CountCorrect := playerStat.CountCorrect + 1 }
      else playerStat
    let quizGame := { quizGame with playerStats := quizGame.playerStats.set user.Login playerStat }
    let playersCount := quizGame.GetConnectedPlayersCount
    let answeredCount : Int := questionStats.PlayerStats.len
    if playersCount = answeredCount then
      let quizGame := { quizGame with questionTimer := quizGame.questionTimer.map Timer.Stop }
      let quizGame := quizGame.setQuestionTimer none
      let questionStats := { questionStats with QuestionStatus := QUESTION_STATUS_ENDED }
      let quizGame :=
        { quizGame with questionStats := quizGame.questionStats.set questionId questionStats }
      .returned quizGame
        ⟨getQuizQuestionStatsMessage quizGame questionId QUIZ_MESSAGE_ACTION_QUESTION_END, none⟩
    else
      let questionStats := { questionStats with QuestionStatus := QUESTION_STATUS_IN_PROGRESS }
      let quizGame :=
        { quizGame with questionStats := quizGame.questionStats.set questionId questionStats }
      .returned quizGame
        ⟨getQuizQuestionStatsMessage quizGame questionId QUIZ_MESSAGE_ACTION_QUESTION_STATS, none⟩

/-- Method `AnswerMCQuestion`. -/
def AnswerMCQuestion (quizGame : QuizGame) (questionId : Int) (answers : List Int)
    (user : User) : Outcome AnswerReturn :=
  match quizGame.quiz with
  | none => .returned quizGame ⟨none, some .quizNotStarted⟩
  | some quiz =>
    if quizGame.currentQuestionIndex < 0 then
      .returned quizGame ⟨none, some .quizNotStarted⟩
    else if quizGame.currentQuestionIndex ≥ quiz.Questions.length then
      .returned quizGame ⟨none, some .quizEnded⟩
    else
      match index? quiz.Questions quizGame.currentQuestionIndex with
      | none => .panicked quizGame
      | some question =>
        if question.ID ≠ questionId then
          .returned quizGame ⟨none, some (.questionMismatch questionId question.ID)⟩
        else if question.QuestionType ≠ QUESTION_TYPE_MCQ then
          .returned quizGame ⟨none, some (.notMultipleChoice questionId)⟩
        else
          let (quizGame, questionStats) := GetQuestionStatsOrCreate quizGame questionId
          match quizGame.questionTimer with
          | none =>
            let questionStats := { questionStats with QuestionStatus := QUESTION_STATUS_TIMEOUT }
            let quizGame :=
              { quizGame with
                questionStats := quizGame.questionStats.set questionId questionStats }
            .returned quizGame
              ⟨getQuizQuestionStatsMessage quizGame questionId QUIZ_MESSAGE_ACTION_QUESTION_END,
                none⟩
          | some _ =>
            match questionStats.PlayerStats.get? user.Login with
            | some questionPlayerStats =>
              if questionPlayerStats.Correct ≠ ANSWER_CORRECT_UNKNOWN then
                .returned quizGame ⟨none, some (.alreadyAnswered user.Login questionId)⟩
              else
                AnswerMCQuestion.grade quizGame question questionId answers user questionStats
                  questionPlayerStats
            | none =>
              AnswerMCQuestion.grade quizGame question questionId answers user questionStats
                { PlayerLogin := user.Login, Correct := ANSWER_CORRECT_UNKNOWN }

/-- Lines 311-348 of `AnswerFreeTextQuestion`: recording of the text,
consolidation of the player statistics and convergence test.  The per-question
result is written into the shared `PlayerStats` map before `answers[0]` is
read, so the panic on an empty `answers` leaves that write in the stored entry. -/
def AnswerFreeTextQuestion.grade (quizGame : QuizGame) (questionId : Int)
    (answers : List String) (user : User) (questionStats : QuestionStats)
    (questionPlayerStats : QuestionPlayerStat) : Outcome AnswerReturn :=
  let questionPlayerStats := { questionPlayerStats with Correct := ANSWER_CORRECT_CORRECT }
  let questionStats :=
    { questionStats with
      PlayerStats := questionStats.PlayerStats.set user.Login questionPlayerStats }
  match index? answers 0 with
  | none =>
    match quizGame.questionStats.get? questionId with
    | some stored =>
      .panicked
        { quizGame with
          questionStats :=
            quizGame.questionStats.set questionId
              { stored with PlayerStats := questionStats.PlayerStats } }
    | none => .panicked quizGame
  | some text =>
    let questionStats :=
      { questionStats with
        FreeTextAnswersStats :=
          questionStats.FreeTextAnswersStats ++
            [({ Text := text, Login := user.Login } : FreeTextAnswerStat)] }
    let playerStat : PlayerStat :=
      match quizGame.playerStats.get? user.Login with
      | some playerStat => playerStat
      | none => { PlayerLogin := user.Login, CountAnswered := 0, CountCorrect := 0 }
    let playerStat := { playerStat with PlayerLogin := user.Login }
    let playerStat := { playerStat with CountAnswered := playerStat.CountAnswered + 1 }
    let quizGame := { quizGame with playerStats := quizGame.playerStats.set user.Login playerStat }
    let playersCount := quizGame.GetConnectedPlayersCount
    let answeredCount : Int := questionStats.PlayerStats.len
    if playersCount = answeredCount then
      let quizGame := { quizGame with questionTimer := quizGame.questionTimer.map Timer.Stop }
      let quizGame := quizGame.setQuestionTimer none
      let questionStats := { questionStats with QuestionStatus := QUESTION_STATUS_ENDED }
      let quizGame :=
        { quizGame with questionStats := quizGame.questionStats.set questionId questionStats }
      .returned quizGame
        ⟨getQuizQuestionStatsMessage quizGame questionId QUIZ_MESSAGE_ACTION_QUESTION_END, none⟩
    else
      let questionStats := { questionStats with QuestionStatus := QUESTION_STATUS_IN_PROGRESS }
      let quizGame :=
        { quizGame with questionStats := quizGame.questionStats.set questionId questionStats }
      .returned quizGame
        ⟨getQuizQuestionStatsMessage quizGame questionId QUIZ_MESSAGE_ACTION_QUESTION_STATS, none⟩

/-- Method `AnswerFreeTextQuestion`. -/
def AnswerFreeTextQuestion (quizGame : QuizGame) (questionId : Int) (answers : List String)
    (user : User) : Outcome AnswerReturn :=
  match quizGame.quiz with
  | none => .returned quizGame ⟨none, some .quizNotStarted⟩
  | some quiz =>
    if quizGame.currentQuestionIndex < 0 then
      .returned quizGame ⟨none, some .quizNotStarted⟩
    else if quizGame.currentQuestionIndex ≥ quiz.Questions.length then
      .returned quizGame ⟨none, some .quizEnded⟩
    else
      match index? quiz.Questions quizGame.currentQuestionIndex with
      | none => .panicked quizGame
      | some question =>
        if question.ID ≠ questionId then
          .returned quizGame ⟨none, some (.questionMismatch questionId question.ID)⟩
        else if question.QuestionType ≠ QUESTION_TYPE_FREE_TEXT then
          .returned quizGame ⟨none, some (.notFreeText questionId)⟩
        else
          let (quizGame, questionStats) := GetQuestionStatsOrCreate quizGame questionId
          match quizGame.questionTimer with
          | none =>
            let questionStats := { questionStats with QuestionStatus := QUESTION_STATUS_TIMEOUT }
            let quizGame :=
              { quizGame with
                questionStats := quizGame.questionStats.set questionId questionStats }
            .returned quizGame
              ⟨getQuizQuestionStatsMessage quizGame questionId QUIZ_MESSAGE_ACTION_QUESTION_END,
                none⟩
          | some _ =>
            match questionStats.PlayerStats.get? user.Login with
            | some questionPlayerStats =>
              if questionPlayerStats.Correct ≠ ANSWER_CORRECT_UNKNOWN then
                .returned quizGame ⟨none, some (.alreadyAnswered user.Login questionId)⟩
              else
                AnswerFreeTextQuestion.grade quizGame questionId answers user questionStats
                  questionPlayerStats
            | none =>
              AnswerFreeTextQuestion.grade quizGame questionId answers user questionStats
                { PlayerLogin := user.Login, Correct := ANSWER_CORRECT_UNKNOWN }

/-! ## Timer callback (`quiz_game.go`, lines 70-101) -/

/-- A message handed to `MessageSender` (Go type `interface{}`). -/
inductive Payload where
  | questionStats (m : QuizQuestionStatsMessage)
  | quizQuestion (m : QuizQuestionMessage)
  | quizStats (m : QuizStatsMessage)
  | chat (m : Message)
  deriving DecidableEq

/-- One call `MessageSender(user, message)`. -/
structure Sent where
  user : User
  message : Payload
  deriving DecidableEq

/-- Result of the loop of the timer callback: the struct copy, the message and
whether the loop stopped on the dereference of a nil message. -/
structure CallbackLoop where
  questionStats : QuestionStats
  message : Option QuizQuestionStatsMessage
  nilDereference : Bool

/-- The loop of the timer callback over the answers of the timed question.
`quizQuestionStatsMessage.AnswersStats` is the map of the stored entry of
`question.ID`, whose reference `getQuizQuestionStatsMessage` copied; it is the
map `questionStats` shares, so the write of line 87 reaches both.  With a nil
message that write panics, after `GetAnswerStatsOrCreate` has run. -/
def timerCallback.loop (questionId : Int) :
    List Answer → QuestionStats → Option QuizQuestionStatsMessage → CallbackLoop
  | [], questionStats, message => ⟨questionStats, message, false⟩
  | answer :: rest, questionStats, message =>
    let (questionStats, answerStat) := questionStats.GetAnswerStatsOrCreate questionId answer.ID
    let answerStat := { answerStat with Correct := answer.Correct }
    match message with
    | none => ⟨questionStats, none, true⟩
    | some m =>
      let shared := questionStats.AnswersStats.set answer.ID answerStat
      timerCallback.loop questionId rest { questionStats with AnswersStats := shared }
        (some { m with AnswersStats := shared })

/-- The stored entry of `questionId` sees the writes made to the `AnswersStats`
map through a struct copy. -/
def storeSharedAnswers (quizGame : QuizGame) (questionId : Int)
    (shared : GoMap Int AnswerStat) : QuizGame :=
  match quizGame.questionStats.get? questionId with
  | some stored =>
    { quizGame with
      questionStats :=
        quizGame.questionStats.set questionId { stored with AnswersStats := shared } }
  | none => quizGame

/-- The function passed to `time.AfterFunc`; `question` is the question of the
quiz captured by the closure. -/
def timerCallback (quizGame : QuizGame) (question : Question) : Outcome (List Sent) :=
  let quizGame := quizGame.setQuestionTimer none
  let system : User := { Login := "system", UserID := "", SessionID := "", InstanceName := "" }
  let answered : Outcome AnswerReturn :=
    if question.QuestionType = QUESTION_TYPE_MCQ then
      AnswerMCQuestion quizGame question.ID [] system
    else if question.QuestionType = QUESTION_TYPE_FREE_TEXT then
      AnswerFreeTextQuestion quizGame question.ID [] system
    else .returned quizGame ⟨none, none⟩
  match answered with
  | .panicked quizGame => .panicked quizGame
  | .returned quizGame r =>
    let (quizGame, questionStats) := GetQuestionStatsOrCreate quizGame question.ID
    let looped := timerCallback.loop question.ID question.Answers questionStats r.msg
    let quizGame := storeSharedAnswers quizGame question.ID looped.questionStats.AnswersStats
    if looped.nilDereference then .panicked quizGame
    else
      match looped.message with
      | some m =>
        .returned quizGame
          [{ user :=
               { Login := "system", UserID := "", SessionID := quizGame.SessionID,
                 InstanceName := "" }
             message := .questionStats m }]
      | none => .returned quizGame []

/-- Expiry of the timer referenced by `questionTimer`: the runtime fires a
timer that is neither stopped nor fired and runs its callback.  Nothing
happens when no such timer exists. -/
def timerExpiry (quizGame : QuizGame) : Outcome (List Sent) :=
  match quizGame.questionTimer with
  | none => .returned quizGame []
  | some timer =>
    if timer.stopped || timer.fired then .returned quizGame []
    else
      timerCallback { quizGame with questionTimer := some { timer with fired := true } }
        timer.question

/-! ## Answer commands (`message_commands.go`, lines 91-121) -/

/-- The session handed to a command: `hub.go` builds it with these two fields
and the commands read `session.QuizGame`. -/
structure Session where
  SessionID : String
  QuizGame : QuizGame
  deriving DecidableEq

/-- The service surface of the commands.  `MessageSender` and
`SendUserConnectMessageForAllUsersInSession` return their error, `none` for
nil; `GetQuiz` returns the quiz, `none` when it returns an error. -/
structure CommandServices where
  MessageSender : User → Payload → Option String
  SendUserConnectMessageForAllUsersInSession : Session → Option String := fun _ => none
  GetQuiz : Int → Option Quiz := fun _ => none

structure QuizLearnerAnswerMessage where
  Envelope : Envelope
  QuestionId : Int
  Answers : List Int
  deriving DecidableEq

structure QuizLearnerAnswerFreeTextMessage where
  Envelope : Envelope
  QuestionId : Int
  Answers : List String
  deriving DecidableEq

/-- The errors returned by the commands: those built by `fmt.Errorf` with
their arguments, and `unwrapped` for the error of a service returned as it is. -/
inductive ExecError where
  | processing (cause : GameError)
  | sending (cause : String)
  | gettingQuiz (quizId : Int)
  | serverOnly (messageType : String)
  | unwrapped (cause : String)
  deriving DecidableEq

/-- Text of a command error. -/
def ExecError.message : ExecError → String
  | .processing cause => "error processing learner answer: " ++ cause.message
  | .sending cause => "error sending quiz question stats message: " ++ cause
  | .gettingQuiz quizId => "error getting quiz with id: " ++ toString quizId
  | .serverOnly messageType => messageType ++ " can only be sent by the server"
  | .unwrapped cause => cause

/-- What `Execute` did: the calls of `MessageSender` and the returned error. -/
structure ExecReturn where
  sent : List Sent
  err : Option ExecError
  deriving DecidableEq

/-- The common body of both `Execute` methods once the engine has answered. -/
def executeAnswer (user : User) (commandServices : CommandServices) :
    Outcome AnswerReturn → Outcome ExecReturn
  | .panicked game => .panicked game
  | .returned game r =>
    match r.err with
    | some err => .returned game ⟨[], some (.processing err)⟩
    | none =>
      match r.msg with
      | some quizQuestionStatsMessage =>
        match commandServices.MessageSender user (.questionStats quizQuestionStatsMessage) with
        | some err =>
          .returned game
            ⟨[⟨user, .questionStats quizQuestionStatsMessage⟩], some (.sending err)⟩
        | none => .returned game ⟨[⟨user, .questionStats quizQuestionStatsMessage⟩], none⟩
      | none => .returned game ⟨[], none⟩

/-- Method `Execute` of `QuizLearnerAnswerMessage`, on the engine of the session. -/
def QuizLearnerAnswerMessage.Execute (msg : QuizLearnerAnswerMessage) (user : User)
    (quizGame : QuizGame) (commandServices : CommandServices) : Outcome ExecReturn :=
  executeAnswer user commandServices (AnswerMCQuestion quizGame msg.QuestionId msg.Answers user)

/-- Method `Execute` of `QuizLearnerAnswerFreeTextMessage`, on the engine of the session. -/
def QuizLearnerAnswerFreeTextMessage.Execute (msg : QuizLearnerAnswerFreeTextMessage)
    (user : User) (quizGame : QuizGame) (commandServices : CommandServices) :
    Outcome ExecReturn :=
  executeAnswer user commandServices
    (AnswerFreeTextQuestion quizGame msg.QuestionId msg.Answers user)

/-! ## Session commands (`message_commands.go`, lines 18-88 and 123-133) -/

/-- What a command did: the actor after the call, the calls of `MessageSender`,
the calls of `SendUserConnectMessageForAllUsersInSession` and the returned
error. -/
structure CommandReturn where
  user : User
  sent : List Sent
  joined : List Session
  err : Option ExecError
  deriving DecidableEq

/-- Method `Execute` of `UserConnectMessage`. -/
def UserConnectMessage.Execute (msg : UserConnectMessage) (user : User) (session : Session)
    (commandServices : CommandServices) : Outcome CommandReturn :=
  let user := { user with Login := msg.From.Id }
  .returned session.QuizGame
    { user := user, sent := [], joined := [session]
      err := (commandServices.SendUserConnectMessageForAllUsersInSession session).map
        .unwrapped }

/-- Method `Execute` of `UserDisconnectMessage`. -/
def UserDisconnectMessage.Execute (_msg : UserDisconnectMessage) (user : User)
    (session : Session) (_commandServices : CommandServices) : Outcome CommandReturn :=
  .returned session.QuizGame { user := user, sent := [], joined := [], err := none }

/-- Method `Execute` of `Message`: the message sent is the receiver after the
assignment to `msg.From`. -/
def Message.Execute (msg : Message) (user : User) (session : Session)
    (commandServices : CommandServices) : Outcome CommandReturn :=
  let msg := { msg with From := { RecipientType := RECIPIENT_TYPE_LEARNER, Id := user.Login } }
  .returned session.QuizGame
    { user := user, sent := [⟨user, .chat msg⟩], joined := []
      err := (commandServices.MessageSender user (.chat msg)).map .unwrapped }

/-- The value of `NextQuizQuestionMessage` as handed to `MessageSender`. -/
def OutMessage.payload : OutMessage → Payload
  | .quizStats m => .quizStats m
  | .quizQuestion m => .quizQuestion m

/-- Function `nextQuestion`.  `NextQuizQuestionMessage` returns a pointer to a
struct literal on both of its paths, so the test `quizMsg == nil` fails. -/
def nextQuestion (user : User) (session : Session) (commandServices : CommandServices) :
    Outcome CommandReturn :=
  match NextQuizQuestionMessage session.QuizGame with
  | .panicked game => .panicked game
  | .returned game quizMsg =>
    .returned game
      { user := user, sent := [⟨user, quizMsg.payload⟩], joined := []
        err := (commandServices.MessageSender user quizMsg.payload).map .unwrapped }

/-- Nanoseconds in `time.Second`. -/
def Second : Int := 1000000000

/-- Function `startQuiz`. -/
def startQuiz (session : Session) (_commandServices : CommandServices) (quiz : Quiz)
    (user : User) : Session :=
  { session with
    QuizGame :=
      Start { session.QuizGame with questionTimeout := DEFAULT_TIMEOUT_SECONDS * Second } quiz
        user }

/-- Method `Execute` of `QuizStartMessage`. -/
def QuizStartMessage.Execute (msg : QuizStartMessage) (user : User) (session : Session)
    (commandServices : CommandServices) : Outcome CommandReturn :=
  let quizId := msg.QuizId
  match commandServices.GetQuiz quizId with
  | none =>
    .returned session.QuizGame
      { user := user, sent := [], joined := [], err := some (.gettingQuiz quizId) }
  | some quiz =>
    nextQuestion user (startQuiz session commandServices quiz user) commandServices

/-- Method `Execute` of `QuizNextQuestionMessage`. -/
def QuizNextQuestionMessage.Execute (msg : QuizNextQuestionMessage) (user : User)
    (session : Session) (commandServices : CommandServices) : Outcome CommandReturn :=
  let quizId := msg.QuizId
  match commandServices.GetQuiz quizId with
  | none =>
    .returned session.QuizGame
      { user := user, sent := [], joined := [], err := some (.gettingQuiz quizId) }
  | some quiz =>
    if session.QuizGame.quiz = none then
      nextQuestion user (startQuiz session commandServices quiz user) commandServices
    else nextQuestion user session commandServices

/-- Method `Execute` of `QuizQuestionMessage`. -/
def QuizQuestionMessage.Execute (_msg : QuizQuestionMessage) (user : User) (session : Session)
    (_commandServices : CommandServices) : Outcome CommandReturn :=
  .returned session.QuizGame
    { user := user, sent := [], joined := [], err := some (.serverOnly "QuizQuestionMessage") }

/-- Method `Execute` of `QuizQuestionStatsMessage`. -/
def QuizQuestionStatsMessage.Execute (_msg : QuizQuestionStatsMessage) (user : User)
    (session : Session) (_commandServices : CommandServices) : Outcome CommandReturn :=
  .returned session.QuizGame
    { user := user, sent := [], joined := []
      err := some (.serverOnly "QuizQuestionStatsMessage") }

/-- Method `Execute` of `QuizQuestionEndMessage`. -/
def QuizQuestionEndMessage.Execute (_msg : QuizQuestionEndMessage) (user : User)
    (session : Session) (_commandServices : CommandServices) : Outcome CommandReturn :=
  .returned session.QuizGame
    { user := user, sent := [], joined := []
      err := some (.serverOnly "QuizQuestionEndMessage") }

/-! ## Command selection (`message_parse.go`, lines 25-58) -/

/-- The interface `Command`: one constructor per type with a method `Execute`. -/
inductive Command where
  | message (m : Message)
  | userConnect (m : UserConnectMessage)
  | userDisconnect (m : UserDisconnectMessage)
  | quizStart (m : QuizStartMessage)
  | quizQuestion (m : QuizQuestionMessage)
  | learnerAnswer (m : QuizLearnerAnswerMessage)
  | learnerAnswerFreeText (m : QuizLearnerAnswerFreeTextMessage)
  | questionStats (m : QuizQuestionStatsMessage)
  | questionEnd (m : QuizQuestionEndMessage)
  | nextQuestion (m : QuizNextQuestionMessage)
  deriving DecidableEq

/-- The errors of `createCommand`, with their argument. -/
inductive CreateError where
  | unknownAction (action : Int)
  | unknownType (msgType : Int)
  deriving DecidableEq

/-- Text of an error of `createCommand`. -/
def CreateError.message : CreateError → String
  | .unknownAction action => "unknown quiz message action: " ++ toString action
  | .unknownType msgType => "unknown message type: " ++ toString msgType

/-- The pair `(Command, error)` returned by `createCommand`. -/
structure CreateReturn where
  command : Option Command
  err : Option CreateError
  deriving DecidableEq

/-- Zero values of the message types; a nil `*Envelope` is the zero envelope. -/
def Envelope.zero : Envelope := { MsgType := 0, Action := 0, Timestamp := 0, ClientId := "" }

def Recipient.zero : Recipient := { RecipientType := 0, Id := "" }

def QuizQuestionStatsMessage.zero : QuizQuestionStatsMessage :=
  { Envelope := Envelope.zero, QuestionID := 0, Status := 0, LearnersCount := 0
    AnsweredCount := 0, AnswersStats := GoMap.empty, FreeTextAnswersStats := [] }

def QuizQuestionMessage.zero : QuizQuestionMessage :=
  { Envelope := Envelope.zero
    QuizInfo := { ID := 0, Title := "", Kind := 0, URL := "", StartedBy := "" }
    Question := { ID := 0, Text := "", QuestionType := 0, URL := "", Answers := [] }
    QuestionType := 0, QuestionNumber := 0, QuestionCount := 0, Timeout := 0 }

/-- Function `createCommand`: the command is a pointer to a zero value of the
selected type. -/
def createCommand (envelope : Envelope) : CreateReturn :=
  if envelope.MsgType = MESSAGE_TYPE_MESSAGE then
    ⟨some (.message ⟨Recipient.zero, [], "", Envelope.zero⟩), none⟩
  else if envelope.MsgType = MESSAGE_TYPE_USER_CONNECTED then
    ⟨some (.userConnect ⟨Recipient.zero, [], Envelope.zero⟩), none⟩
  else if envelope.MsgType = MESSAGE_TYPE_USER_DISCONNECTED then
    ⟨some (.userDisconnect ⟨Recipient.zero, [], Envelope.zero⟩), none⟩
  else if envelope.MsgType = MESSAGE_TYPE_QUIZ_MESSAGE then
    if envelope.Action = QUIZ_MESSAGE_ACTION_START then
      ⟨some (.quizStart ⟨0, Envelope.zero⟩), none⟩
    else if envelope.Action = QUIZ_MESSAGE_ACTION_QUESTION_START then
      ⟨some (.quizQuestion QuizQuestionMessage.zero), none⟩
    else if envelope.Action = QUIZ_MESSAGE_ACTION_LEARNER_ANSWER then
      ⟨some (.learnerAnswer ⟨Envelope.zero, 0, []⟩), none⟩
    else if envelope.Action = QUIZ_MESSAGE_ACTION_LEARNER_ANSWER_FREE_TEXT then
      ⟨some (.learnerAnswerFreeText ⟨Envelope.zero, 0, []⟩), none⟩
    else if envelope.Action = QUIZ_MESSAGE_ACTION_QUESTION_STATS then
      ⟨some (.questionStats QuizQuestionStatsMessage.zero), none⟩
    else if envelope.Action = QUIZ_MESSAGE_ACTION_QUESTION_END then
      ⟨some (.questionEnd ⟨QuizQuestionStatsMessage.zero⟩), none⟩
    else if envelope.Action = QUIZ_MESSAGE_ACTION_NEXT_QUESTION then
      ⟨some (.nextQuestion ⟨0, Envelope.zero⟩), none⟩
    else ⟨none, some (.unknownAction envelope.Action)⟩
  else ⟨none, some (.unknownType envelope.MsgType)⟩

/-- Lift the result of an answer command: the actor is not written and no
session is notified. -/
def ExecReturn.lift (user : User) : Outcome ExecReturn → Outcome CommandReturn
  | .panicked game => .panicked game
  | .returned game r =>
    .returned game { user := user, sent := r.sent, joined := [], err := r.err }

/-- The call `(*command).Execute(user, session, commandServices)`: dynamic
dispatch on the type of the command. -/
def Command.Execute (command : Command) (user : User) (session : Session)
    (commandServices : CommandServices) : Outcome CommandReturn :=
  match command with
  | .message m => m.Execute user session commandServices
  | .userConnect m => m.Execute user session commandServices
  | .userDisconnect m => m.Execute user session commandServices
  | .quizStart m => m.Execute user session commandServices
  | .quizQuestion m => m.Execute user session commandServices
  | .learnerAnswer m => ExecReturn.lift user (m.Execute user session.QuizGame commandServices)
  | .learnerAnswerFreeText m =>
    ExecReturn.lift user (m.Execute user session.QuizGame commandServices)
  | .questionStats m => m.Execute user session commandServices
  | .questionEnd m => m.Execute user session commandServices
  | .nextQuestion m => m.Execute user session commandServices

/-- The variant of a command: its concrete Go type, without the field values. -/
def Command.variant : Command → String
  | .message _ => "Message"
  | .userConnect _ => "UserConnectMessage"
  | .userDisconnect _ => "UserDisconnectMessage"
  | .quizStart _ => "QuizStartMessage"
  | .quizQuestion _ => "QuizQuestionMessage"
  | .learnerAnswer _ => "QuizLearnerAnswerMessage"
  | .learnerAnswerFreeText _ => "QuizLearnerAnswerFreeTextMessage"
  | .questionStats _ => "QuizQuestionStatsMessage"
  | .questionEnd _ => "QuizQuestionEndMessage"
  | .nextQuestion _ => "QuizNextQuestionMessage"

/-! ## Reference behaviour of the next-question command -/

/-- The reference behaviour of the next-question command once the quiz has
been fetched, in the words of the specification: if the engine has no quiz
loaded, initialise it as the quiz start does and advance once; otherwise
advance exactly once. -/
def referenceNextQuestion (quiz : Quiz) (user : User) (session : Session)
    (commandServices : CommandServices) : Outcome CommandReturn :=
  match session.QuizGame.quiz with
  | none => nextQuestion user (startQuiz session commandServices quiz user) commandServices
  | some _ => nextQuestion user session commandServices

/-! ## Runs of one engine -/

/-- The engine built by the hub for a session (`hub.go`, lines 99-104): every
field but `SessionID` and the player count callback has its zero value. -/
def NewQuizGame (sessionID : String) (players : Int) : QuizGame :=
  { SessionID := sessionID, quiz := none, questionStats := GoMap.empty
    playerStats := GoMap.empty, currentQuestionIndex := 0, StartedBy := ""
    GetConnectedPlayersCount := players, currentQuizQuestion := none, questionTimer := none
    questionTimeout := 0, retiredTimers := [] }

/-- What can happen to an engine: a method call, the expiry of its timer, or a
change of the number of connected players read by `GetConnectedPlayersCount`. -/
inductive Event where
  | start (quiz : Quiz) (user : User)
  | next
  | answerMC (questionId : Int) (answers : List Int) (user : User)
  | answerFreeText (questionId : Int) (answers : List String) (user : User)
  | expire
  | connected (players : Int)
  deriving DecidableEq

/-- Engine state after an event; after a panic, the state at the panic. -/
def Event.apply (g : QuizGame) : Event → QuizGame
  | .start quiz user => Start g quiz user
  | .next => (NextQuizQuestionMessage g).game
  | .answerMC questionId answers user => (AnswerMCQuestion g questionId answers user).game
  | .answerFreeText questionId answers user =>
    (AnswerFreeTextQuestion g questionId answers user).game
  | .expire => (timerExpiry g).game
  | .connected players => { g with GetConnectedPlayersCount := players }

/-- Engine state after a sequence of events. -/
def run (g : QuizGame) : List Event → QuizGame
  | [] => g
  | event :: rest => run (event.apply g) rest

/-- The event is a call of `Start`. -/
def Event.isStart : Event → Bool
  | .start _ _ => true
  | _ => false

/-- The event is a call of `NextQuizQuestionMessage`. -/
def Event.isNext : Event → Bool
  | .next => true
  | _ => false

/-- The event is a call of `NextQuizQuestionMessage` or a submission. -/
def Event.isCall : Event → Bool
  | .next => true
  | .answerMC _ _ _ => true
  | .answerFreeText _ _ _ => true
  | _ => false

/-- A timer that will still fire: neither stopped nor fired. -/
def Timer.pending (t : Timer) : Bool := !t.stopped && !t.fired

/-- The timers of the engine that will still fire. -/
def pendingTimers (g : QuizGame) : List Timer :=
  (g.retiredTimers ++ g.questionTimer.toList).filter Timer.pending

/-! ## Hub (`hub.go`) -/

/-- A buffered channel of messages: the queued messages, oldest first, the
capacity, and whether `close` has been called on it. -/
structure Chan where
  buffer : List String
  capacity : Nat
  closed : Bool
  deriving DecidableEq

/-- The channel `make(chan []byte, capacity)`. -/
def Chan.make (capacity : Nat) : Chan := { buffer := [], capacity := capacity, closed := false }

/-- A `*Client` as the hub uses it: the identity of the pointer and
`client.User.SessionID`, which no code writes once the client is built
(`client.go`, `ServeWs`).  Two values are the same client when they are equal. -/
structure Client where
  ptr : Nat
  SessionID : String
  deriving DecidableEq

/-- The three maps of the hub, and `send`: the state of the channel
`client.send` of the clients whose channel the hub has written or closed.  The
channel of any other client is as `ServeWs` built it, see `Hub.queue`. -/
structure Hub where
  clients : GoMap Client Bool
  sessionClients : GoMap String (List Client)
  sessions : GoMap String Session
  send : GoMap Client Chan
  deriving DecidableEq

/-- Function `NewHub`. -/
def NewHub : Hub :=
  { clients := GoMap.empty, sessionClients := GoMap.empty, sessions := GoMap.empty
    send := GoMap.empty }

/-- The channel `client.send`; `ServeWs` builds it with `make(chan []byte, 256)`. -/
def Hub.queue (h : Hub) (client : Client) : Chan := (h.send.get? client).getD (Chan.make 256)

/-- The read `h.sessionClients[sessionID]`: the nil slice for an absent key. -/
def Hub.connections (h : Hub) (sessionID : String) : List Client :=
  (h.sessionClients.get? sessionID).getD []

/-- Method `GetSession`, `none` for nil.  The engine is read in the hub state
of the call: its callback `GetConnectedPlayersCount` is the closure built at
registration, which returns `len(h.sessionClients[client.User.SessionID])` for
the registering client, whose session id is the `SessionID` of the engine. -/
def Hub.GetSession (h : Hub) (sessionId : String) : Option Session :=
  (h.sessions.get? sessionId).map fun session =>
    { session with
      QuizGame :=
        { session.QuizGame with
          GetConnectedPlayersCount := (h.connections session.QuizGame.SessionID).length } }

/-- Result of one case of the loop of `Run`: the hub state, or a panic of the
hub goroutine with the state at the point of the panic. -/
inductive HubOutcome where
  | done (hub : Hub)
  | panicked (hub : Hub)
  deriving DecidableEq

/-- Hub state of an outcome. -/
def HubOutcome.hub : HubOutcome → Hub
  | .done h => h
  | .panicked h => h

/-- The loop of `removeClient` over the slice: the slice without the first
element equal to `client`, `none` when the loop ends without a match. -/
def removeFirst? (client : Client) : List Client → Option (List Client)
  | [] => none
  | c :: rest => if c = client then some rest else (removeFirst? client rest).map (c :: ·)

/-- Function `removeClient`.  `close` of a closed channel panics. -/
def removeClient (h : Hub) (client : Client) : HubOutcome :=
  match h.clients.get? client with
  | none => .done h
  | some _ =>
    let queue := h.queue client
    let h := { h with clients := h.clients.delete client }
    if queue.closed then .panicked h
    else
      let h := { h with send := h.send.set client { queue with closed := true } }
      match h.sessionClients.get? client.SessionID with
      | none => .done h
      | some clients =>
        match removeFirst? client clients with
        | none => .done h
        | some remaining =>
          .done { h with sessionClients := h.sessionClients.set client.SessionID remaining }

/-- The register case of `Run`.  The engine is stored with the value its
callback returns at that point; `Hub.GetSession` evaluates the callback anew. -/
def Hub.register (h : Hub) (client : Client) : Hub :=
  let h := { h with clients := h.clients.set client true }
  let h :=
    { h with
      sessionClients :=
        h.sessionClients.set client.SessionID (h.connections client.SessionID ++ [client]) }
  { h with
    sessions :=
      h.sessions.set client.SessionID
        { SessionID := client.SessionID
          QuizGame := NewQuizGame client.SessionID (h.connections client.SessionID).length } }

/-- The loop of the broadcast case over the clients still to visit.  A send on
a closed channel panics; the send succeeds when the buffer has room, otherwise
the default branch closes the channel and calls `removeClient`. -/
def Hub.broadcastLoop (message : String) : List Client → Hub → HubOutcome
  | [], h => .done h
  | client :: rest, h =>
    let queue := h.queue client
    if queue.closed then .panicked h
    else if queue.buffer.length < queue.capacity then
      Hub.broadcastLoop message rest
        { h with send := h.send.set client { queue with buffer := queue.buffer ++ [message] } }
    else
      match removeClient { h with send := h.send.set client { queue with closed := true } }
          client with
      | .panicked h => .panicked h
      | .done h => Hub.broadcastLoop message rest h

/-- An event received by the loop of `Run`. -/
inductive HubEvent where
  | register (client : Client)
  | unregister (client : Client)
  | broadcast (message : String)
  deriving DecidableEq

/-- One iteration of the loop of `Run`.  The broadcast visits the clients in
the order of the entries of the map; Go leaves that order unspecified. -/
def Hub.step (h : Hub) : HubEvent → HubOutcome
  | .register client => .done (h.register client)
  | .unregister client => removeClient h client
  | .broadcast message => Hub.broadcastLoop message h.clients.keys h

/-- The loop of `Run` over a sequence of events; a panic ends it. -/
def Hub.run : Hub → List HubEvent → HubOutcome
  | h, [] => .done h
  | h, event :: rest =>
    match h.step event with
    | .done h => Hub.run h rest
    | .panicked h => .panicked h

/-- The event is a registration or an unregistration. -/
def HubEvent.isMembership : HubEvent → Bool
  | .register _ => true
  | .unregister _ => true
  | .broadcast _ => false

/-- The clients registered by a sequence of events, in order. -/
def registrations : List HubEvent → List Client
  | [] => []
  | .register client :: rest => client :: registrations rest
  | _ :: rest => registrations rest

/-- No connection of the flat set has a full queue: the send of a broadcast
finds room in each. -/
def Hub.hasRoom (h : Hub) : Bool :=
  h.clients.keys.all fun client =>
    decide ((h.queue client).buffer.length < (h.queue client).capacity)

/-- Every broadcast event of the sequence is processed in a state in which no
connection of the flat set has a full queue. -/
def Hub.broadcastsHaveRoom : Hub → List HubEvent → Bool
  | _, [] => true
  | h, .broadcast message :: rest =>
    h.hasRoom && Hub.broadcastsHaveRoom (h.step (.broadcast message)).hub rest
  | h, event :: rest => Hub.broadcastsHaveRoom (h.step event).hub rest

/-- The connection has been unregistered: an unregister event for it follows
its registration. -/
def Unregistered (events : List HubEvent) (client : Client) : Prop :=
  ∃ before after, events = before ++ HubEvent.unregister client :: after ∧
    client ∈ registrations before

/-! ## Read pump (`client.go`, lines 65-91) -/

/-- What `c.conn.ReadMessage()` returns: a message, an error of type
`*websocket.CloseError`, or any other error; with an error the message is nil. -/
inductive ReadResult where
  | message (data : String)
  | closeError
  | otherError
  deriving DecidableEq

/-- What a run of `readPump` did: the calls of `MessageHandler` in order,
whether the loop was left and the deferred function ran, the number of sends of
the client on `Hub.unregister` and the number of calls of `CloseHandler`. -/
structure PumpReturn where
  handled : List String
  exited : Bool
  unregistered : Nat
  closeHandled : Nat
  deriving DecidableEq

/-- White space as `bytes.TrimSpace` sees it (`unicode.IsSpace`): the code
points with the Unicode property White_Space. -/
def isSpace (c : Char) : Bool :=
  let n := c.toNat
  (9 ≤ n && n ≤ 13) || n = 32 || n = 133 || n = 160 || n = 5760 || (8192 ≤ n && n ≤ 8202) ||
    n = 8232 || n = 8233 || n = 8239 || n = 8287 || n = 12288

/-- The expression `bytes.TrimSpace(bytes.Replace(message, newline, space, -1))`,
on a message that is valid UTF-8. -/
def normalise (message : String) : String :=
  let spaced := message.data.map fun c => if c = Char.ofNat 10 then Char.ofNat 32 else c
  String.mk ((spaced.dropWhile isSpace).reverse.dropWhile isSpace).reverse

/-- The loop of `readPump` over the results of the successive reads.  Only an
error of type `*websocket.CloseError` reaches the `break`; after any other
result the message is normalised and handed to `MessageHandler`, whose error is
logged.  When the results are used up the goroutine is blocked in
`ReadMessage`. -/
def readPump.loop : List ReadResult → List String → PumpReturn
  | [], handled => { handled := handled, exited := false, unregistered := 0, closeHandled := 0 }
  | .closeError :: _, handled =>
    { handled := handled, exited := true, unregistered := 1, closeHandled := 1 }
  | .message data :: rest, handled => readPump.loop rest (handled ++ [normalise data])
  | .otherError :: rest, handled => readPump.loop rest (handled ++ [normalise ""])

/-- Method `readPump`. -/
def readPump (reads : List ReadResult) : PumpReturn := readPump.loop reads []

/-! ## Two submissions in the grading loop (`quiz_game.go`, lines 209-225) -/

/-- A goroutine inside one iteration of the grading loop of `AnswerMCQuestion`:
about to read the shared map `AnswersStats` (line 210), holding the
`answerStat` it has read and updated and about to write it back (line 224), or
past the write. -/
inductive Grader where
  | reading
  | writing (answerStat : AnswerStat)
  | finished
  deriving DecidableEq

/-- One step of a goroutine on the statistics of the question, whose map
`AnswersStats` every submission to the question shares.  The loop takes no
lock, so the step is enabled in every state. -/
def Grader.step (answers : List Int) (answer : Answer) (shared : QuestionStats) :
    Grader → QuestionStats × Grader
  | .reading =>
    let (shared, answerStat) := shared.GetAnswerStatsOrCreate shared.QuestionID answer.ID
    let answerStat := { answerStat with Correct := answer.Correct }
    let answerStat :=
      if contains answers answer.ID then { answerStat with Count := answerStat.Count + 1 }
      else answerStat
    (shared, .writing answerStat)
  | .writing answerStat =>
    ({ shared with AnswersStats := shared.AnswersStats.set answer.ID answerStat }, .finished)
  | .finished => (shared, .finished)

/-- Two goroutines grading the same answer of the same question. -/
structure Race where
  shared : QuestionStats
  first : Grader
  second : Grader
  deriving DecidableEq

/-- One step of the goroutine whose turn it is: `true` for the first. -/
def Race.step (answers₁ answers₂ : List Int) (answer : Answer) (r : Race) (turn : Bool) :
    Race :=
  if turn then
    { r with
      shared := (r.first.step answers₁ answer r.shared).1
      first := (r.first.step answers₁ answer r.shared).2 }
  else
    { r with
      shared := (r.second.step answers₂ answer r.shared).1
      second := (r.second.step answers₂ answer r.shared).2 }

/-- The steps of a schedule, from both goroutines about to read. -/
def Race.run (answers₁ answers₂ : List Int) (answer : Answer) (shared : QuestionStats)
    (schedule : List Bool) : Race :=
  schedule.foldl (Race.step answers₁ answers₂ answer)
    { shared := shared, first := .reading, second := .reading }

/-- Count recorded for an answer in the statistics of a question; zero without
entry. -/
def QuestionStats.countOf (qs : QuestionStats) (answerId : Int) : Int :=
  match qs.AnswersStats.get? answerId with
  | some s => s.Count
  | none => 0

/-! ## Test fixture (`quiz_test.go`, `quiz_game_test.go`) -/

/-- First question of `validQuizJSON`. -/
def question101 : Question :=
  { ID := 101, Text := "What is Go?", QuestionType := 0, URL := "/question/101"
    Answers :=
      [ { ID := 1001, Title := "A programming language", URL := "/answer/1001", Correct := 1 },
        { ID := 1002, Title := "A board game", URL := "/answer/1002", Correct := 0 } ] }

/-- Second question of `validQuizJSON`. -/
def question102 : Question :=
  { ID := 102, Text := "What year was Go released?", QuestionType := 0, URL := "/question/102"
    Answers :=
      [ { ID := 1003, Title := "2007", URL := "/answer/1003", Correct := 0 },
        { ID := 1004, Title := "2009", URL := "/answer/1004", Correct := 1 } ] }

/-- The quiz of `validQuizJSON`. -/
def validQuiz : Quiz :=
  { ID := 1, Kind := 0, Title := "Test Quiz", URL := "/quiz/1"
    Questions := [question101, question102] }

/-- A user with the given login. -/
def userNamed (login : String) : User :=
  { Login := login, UserID := "", SessionID := "", InstanceName := "" }

/-- The engine of `newQuizGame` before `Start`, with `players` connected. -/
def blankGame (players : Int) : QuizGame :=
  { SessionID := "", quiz := none, questionStats := GoMap.empty, playerStats := GoMap.empty
    currentQuestionIndex := 0, StartedBy := "badLogin", GetConnectedPlayersCount := players
    currentQuizQuestion := none, questionTimer := none, questionTimeout := 1800000000000 }

/-- The engine of `newQuizGame`: two connected players, `validQuiz` started by `login`. -/
def newQuizGame : QuizGame := Start (blankGame 2) validQuiz (userNamed "login")

/-- The engine of `TestQuizGameAnsweringQuestion` once the first question is open. -/
def firstQuestionOpen : QuizGame := (NextQuizQuestionMessage newQuizGame).game

/-- A question with one correct answer and one answer whose correctness is
recorded as unknown. -/
def question201 : Question :=
  { ID := 201, Text := "What is Go?", QuestionType := 0, URL := "/question/201"
    Answers :=
      [ { ID := 2001, Title := "A programming language", URL := "/answer/2001", Correct := 1 },
        { ID := 2002, Title := "A board game", URL := "/answer/2002", Correct := -1 } ] }

/-- A quiz made of `question201`. -/
def unknownQuiz : Quiz :=
  { ID := 2, Kind := 0, Title := "Unknown Quiz", URL := "/quiz/2", Questions := [question201] }

/-- Engine with two connected players and the question of `unknownQuiz` open. -/
def unknownQuestionOpen : QuizGame :=
  (NextQuizQuestionMessage (Start (blankGame 2) unknownQuiz (userNamed "login"))).game

/-- The engine after `login1` has submitted the wrong answer 1002 to question 101. -/
def afterWrongAnswer : QuizGame :=
  (AnswerMCQuestion firstQuestionOpen 101 [1002] (userNamed "login1")).game

/-- The engine after `login1` has submitted the right answer 1001 to question 101. -/
def afterRightAnswer : QuizGame :=
  (AnswerMCQuestion firstQuestionOpen 101 [1001] (userNamed "login1")).game

/-- A free-text question. -/
def question301 : Question :=
  { ID := 301, Text := "Why Go?", QuestionType := 1, URL := "/question/301", Answers := [] }

/-- A quiz made of `question301`. -/
def freeTextQuiz : Quiz :=
  { ID := 3, Kind := 1, Title := "Free Quiz", URL := "/quiz/3", Questions := [question301] }

/-- Engine with two connected players and the question of `freeTextQuiz` open. -/
def freeTextOpen : QuizGame :=
  (NextQuizQuestionMessage (Start (blankGame 2) freeTextQuiz (userNamed "login"))).game

/-- The engine of the test after three calls of `NextQuizQuestionMessage`: the quiz is over. -/
def quizFinished : QuizGame :=
  (NextQuizQuestionMessage
    (NextQuizQuestionMessage (NextQuizQuestionMessage newQuizGame).game).game).game

/-- Engine with a single connected player whose correct answer has closed question 101:
the timer has been cleared by the convergence rule. -/
def closedByConvergence : QuizGame :=
  (AnswerMCQuestion
    (NextQuizQuestionMessage (Start (blankGame 1) validQuiz (userNamed "login"))).game
    101 [1001] (userNamed "login1")).game

/-- Engine with a single connected player whose text has closed question 301:
the timer has been cleared by the convergence rule. -/
def freeTextClosed : QuizGame :=
  (AnswerFreeTextQuestion
    (NextQuizQuestionMessage (Start (blankGame 1) freeTextQuiz (userNamed "login"))).game
    301 ["because"] (userNamed "login1")).game

/-- One call of `NextQuizQuestionMessage`, keeping the engine state only. -/
def advance (g : QuizGame) : QuizGame := (NextQuizQuestionMessage g).game

/-- The engine of a session with two connected players after `Start` and three
calls of `NextQuizQuestionMessage` on the two-question test quiz. -/
def lastTimerLeftArmed : QuizGame :=
  run (Start (NewQuizGame "session" 2) validQuiz (userNamed "login")) [.next, .next, .next]

/-- A multiple-choice question whose two answers share the id 4001, the first
correct and the second incorrect. -/
def question401 : Question :=
  { ID := 401, Text := "Which one?", QuestionType := 0, URL := "/question/401"
    Answers :=
      [ { ID := 4001, Title := "This one", URL := "/answer/4001", Correct := 1 },
        { ID := 4001, Title := "That one", URL := "/answer/4001", Correct := 0 } ] }

/-- A quiz made of `question401`. -/
def sharedIdQuiz : Quiz :=
  { ID := 4, Kind := 0, Title := "Shared Quiz", URL := "/quiz/4", Questions := [question401] }

/-- Engine of a session with two connected players and `question401` open. -/
def sharedIdOpen : QuizGame :=
  run (Start (NewQuizGame "session" 2) sharedIdQuiz (userNamed "login")) [.next]

/-- Services whose `MessageSender` always succeeds. -/
def okServices : CommandServices := { MessageSender := fun _ _ => none }

/-- The envelope of an inbound quiz message with the given action. -/
def quizEnvelope (action : Int) : Envelope :=
  { MsgType := MESSAGE_TYPE_QUIZ_MESSAGE, Action := action, Timestamp := 0, ClientId := "" }

/-- Services in the manner of `index.go`: sending succeeds and quiz 1 is the
only quiz of the catalogue. -/
def catalogServices : CommandServices :=
  { MessageSender := fun _ _ => none
    GetQuiz := fun quizId => if quizId ≠ 1 then none else some validQuiz }

/-- The session the hub builds for the session id `room` with one connection. -/
def roomSession : Session := { SessionID := "room", QuizGame := NewQuizGame "room" 1 }

/-- Two connections to the session `room`. -/
def firstClient : Client := { ptr := 1, SessionID := "room" }

def lateClient : Client := { ptr := 2, SessionID := "room" }

/-- The hub once `firstClient` and `lateClient` are registered. -/
def twoClientHub : Hub := (NewHub.register firstClient).register lateClient

/-- The hub of `twoClientHub` when 256 messages wait in the queue of
`firstClient`. -/
def fullQueueHub : Hub :=
  { twoClientHub with
    send :=
      twoClientHub.send.set firstClient
        { buffer := List.replicate 256 "queued", capacity := 256, closed := false } }

/-- The state the default branch of the broadcast builds from `fullQueueHub`
before it calls `removeClient`: the channel of `firstClient` is closed and
`firstClient` is still in the flat set. -/
def closedQueueHub : Hub :=
  { fullQueueHub with
    send :=
      fullQueueHub.send.set firstClient
        { buffer := List.replicate 256 "queued", capacity := 256, closed := true } }

/-- The hub once `firstClient` is registered and has started quiz 1: the
engine of `room` is the one left by `QuizStartMessage.Execute`. -/
def midQuizHub : Hub :=
  { NewHub.register firstClient with
    sessions :=
      (NewHub.register firstClient).sessions.set "room"
        { SessionID := "room"
          QuizGame :=
            (QuizStartMessage.Execute ⟨1, quizEnvelope 0⟩ (userNamed "teacher") roomSession
              catalogServices).game } }

/-! ## Observations used by the statements -/

/-- Per-question result recorded for `login` on question `questionId`. -/
def playerResult (g : QuizGame) (questionId : Int) (login : String) :
    Option QuestionPlayerStat :=
  (g.questionStats.get? questionId).bind (fun s => s.PlayerStats.get? login)

/-- Aggregate entry recorded for answer `answerId` of question `questionId`. -/
def answerStat (g : QuizGame) (questionId answerId : Int) : Option AnswerStat :=
  (g.questionStats.get? questionId).bind (fun s => s.AnswersStats.get? answerId)

/-- Aggregate count of an answer; an answer without entry has count zero. -/
def answerCount (g : QuizGame) (questionId answerId : Int) : Int :=
  match answerStat g questionId answerId with
  | some s => s.Count
  | none => 0

/-- Free-text entries recorded for question `questionId`. -/
def freeTexts (g : QuizGame) (questionId : Int) : List FreeTextAnswerStat :=
  match g.questionStats.get? questionId with
  | some s => s.FreeTextAnswersStats
  | none => []

/-- Number of logins holding a per-question result for `questionId`. -/
def answeredCount (g : QuizGame) (questionId : Int) : Nat :=
  match g.questionStats.get? questionId with
  | some s => s.PlayerStats.len
  | none => 0

/-- The statistics messages among the calls of `MessageSender` made by a call. -/
def sentQuestionStats : Outcome (List Sent) → List (User × QuizQuestionStatsMessage)
  | .panicked _ => []
  | .returned _ sent =>
    sent.filterMap fun s =>
      match s.message with
      | .questionStats m => some (s.user, m)
      | _ => none

/-- Recorded status of question `questionId`. -/
def questionStatus (g : QuizGame) (questionId : Int) : Option Int :=
  (g.questionStats.get? questionId).map (fun s => s.QuestionStatus)

/-- Cumulative `countAnswered` of a player; a player without entry has zero. -/
def countAnswered (g : QuizGame) (login : String) : Int :=
  match g.playerStats.get? login with
  | some p => p.CountAnswered
  | none => 0

/-- Cumulative `countCorrect` of a player; a player without entry has zero. -/
def countCorrect (g : QuizGame) (login : String) : Int :=
  match g.playerStats.get? login with
  | some p => p.CountCorrect
  | none => 0

/-- The question at `currentQuestionIndex` of the loaded quiz. -/
def OpenQuestion (g : QuizGame) (question : Question) : Prop :=
  ∃ quiz, g.quiz = some quiz ∧ index? quiz.Questions g.currentQuestionIndex = some question

/-! ## Closed forms used by the lemmas -/

/-- Agreement of one answer with the selection: selected and correct, or not
selected and incorrect. -/
def agrees (answers : List Int) (answer : Answer) : Bool :=
  if contains answers answer.ID then decide (answer.Correct = ANSWER_CORRECT_CORRECT)
  else decide (answer.Correct = ANSWER_CORRECT_INCORRECT)

/-- Entry written by one iteration of the grading loop. -/
def gradedEntry (answers : List Int) (answer : Answer) (before : Option AnswerStat) :
    AnswerStat :=
  { AnswerID := match before with
      | some s => s.AnswerID
      | none => answer.ID
    Count := (match before with
      | some s => s.Count
      | none => 0) + (if contains answers answer.ID then 1 else 0)
    Correct := answer.Correct }

/-- Aggregate map after one iteration of the grading loop. -/
def stepStats (answers : List Int) (answer : Answer) (m : GoMap Int AnswerStat) :
    GoMap Int AnswerStat :=
  match m.get? answer.ID with
  | some s => m.set answer.ID (gradedEntry answers answer (some s))
  | none =>
    (m.set answer.ID
      { AnswerID := answer.ID, Count := 0, Correct := ANSWER_CORRECT_UNKNOWN }).set
      answer.ID (gradedEntry answers answer none)

/-- Aggregate map after the whole grading loop. -/
def foldStats (answers : List Int) : List Answer → GoMap Int AnswerStat → GoMap Int AnswerStat
  | [], m => m
  | answer :: rest, m => foldStats answers rest (stepStats answers answer m)

/-- The per-question result found for the user, or the fresh one. -/
def resultOrFresh (found : Option QuestionPlayerStat) (login : String) : QuestionPlayerStat :=
  match found with
  | some r => r
  | none => { PlayerLogin := login, Correct := ANSWER_CORRECT_UNKNOWN }

/-- Cumulative entry of a player after one more graded submission. -/
def playerStatAfter (before : Option PlayerStat) (login : String) (correct : Bool) :
    PlayerStat :=
  { PlayerLogin := login
    CountAnswered := (match before with
      | some p => p.CountAnswered
      | none => 0) + 1
    CountCorrect := (match before with
      | some p => p.CountCorrect
      | none => 0) + (if correct then 1 else 0) }

/-- Per-question results after a graded multiple-choice submission. -/
def mcResultsAfter (qs : QuestionStats) (login : String) (qps : QuestionPlayerStat)
    (correct : Bool) : GoMap String QuestionPlayerStat :=
  qs.PlayerStats.set login
    (if correct then { qps with Correct := ANSWER_CORRECT_CORRECT } else qps)

/-- Stored entry of the question after a graded multiple-choice submission. -/
def mcStatsAfter (qs : QuestionStats) (question : Question) (answers : List Int)
    (login : String) (qps : QuestionPlayerStat) (players : Int) : QuestionStats :=
  { qs with
    AnswersStats := foldStats answers question.Answers qs.AnswersStats
    PlayerStats := mcResultsAfter qs login qps (question.Answers.all (agrees answers))
    QuestionStatus :=
      if players =
          ((mcResultsAfter qs login qps (question.Answers.all (agrees answers))).len : Int) then
        QUESTION_STATUS_ENDED
      else QUESTION_STATUS_IN_PROGRESS }

/-- Per-question results after a graded free-text submission. -/
def ftResultsAfter (qs : QuestionStats) (login : String) (qps : QuestionPlayerStat) :
    GoMap String QuestionPlayerStat :=
  qs.PlayerStats.set login { qps with Correct := ANSWER_CORRECT_CORRECT }

/-- Stored entry of the question after a graded free-text submission. -/
def ftStatsAfter (qs : QuestionStats) (login : String) (qps : QuestionPlayerStat)
    (text : String) (players : Int) : QuestionStats :=
  { qs with
    PlayerStats := ftResultsAfter qs login qps
    FreeTextAnswersStats := qs.FreeTextAnswersStats ++ [{ Text := text, Login := login }]
    QuestionStatus :=
      if players = ((ftResultsAfter qs login qps).len : Int) then QUESTION_STATUS_ENDED
      else QUESTION_STATUS_IN_PROGRESS }

/-- The entry created by `GetQuestionStatsOrCreate` for a question without statistics. -/
def emptyQuestionStats (questionId : Int) : QuestionStats :=
  { QuestionID := questionId
    QuestionStatus := 0
    AnswersStats := GoMap.empty
    FreeTextAnswersStats := []
    PlayerStats := GoMap.empty }

/-- Engine state left by the robustness branch (lines 175-181 and 292-298). -/
def timedOut (g : QuizGame) (questionId : Int) : QuizGame :=
  { (GetQuestionStatsOrCreate g questionId).1 with
    questionStats :=
      (GetQuestionStatsOrCreate g questionId).1.questionStats.set questionId
        { (GetQuestionStatsOrCreate g questionId).2 with
          QuestionStatus := QUESTION_STATUS_TIMEOUT } }

/-- Stored entry of the timed question after the expiry of its timer. -/
def expiredEntry (g : QuizGame) (question : Question) : QuestionStats :=
  { (GetQuestionStatsOrCreate g question.ID).2 with
    QuestionStatus := QUESTION_STATUS_TIMEOUT
    AnswersStats :=
      foldStats [] question.Answers (GetQuestionStatsOrCreate g question.ID).2.AnswersStats }

/-- Engine state after the expiry of the timer of the open question. -/
def expiredGame (g : QuizGame) (question : Question) : QuizGame :=
  { g with
    retiredTimers := g.retiredTimers ++ g.questionTimer.toList
    questionTimer := none
    questionStats := g.questionStats.set question.ID (expiredEntry g question) }

/-- Message sent at the expiry of the timer of the open question. -/
def expiredMessage (g : QuizGame) (question : Question) : QuizQuestionStatsMessage :=
  { Envelope :=
      { MsgType := MESSAGE_TYPE_QUIZ_MESSAGE, Action := QUIZ_MESSAGE_ACTION_QUESTION_END,
        Timestamp := 0, ClientId := "" }
    QuestionID := question.ID
    Status := QUESTION_STATUS_TIMEOUT
    LearnersCount := g.GetConnectedPlayersCount
    AnsweredCount := (GetQuestionStatsOrCreate g question.ID).2.PlayerStats.len
    AnswersStats := (expiredEntry g question).AnswersStats
    FreeTextAnswersStats := (GetQuestionStatsOrCreate g question.ID).2.FreeTextAnswersStats }

/-- No answer entry is lost and no answer count decreases. -/
def CountsGrow (m m' : GoMap Int AnswerStat) : Prop :=
  ∀ a st, m.get? a = some st → ∃ st', m'.get? a = some st' ∧ st.Count ≤ st'.Count

/-- Within the statistics of one question: no answer entry, per-player result
or free-text entry is lost, and no answer count decreases. -/
def StatsGrow (s s' : QuestionStats) : Prop :=
  CountsGrow s.AnswersStats s'.AnswersStats ∧
  (∀ login, (s.PlayerStats.get? login).isSome → (s'.PlayerStats.get? login).isSome) ∧
  s.FreeTextAnswersStats <+: s'.FreeTextAnswersStats

/-- No cumulative player entry is lost and no cumulative count decreases. -/
def PlayersGrow (m m' : GoMap String PlayerStat) : Prop :=
  ∀ login p, m.get? login = some p →
    ∃ p', m'.get? login = some p' ∧ p.CountAnswered ≤ p'.CountAnswered ∧
      p.CountCorrect ≤ p'.CountCorrect

/-- The statistics of the engine only grow from `g` to `g'`. -/
def Grows (g g' : QuizGame) : Prop :=
  (∀ q s, g.questionStats.get? q = some s →
    ∃ s', g'.questionStats.get? q = some s' ∧ StatsGrow s s') ∧
  PlayersGrow g.playerStats g'.playerStats

/-- Fields no submission and no timer expiry writes. -/
def SameProgress (g g' : QuizGame) : Prop :=
  g'.currentQuestionIndex = g.currentQuestionIndex ∧ g'.quiz = g.quiz ∧
    g'.SessionID = g.SessionID ∧ g'.GetConnectedPlayersCount = g.GetConnectedPlayersCount

/-- Every timer the call has stopped referencing was left stopped or fired. -/
def RetiresQuietly (g g' : QuizGame) : Prop :=
  ∀ t ∈ g'.retiredTimers, t ∈ g.retiredTimers ∨ t.pending = false

/-- Invariant of the hub over the clients registered so far: a client of the
flat set has been registered, its channel is open, it is in the list of its
session and its session has a `Session`; the channel of a client never
registered is open; the engine of a session carries the id of the session. -/
def Hub.Sound (h : Hub) (registered : List Client) : Prop :=
  (∀ client, h.clients.get? client ≠ none → client ∈ registered) ∧
  (∀ client, h.clients.get? client ≠ none →
    (h.queue client).closed = false ∧ client ∈ h.connections client.SessionID ∧
      h.sessions.get? client.SessionID ≠ none) ∧
  (∀ client, client ∉ registered → (h.queue client).closed = false) ∧
  (∀ s session, h.sessions.get? s = some session → session.QuizGame.SessionID = s)

/-- Soundness of the cumulative statistics: every entry counts no negative
number of correct answers, no more correct answers than answers, and carries
the login it is stored under. -/
def PlayersSound (g : QuizGame) : Prop :=
  ∀ login p, g.playerStats.get? login = some p →
    0 ≤ p.CountCorrect ∧ p.CountCorrect ≤ p.CountAnswered ∧ p.PlayerLogin = login

/-- Invariant of the hub after the events `past`: no connection was
registered twice; a connection of the flat set has been registered; the list
of a session is made of the registered connections of that session that are
in the flat set, in the order of their registration; the queue of a
connection is closed exactly when the connection has been registered and is
no longer in the flat set, which is when it has been unregistered. -/
def Hub.Tracks (h : Hub) (past : List HubEvent) : Prop :=
  (registrations past).Nodup ∧
  (∀ client, h.clients.get? client ≠ none → client ∈ registrations past) ∧
  (∀ s, h.connections s =
    (registrations past).filter fun client =>
      decide (client.SessionID = s) && (h.clients.get? client).isSome) ∧
  (∀ client, (h.queue client).closed = true ↔
    (client ∈ registrations past ∧ h.clients.get? client = none)) ∧
  (∀ client, Unregistered past client ↔
    (client ∈ registrations past ∧ h.clients.get? client = none))

/-! ## Lemmas on Go maps -/

namespace GoMap

variable {K V : Type} [DecidableEq K]

theorem lookup_setEntries_self (k : K) (v : V) (l : List (K × V)) :
    lookupEntries k (setEntries k v l) = some v := by
  induction l with
  | nil => simp [setEntries, lookupEntries]
  | cons e rest ih =>
    by_cases h : e.1 = k
    · simp [setEntries, lookupEntries, h]
    · simp [setEntries, lookupEntries, h, ih]

theorem lookup_setEntries_ne (k k' : K) (v : V) (l : List (K × V)) (hne : k' ≠ k) :
    lookupEntries k' (setEntries k v l) = lookupEntries k' l := by
  induction l with
  | nil =>
    have : ¬ k = k' := fun c => hne c.symm
    simp [setEntries, lookupEntries, this]
  | cons e rest ih =>
    by_cases h : e.1 = k
    · have h2 : ¬ e.1 = k' := fun c => hne (c.symm.trans h)
      have h3 : ¬ k = k' := fun c => hne c.symm
      simp [setEntries, lookupEntries, h, h2, h3]
    · by_cases h2 : e.1 = k'
      · subst h2
        simp [setEntries, lookupEntries, h]
      · simp [setEntries, lookupEntries, h, h2, ih]

theorem lookup_isSome_iff (k : K) (l : List (K × V)) :
    (lookupEntries k l).isSome ↔ k ∈ l.map Prod.fst := by
  induction l with
  | nil => simp [lookupEntries]
  | cons e rest ih =>
    by_cases h : e.1 = k
    · simp [lookupEntries, h]
    · have h' : ¬ k = e.1 := fun c => h c.symm
      simp [lookupEntries, h, h', ih]

theorem length_setEntries (k : K) (v : V) (l : List (K × V)) :
    (setEntries k v l).length =
      if (lookupEntries k l).isSome then l.length else l.length + 1 := by
  induction l with
  | nil => simp [setEntries, lookupEntries]
  | cons e rest ih =>
    by_cases h : e.1 = k
    · simp [setEntries, lookupEntries, h]
    · simp only [setEntries, lookupEntries, h, if_false, List.length_cons, ih]
      split <;> rfl

@[simp] theorem get?_empty (k : K) : (empty : GoMap K V).get? k = none := rfl

omit [DecidableEq K] in
@[simp] theorem len_empty : (empty : GoMap K V).len = 0 := rfl

@[simp] theorem get?_set_self (m : GoMap K V) (k : K) (v : V) :
    (m.set k v).get? k = some v :=
  lookup_setEntries_self k v m.entries

theorem get?_set_ne (m : GoMap K V) (k k' : K) (v : V) (hne : k' ≠ k) :
    (m.set k v).get? k' = m.get? k' :=
  lookup_setEntries_ne k k' v m.entries hne

theorem get?_set (m : GoMap K V) (k k' : K) (v : V) :
    (m.set k v).get? k' = if k' = k then some v else m.get? k' := by
  by_cases h : k' = k
  · subst h; simp
  · simp [h, get?_set_ne m k k' v h]

theorem len_set (m : GoMap K V) (k : K) (v : V) :
    (m.set k v).len = if (m.get? k).isSome then m.len else m.len + 1 :=
  length_setEntries k v m.entries

end GoMap

theorem contains_iff (l : List Int) (x : Int) : contains l x = true ↔ x ∈ l := by
  induction l with
  | nil => simp [contains]
  | cons v rest ih =>
    by_cases h : v = x
    · simp [contains, h]
    · have h' : ¬ x = v := fun c => h c.symm
      simp [contains, h, h', ih]

theorem firstInvalidAnswer_none_iff (valid answers : List Int) :
    firstInvalidAnswer valid answers = none ↔ ∀ i ∈ answers, i ∈ valid := by
  induction answers with
  | nil => simp [firstInvalidAnswer]
  | cons a rest ih =>
    by_cases h : contains valid a = true
    · have hm := (contains_iff valid a).1 h
      simp [firstInvalidAnswer, h, ih, hm]
    · have hm : a ∉ valid := fun c => h ((contains_iff valid a).2 c)
      simp [firstInvalidAnswer, h, hm]

/-! ## Lemmas on the grading loop -/

theorem get?_stepStats (answers : List Int) (answer : Answer) (m : GoMap Int AnswerStat)
    (id : Int) :
    (stepStats answers answer m).get? id =
      if id = answer.ID then some (gradedEntry answers answer (m.get? answer.ID))
      else m.get? id := by
  unfold stepStats
  cases hget : m.get? answer.ID with
  | none =>
    by_cases h : id = answer.ID
    · simp [GoMap.get?_set, h]
    · simp [GoMap.get?_set, h]
  | some s =>
    by_cases h : id = answer.ID
    · simp [GoMap.get?_set, h]
    · simp [GoMap.get?_set, h]

theorem gradeAnswers_cons (questionId : Int) (answers : List Int) (answer : Answer)
    (rest : List Answer) (qs : QuestionStats) (ok : Bool) :
    gradeAnswers questionId answers (answer :: rest) qs ok =
      gradeAnswers questionId answers rest
        { qs with AnswersStats := stepStats answers answer qs.AnswersStats }
        (ok && agrees answers answer) := by
  cases hget : qs.AnswersStats.get? answer.ID with
  | none =>
    cases hc : contains answers answer.ID with
    | true =>
      simp only [gradeAnswers, QuestionStats.GetAnswerStatsOrCreate, hget, hc, if_true,
        stepStats, gradedEntry]
      by_cases h1 : answer.Correct = ANSWER_CORRECT_CORRECT <;> simp [agrees, hc, h1]
    | false =>
      simp only [gradeAnswers, QuestionStats.GetAnswerStatsOrCreate, hget, hc, stepStats,
        gradedEntry]
      by_cases h1 : answer.Correct = ANSWER_CORRECT_INCORRECT <;> simp [agrees, hc, h1]
  | some s =>
    cases hc : contains answers answer.ID with
    | true =>
      simp only [gradeAnswers, QuestionStats.GetAnswerStatsOrCreate, hget, hc, if_true,
        stepStats, gradedEntry]
      by_cases h1 : answer.Correct = ANSWER_CORRECT_CORRECT <;> simp [agrees, hc, h1]
    | false =>
      simp only [gradeAnswers, QuestionStats.GetAnswerStatsOrCreate, hget, hc, stepStats,
        gradedEntry]
      by_cases h1 : answer.Correct = ANSWER_CORRECT_INCORRECT <;> simp [agrees, hc, h1]

theorem gradeAnswers_eq (questionId : Int) (answers : List Int) (as : List Answer)
    (qs : QuestionStats) (ok : Bool) :
    gradeAnswers questionId answers as qs ok =
      ({ qs with AnswersStats := foldStats answers as qs.AnswersStats },
        ok && as.all (agrees answers)) := by
  induction as generalizing qs ok with
  | nil => simp [gradeAnswers, foldStats]
  | cons a rest ih =>
    rw [gradeAnswers_cons, ih]
    simp [foldStats, Bool.and_assoc]

theorem get?_foldStats_of_not_mem (answers : List Int) (as : List Answer)
    (m : GoMap Int AnswerStat) (id : Int) (h : id ∉ as.map (fun a => a.ID)) :
    (foldStats answers as m).get? id = m.get? id := by
  induction as generalizing m with
  | nil => rfl
  | cons a rest ih =>
    simp only [List.map_cons, List.mem_cons, not_or] at h
    rw [foldStats, ih _ h.2, get?_stepStats, if_neg h.1]

theorem get?_foldStats_of_mem (answers : List Int) (as : List Answer)
    (m : GoMap Int AnswerStat) (hnodup : (as.map (fun a => a.ID)).Nodup)
    (a : Answer) (ha : a ∈ as) :
    (foldStats answers as m).get? a.ID = some (gradedEntry answers a (m.get? a.ID)) := by
  induction as generalizing m with
  | nil => cases ha
  | cons b rest ih =>
    simp only [List.map_cons, List.nodup_cons] at hnodup
    rcases List.mem_cons.1 ha with hab | hrest
    · subst hab
      rw [foldStats, get?_foldStats_of_not_mem _ _ _ _ hnodup.1, get?_stepStats, if_pos rfl]
    · have hne : a.ID ≠ b.ID := by
        intro c
        exact hnodup.1 (c ▸ List.mem_map_of_mem (fun a => a.ID) hrest)
      rw [foldStats, ih _ hnodup.2 hrest, get?_stepStats, if_neg hne]

/-! ## Lemmas on the submission path -/

theorem index?_some_bounds {α : Type} (l : List α) (i : Int) (x : α)
    (h : index? l i = some x) : 0 ≤ i ∧ i < l.length := by
  unfold index? at h
  split at h
  · cases h
  · rename_i hi
    have hlt : i.toNat < l.length := by
      rcases Nat.lt_or_ge i.toNat l.length with c | c
      · exact c
      · rw [List.getElem?_eq_none c] at h
        cases h
    omega

theorem GetQuestionStatsOrCreate_get? (g : QuizGame) (questionId : Int) :
    (GetQuestionStatsOrCreate g questionId).1.questionStats.get? questionId =
      some (GetQuestionStatsOrCreate g questionId).2 := by
  unfold GetQuestionStatsOrCreate
  cases h : g.questionStats.get? questionId with
  | none => simp
  | some s => simp [h]

theorem GetQuestionStatsOrCreate_get?_ne (g : QuizGame) (questionId other : Int)
    (hne : other ≠ questionId) :
    (GetQuestionStatsOrCreate g questionId).1.questionStats.get? other =
      g.questionStats.get? other := by
  unfold GetQuestionStatsOrCreate
  cases h : g.questionStats.get? questionId with
  | none => simp [GoMap.get?_set_ne _ _ _ _ hne]
  | some s => simp

theorem GetQuestionStatsOrCreate_fields (g : QuizGame) (questionId : Int) :
    (GetQuestionStatsOrCreate g questionId).1.playerStats = g.playerStats ∧
    (GetQuestionStatsOrCreate g questionId).1.questionTimer = g.questionTimer ∧
    (GetQuestionStatsOrCreate g questionId).1.GetConnectedPlayersCount =
      g.GetConnectedPlayersCount ∧
    (GetQuestionStatsOrCreate g questionId).1.quiz = g.quiz ∧
    (GetQuestionStatsOrCreate g questionId).1.currentQuestionIndex = g.currentQuestionIndex := by
  unfold GetQuestionStatsOrCreate
  cases h : g.questionStats.get? questionId <;> simp

theorem GetQuestionStatsOrCreate_playerStats (g : QuizGame) (questionId : Int)
    (login : String) :
    (GetQuestionStatsOrCreate g questionId).2.PlayerStats.get? login =
      playerResult g questionId login := by
  unfold GetQuestionStatsOrCreate playerResult
  cases h : g.questionStats.get? questionId <;> simp

theorem GetQuestionStatsOrCreate_answersStats (g : QuizGame) (questionId answerId : Int) :
    (GetQuestionStatsOrCreate g questionId).2.AnswersStats.get? answerId =
      answerStat g questionId answerId := by
  unfold GetQuestionStatsOrCreate answerStat
  cases h : g.questionStats.get? questionId <;> simp

theorem GetQuestionStatsOrCreate_len (g : QuizGame) (questionId : Int) :
    (GetQuestionStatsOrCreate g questionId).2.PlayerStats.len = answeredCount g questionId := by
  unfold GetQuestionStatsOrCreate answeredCount
  cases h : g.questionStats.get? questionId <;> simp

theorem GetQuestionStatsOrCreate_freeTexts (g : QuizGame) (questionId : Int) :
    (GetQuestionStatsOrCreate g questionId).2.FreeTextAnswersStats = freeTexts g questionId := by
  unfold GetQuestionStatsOrCreate freeTexts
  cases h : g.questionStats.get? questionId <;> simp

theorem playerResult_of_get? (g : QuizGame) (questionId : Int) (login : String)
    (s : QuestionStats) (h : g.questionStats.get? questionId = some s) :
    playerResult g questionId login = s.PlayerStats.get? login := by
  simp [playerResult, h]

theorem answerStat_of_get? (g : QuizGame) (questionId answerId : Int)
    (s : QuestionStats) (h : g.questionStats.get? questionId = some s) :
    answerStat g questionId answerId = s.AnswersStats.get? answerId := by
  simp [answerStat, h]

/-- Every check of `AnswerMCQuestion` before the validation of the ids passes. -/
theorem AnswerMCQuestion_eq_grade (g : QuizGame) (question : Question) (questionId : Int)
    (answers : List Int) (user : User) (timer : Timer)
    (hopen : OpenQuestion g question) (hid : question.ID = questionId)
    (hty : question.QuestionType = QUESTION_TYPE_MCQ)
    (htimer : g.questionTimer = some timer)
    (hfresh : ∀ r, playerResult g questionId user.Login = some r →
      r.Correct = ANSWER_CORRECT_UNKNOWN) :
    AnswerMCQuestion g questionId answers user =
      AnswerMCQuestion.grade (GetQuestionStatsOrCreate g questionId).1 question questionId
        answers user (GetQuestionStatsOrCreate g questionId).2
        (resultOrFresh (playerResult g questionId user.Login) user.Login) := by
  obtain ⟨quiz, hquiz, hq⟩ := hopen
  obtain ⟨h0, hlt⟩ := index?_some_bounds _ _ _ hq
  have ht := (GetQuestionStatsOrCreate_fields g questionId).2.1
  have hp := GetQuestionStatsOrCreate_playerStats g questionId user.Login
  unfold AnswerMCQuestion
  simp only [hquiz, not_lt.2 h0, if_false, ge_iff_le, not_le.2 hlt, hq, hid, hty, ne_eq,
    not_true_eq_false, ht, htimer, hp]
  cases hr : playerResult g questionId user.Login with
  | none => simp [resultOrFresh]
  | some r => simp [resultOrFresh, hfresh r hr]

theorem AnswerMCQuestion_grade_eq (g : QuizGame) (question : Question) (questionId : Int)
    (answers : List Int) (user : User) (qs : QuestionStats) (qps : QuestionPlayerStat)
    (hvalid : ∀ i ∈ answers, i ∈ question.Answers.map (fun a => a.ID)) :
    AnswerMCQuestion.grade g question questionId answers user qs qps =
      .returned
        { g with
          playerStats := g.playerStats.set user.Login
            (playerStatAfter (g.playerStats.get? user.Login) user.Login
              (question.Answers.all (agrees answers)))
          questionTimer :=
            if g.GetConnectedPlayersCount =
                ((mcResultsAfter qs user.Login qps
                  (question.Answers.all (agrees answers))).len : Int) then none
            else g.questionTimer
          retiredTimers :=
            if g.GetConnectedPlayersCount =
                ((mcResultsAfter qs user.Login qps
                  (question.Answers.all (agrees answers))).len : Int) then
              g.retiredTimers ++ (g.questionTimer.map Timer.Stop).toList
            else g.retiredTimers
          questionStats := g.questionStats.set questionId
            (mcStatsAfter qs question answers user.Login qps g.GetConnectedPlayersCount) }
        ⟨some
          { Envelope :=
              { MsgType := MESSAGE_TYPE_QUIZ_MESSAGE
                Action :=
                  if g.GetConnectedPlayersCount =
                      ((mcResultsAfter qs user.Login qps
                        (question.Answers.all (agrees answers))).len : Int) then
                    QUIZ_MESSAGE_ACTION_QUESTION_END
                  else QUIZ_MESSAGE_ACTION_QUESTION_STATS
                Timestamp := 0, ClientId := "" }
            QuestionID := questionId
            Status :=
              (mcStatsAfter qs question answers user.Login qps
                g.GetConnectedPlayersCount).QuestionStatus
            LearnersCount := g.GetConnectedPlayersCount
            AnsweredCount :=
              (mcResultsAfter qs user.Login qps (question.Answers.all (agrees answers))).len
            AnswersStats := foldStats answers question.Answers qs.AnswersStats
            FreeTextAnswersStats := qs.FreeTextAnswersStats }, none⟩ := by
  have hv := (firstInvalidAnswer_none_iff _ _).2 hvalid
  unfold AnswerMCQuestion.grade mcStatsAfter
  simp only [hv, gradeAnswers_eq, Bool.true_and]
  generalize question.Answers.all (agrees answers) = flag
  cases flag <;> cases hp : g.playerStats.get? user.Login <;>
    simp only [getQuizQuestionStatsMessage, mcResultsAfter, playerStatAfter, if_true,
      QuizGame.setQuestionTimer,
      Bool.false_eq_true, if_false, GoMap.get?_set_self] <;>
    split <;> simp [*]

/-- Closed form of a graded multiple-choice submission. -/
theorem AnswerMCQuestion_graded (g : QuizGame) (question : Question) (questionId : Int)
    (answers : List Int) (user : User) (timer : Timer)
    (hopen : OpenQuestion g question) (hid : question.ID = questionId)
    (hty : question.QuestionType = QUESTION_TYPE_MCQ)
    (htimer : g.questionTimer = some timer)
    (hfresh : ∀ r, playerResult g questionId user.Login = some r →
      r.Correct = ANSWER_CORRECT_UNKNOWN)
    (hvalid : ∀ i ∈ answers, i ∈ question.Answers.map (fun a => a.ID)) :
    ∃ g' m, AnswerMCQuestion g questionId answers user = .returned g' ⟨some m, none⟩ ∧
      g'.questionStats.get? questionId =
        some (mcStatsAfter (GetQuestionStatsOrCreate g questionId).2 question answers user.Login
          (resultOrFresh (playerResult g questionId user.Login) user.Login)
          g.GetConnectedPlayersCount) ∧
      g'.playerStats = g.playerStats.set user.Login
        (playerStatAfter (g.playerStats.get? user.Login) user.Login
          (question.Answers.all (agrees answers))) ∧
      g'.questionTimer =
        (if g.GetConnectedPlayersCount =
            ((mcResultsAfter (GetQuestionStatsOrCreate g questionId).2 user.Login
              (resultOrFresh (playerResult g questionId user.Login) user.Login)
              (question.Answers.all (agrees answers))).len : Int) then none
        else some timer) ∧
      g'.GetConnectedPlayersCount = g.GetConnectedPlayersCount ∧
      m.Envelope.MsgType = MESSAGE_TYPE_QUIZ_MESSAGE ∧
      m.Envelope.Action =
        (if g.GetConnectedPlayersCount =
            ((mcResultsAfter (GetQuestionStatsOrCreate g questionId).2 user.Login
              (resultOrFresh (playerResult g questionId user.Login) user.Login)
              (question.Answers.all (agrees answers))).len : Int) then
          QUIZ_MESSAGE_ACTION_QUESTION_END
        else QUIZ_MESSAGE_ACTION_QUESTION_STATS) ∧
      m.QuestionID = questionId ∧
      m.Status =
        (mcStatsAfter (GetQuestionStatsOrCreate g questionId).2 question answers user.Login
          (resultOrFresh (playerResult g questionId user.Login) user.Login)
          g.GetConnectedPlayersCount).QuestionStatus ∧
      m.LearnersCount = g.GetConnectedPlayersCount ∧
      m.AnsweredCount =
        (mcResultsAfter (GetQuestionStatsOrCreate g questionId).2 user.Login
          (resultOrFresh (playerResult g questionId user.Login) user.Login)
          (question.Answers.all (agrees answers))).len ∧
      m.AnswersStats =
        foldStats answers question.Answers (GetQuestionStatsOrCreate g questionId).2.AnswersStats ∧
      m.FreeTextAnswersStats = freeTexts g questionId := by
  obtain ⟨hps, ht, hcnt, -, -⟩ := GetQuestionStatsOrCreate_fields g questionId
  rw [AnswerMCQuestion_eq_grade g question questionId answers user timer hopen hid hty htimer
    hfresh, AnswerMCQuestion_grade_eq _ _ _ _ _ _ _ hvalid]
  refine ⟨_, _, rfl, ?_⟩
  simp only [GoMap.get?_set_self, hps, ht, hcnt, htimer, GetQuestionStatsOrCreate_freeTexts,
    and_self]

theorem all_agrees_iff (question : Question) (answers : List Int)
    (hvalid : ∀ i ∈ answers, i ∈ question.Answers.map (fun a => a.ID))
    (hnodup : (question.Answers.map (fun a => a.ID)).Nodup)
    (hbin : ∀ a ∈ question.Answers,
      a.Correct = ANSWER_CORRECT_INCORRECT ∨ a.Correct = ANSWER_CORRECT_CORRECT) :
    question.Answers.all (agrees answers) = true ↔
      ∀ i, i ∈ answers ↔
        ∃ a ∈ question.Answers, a.ID = i ∧ a.Correct = ANSWER_CORRECT_CORRECT := by
  have hne : ANSWER_CORRECT_INCORRECT ≠ ANSWER_CORRECT_CORRECT := by decide
  have hag : ∀ a ∈ question.Answers,
      (agrees answers a = true ↔ (a.ID ∈ answers ↔ a.Correct = ANSWER_CORRECT_CORRECT)) := by
    intro a ha
    unfold agrees
    by_cases hc : contains answers a.ID = true
    · have hm := (contains_iff _ _).1 hc
      simp [hc, hm]
    · have hm : a.ID ∉ answers := fun c => hc ((contains_iff _ _).2 c)
      rcases hbin a ha with h0 | h1
      · simp [hc, hm, h0, hne]
      · simp [hc, hm, h1, hne.symm]
  rw [List.all_eq_true]
  constructor
  · intro h i
    constructor
    · intro hi
      obtain ⟨a, ha, hai⟩ := List.mem_map.1 (hvalid i hi)
      exact ⟨a, ha, hai, ((hag a ha).1 (h a ha)).1 (hai ▸ hi)⟩
    · rintro ⟨a, ha, hai, hcorr⟩
      exact hai ▸ ((hag a ha).1 (h a ha)).2 hcorr
  · intro h a ha
    refine (hag a ha).2 ⟨fun hsel => ?_, fun hcorr => (h a.ID).2 ⟨a, ha, rfl, hcorr⟩⟩
    obtain ⟨b, hb, hba, hcorr⟩ := (h a.ID).1 hsel
    have : b = a := List.inj_on_of_nodup_map hnodup hb ha hba
    exact this ▸ hcorr

/-! ## Claims -/

/-- C1 (as amended): on a multiple-choice question whose answer ids are
pairwise distinct and whose answers are each recorded as correct or incorrect,
a graded submission of ids of the question is counted correct (per-question
result correct, `countCorrect` plus one) exactly when the selected ids are the
ids of the correct answers. -/
theorem C1_grading_iff_exact_set (g : QuizGame) (question : Question) (questionId : Int)
    (answers : List Int) (user : User) (timer : Timer)
    (hopen : OpenQuestion g question) (hid : question.ID = questionId)
    (hty : question.QuestionType = QUESTION_TYPE_MCQ)
    (htimer : g.questionTimer = some timer)
    (hfresh : ∀ r, playerResult g questionId user.Login = some r →
      r.Correct = ANSWER_CORRECT_UNKNOWN)
    (hvalid : ∀ i ∈ answers, i ∈ question.Answers.map (fun a => a.ID))
    (hnodup : (question.Answers.map (fun a => a.ID)).Nodup)
    (hbin : ∀ a ∈ question.Answers,
      a.Correct = ANSWER_CORRECT_INCORRECT ∨ a.Correct = ANSWER_CORRECT_CORRECT) :
    ∃ g' m, AnswerMCQuestion g questionId answers user = .returned g' ⟨some m, none⟩ ∧
      (((playerResult g' questionId user.Login).map (fun r => r.Correct) =
          some ANSWER_CORRECT_CORRECT) ↔
        ∀ i, i ∈ answers ↔
          ∃ a ∈ question.Answers, a.ID = i ∧ a.Correct = ANSWER_CORRECT_CORRECT) ∧
      ((countCorrect g' user.Login = countCorrect g user.Login + 1) ↔
        ∀ i, i ∈ answers ↔
          ∃ a ∈ question.Answers, a.ID = i ∧ a.Correct = ANSWER_CORRECT_CORRECT) ∧
      (countCorrect g' user.Login = countCorrect g user.Login ∨
        countCorrect g' user.Login = countCorrect g user.Login + 1) := by
  obtain ⟨g', m, hret, hqs, hps, -⟩ :=
    AnswerMCQuestion_graded g question questionId answers user timer hopen hid hty htimer
      hfresh hvalid
  have hiff := all_agrees_iff question answers hvalid hnodup hbin
  have hunk : (resultOrFresh (playerResult g questionId user.Login) user.Login).Correct =
      ANSWER_CORRECT_UNKNOWN := by
    cases hr : playerResult g questionId user.Login with
    | none => rfl
    | some r => exact hfresh r hr
  have hne : ANSWER_CORRECT_UNKNOWN ≠ ANSWER_CORRECT_CORRECT := by decide
  refine ⟨g', m, hret, ?_, ?_, ?_⟩
  · rw [← hiff]
    have hres : playerResult g' questionId user.Login =
        some (if question.Answers.all (agrees answers) then
          { resultOrFresh (playerResult g questionId user.Login) user.Login with
            Correct := ANSWER_CORRECT_CORRECT }
        else resultOrFresh (playerResult g questionId user.Login) user.Login) := by
      rw [playerResult_of_get? _ _ _ _ hqs]
      simp [mcStatsAfter, mcResultsAfter]
    rw [hres]
    cases hflag : question.Answers.all (agrees answers)
    · simp [hunk, hne]
    · simp
  · rw [← hiff]
    simp only [countCorrect, hps, GoMap.get?_set_self, playerStatAfter]
    cases hflag : question.Answers.all (agrees answers) <;>
      cases hp : g.playerStats.get? user.Login <;> simp
  · simp only [countCorrect, hps, GoMap.get?_set_self, playerStatAfter]
    cases hflag : question.Answers.all (agrees answers) <;>
      cases hp : g.playerStats.get? user.Login <;> simp

/-- Witness of C1: the first graded submission of `TestQuizGameAnsweringQuestion`. -/
theorem C1_grading_iff_exact_set_witness :
    ∃ g' m, AnswerMCQuestion firstQuestionOpen 101 [1001] (userNamed "login1") =
        .returned g' ⟨some m, none⟩ ∧
      (((playerResult g' 101 (userNamed "login1").Login).map (fun r => r.Correct) =
          some ANSWER_CORRECT_CORRECT) ↔
        ∀ i, i ∈ [1001] ↔
          ∃ a ∈ question101.Answers, a.ID = i ∧ a.Correct = ANSWER_CORRECT_CORRECT) ∧
      ((countCorrect g' (userNamed "login1").Login =
          countCorrect firstQuestionOpen (userNamed "login1").Login + 1) ↔
        ∀ i, i ∈ [1001] ↔
          ∃ a ∈ question101.Answers, a.ID = i ∧ a.Correct = ANSWER_CORRECT_CORRECT) ∧
      (countCorrect g' (userNamed "login1").Login =
          countCorrect firstQuestionOpen (userNamed "login1").Login ∨
        countCorrect g' (userNamed "login1").Login =
          countCorrect firstQuestionOpen (userNamed "login1").Login + 1) :=
  C1_grading_iff_exact_set firstQuestionOpen question101 101 [1001] (userNamed "login1")
    { question := question101, duration := 1800000000000, stopped := false }
    ⟨validQuiz, by decide, by decide⟩ (by decide) (by decide) (by decide)
    (fun r h => by
      rw [show playerResult firstQuestionOpen 101 (userNamed "login1").Login = none
        from by decide] at h
      cases h)
    (by decide) (by decide) (by decide)

/-- C1 (counterexample): `question201` has pairwise distinct answer ids, the
submission `[2001]` is graded and selects exactly the ids of the correct
answers, yet it is not counted correct, because the unselected answer 2002 is
recorded as unknown rather than incorrect. -/
theorem C1_counterexample :
    OpenQuestion unknownQuestionOpen question201 ∧
    (question201.Answers.map (fun a => a.ID)).Nodup ∧
    (∀ i, i ∈ [2001] ↔
      ∃ a ∈ question201.Answers, a.ID = i ∧ a.Correct = ANSWER_CORRECT_CORRECT) ∧
    (AnswerMCQuestion unknownQuestionOpen 201 [2001] (userNamed "login1")).value?.map
      (fun r => r.err) = some none ∧
    countAnswered (AnswerMCQuestion unknownQuestionOpen 201 [2001] (userNamed "login1")).game
      "login1" = countAnswered unknownQuestionOpen "login1" + 1 ∧
    (playerResult (AnswerMCQuestion unknownQuestionOpen 201 [2001] (userNamed "login1")).game
      201 "login1").map (fun r => r.Correct) = some ANSWER_CORRECT_UNKNOWN ∧
    countCorrect (AnswerMCQuestion unknownQuestionOpen 201 [2001] (userNamed "login1")).game
      "login1" = countCorrect unknownQuestionOpen "login1" := by
  refine ⟨⟨unknownQuiz, by decide, by decide⟩, by decide, ?_, by decide, by decide, by decide,
    by decide⟩
  intro i
  constructor
  · intro hi
    rw [List.mem_singleton] at hi
    subst hi
    exact ⟨_, List.mem_cons_self _ _, rfl, rfl⟩
  · rintro ⟨a, ha, hai, hc⟩
    simp only [question201, List.mem_cons, List.mem_singleton, List.not_mem_nil, or_false] at ha
    rcases ha with h | h
    · subst h; subst hai; simp
    · subst h; exact absurd hc (by decide)

/-- C2 (evaluation at the failing input): `login1` answers question 101 wrongly
and is graded (counted once, timer still armed); the same submission sent again
is graded a second time instead of being rejected as already answered: no error,
a statistics message, and both `countAnswered` and the count of answer 1002 go
from 1 to 2. -/
theorem C2_wrong_answer_is_regraded :
    (AnswerMCQuestion firstQuestionOpen 101 [1002] (userNamed "login1")).value?.map
      (fun r => (r.msg.isSome, r.err)) = some (true, none) ∧
    afterWrongAnswer.questionTimer.isSome = true ∧
    countAnswered afterWrongAnswer "login1" = 1 ∧
    countCorrect afterWrongAnswer "login1" = 0 ∧
    answerCount afterWrongAnswer 101 1002 = 1 ∧
    (playerResult afterWrongAnswer 101 "login1").map (fun r => r.Correct) =
      some ANSWER_CORRECT_UNKNOWN ∧
    (AnswerMCQuestion afterWrongAnswer 101 [1002] (userNamed "login1")).value?.map
      (fun r => (r.msg.isSome, r.err)) = some (true, none) ∧
    countAnswered (AnswerMCQuestion afterWrongAnswer 101 [1002] (userNamed "login1")).game
      "login1" = 2 ∧
    answerCount (AnswerMCQuestion afterWrongAnswer 101 [1002] (userNamed "login1")).game
      101 1002 = 2 := by
  decide

/-- A login whose per-question result is already decided is rejected, and the
engine state is left as it was. -/
theorem AnswerMCQuestion_already_answered (g : QuizGame) (question : Question)
    (questionId : Int) (answers : List Int) (user : User) (timer : Timer)
    (r : QuestionPlayerStat)
    (hopen : OpenQuestion g question) (hid : question.ID = questionId)
    (hty : question.QuestionType = QUESTION_TYPE_MCQ)
    (htimer : g.questionTimer = some timer)
    (hres : playerResult g questionId user.Login = some r)
    (hdecided : r.Correct ≠ ANSWER_CORRECT_UNKNOWN) :
    AnswerMCQuestion g questionId answers user =
      .returned g ⟨none, some (.alreadyAnswered user.Login questionId)⟩ := by
  obtain ⟨quiz, hquiz, hq⟩ := hopen
  obtain ⟨h0, hlt⟩ := index?_some_bounds _ _ _ hq
  cases hs : g.questionStats.get? questionId with
  | none => simp [playerResult, hs] at hres
  | some s =>
    have hres' : s.PlayerStats.get? user.Login = some r := by
      simpa [playerResult, hs] using hres
    unfold AnswerMCQuestion
    simp only [hquiz, not_lt.2 h0, if_false, ge_iff_le, not_le.2 hlt, hq, hid, hty, ne_eq,
      not_true_eq_false, GetQuestionStatsOrCreate, hs, htimer, hres', hdecided, if_true,
      not_false_eq_true]

/-- Every check of `AnswerFreeTextQuestion` before the recording passes. -/
theorem AnswerFreeTextQuestion_eq_grade (g : QuizGame) (question : Question)
    (questionId : Int) (answers : List String) (user : User) (timer : Timer)
    (hopen : OpenQuestion g question) (hid : question.ID = questionId)
    (hty : question.QuestionType = QUESTION_TYPE_FREE_TEXT)
    (htimer : g.questionTimer = some timer)
    (hfresh : ∀ r, playerResult g questionId user.Login = some r →
      r.Correct = ANSWER_CORRECT_UNKNOWN) :
    AnswerFreeTextQuestion g questionId answers user =
      AnswerFreeTextQuestion.grade (GetQuestionStatsOrCreate g questionId).1 questionId
        answers user (GetQuestionStatsOrCreate g questionId).2
        (resultOrFresh (playerResult g questionId user.Login) user.Login) := by
  obtain ⟨quiz, hquiz, hq⟩ := hopen
  obtain ⟨h0, hlt⟩ := index?_some_bounds _ _ _ hq
  have ht := (GetQuestionStatsOrCreate_fields g questionId).2.1
  have hp := GetQuestionStatsOrCreate_playerStats g questionId user.Login
  unfold AnswerFreeTextQuestion
  simp only [hquiz, not_lt.2 h0, if_false, ge_iff_le, not_le.2 hlt, hq, hid, hty, ne_eq,
    not_true_eq_false, ht, htimer, hp]
  cases hr : playerResult g questionId user.Login with
  | none => simp [resultOrFresh]
  | some r => simp [resultOrFresh, hfresh r hr]

theorem AnswerFreeTextQuestion_grade_eq (g : QuizGame) (questionId : Int) (text : String)
    (rest : List String) (user : User) (qs : QuestionStats) (qps : QuestionPlayerStat) :
    AnswerFreeTextQuestion.grade g questionId (text :: rest) user qs qps =
      .returned
        { g with
          playerStats := g.playerStats.set user.Login
            (playerStatAfter (g.playerStats.get? user.Login) user.Login false)
          questionTimer :=
            if g.GetConnectedPlayersCount = ((ftResultsAfter qs user.Login qps).len : Int) then
              none
            else g.questionTimer
          retiredTimers :=
            if g.GetConnectedPlayersCount = ((ftResultsAfter qs user.Login qps).len : Int) then
              g.retiredTimers ++ (g.questionTimer.map Timer.Stop).toList
            else g.retiredTimers
          questionStats := g.questionStats.set questionId
            (ftStatsAfter qs user.Login qps text g.GetConnectedPlayersCount) }
        ⟨some
          { Envelope :=
              { MsgType := MESSAGE_TYPE_QUIZ_MESSAGE
                Action :=
                  if g.GetConnectedPlayersCount =
                      ((ftResultsAfter qs user.Login qps).len : Int) then
                    QUIZ_MESSAGE_ACTION_QUESTION_END
                  else QUIZ_MESSAGE_ACTION_QUESTION_STATS
                Timestamp := 0, ClientId := "" }
            QuestionID := questionId
            Status :=
              (ftStatsAfter qs user.Login qps text g.GetConnectedPlayersCount).QuestionStatus
            LearnersCount := g.GetConnectedPlayersCount
            AnsweredCount := (ftResultsAfter qs user.Login qps).len
            AnswersStats := qs.AnswersStats
            FreeTextAnswersStats :=
              qs.FreeTextAnswersStats ++ [{ Text := text, Login := user.Login }] }, none⟩ := by
  unfold AnswerFreeTextQuestion.grade ftStatsAfter
  have hidx : index? (text :: rest) 0 = some text := by simp [index?]
  simp only [hidx]
  cases hp : g.playerStats.get? user.Login <;>
    simp only [getQuizQuestionStatsMessage, ftResultsAfter, playerStatAfter,
      QuizGame.setQuestionTimer,
      Bool.false_eq_true, if_false, GoMap.get?_set_self] <;>
    split <;> simp [*]

/-- Closed form of a graded free-text submission. -/
theorem AnswerFreeTextQuestion_graded (g : QuizGame) (question : Question) (questionId : Int)
    (text : String) (rest : List String) (user : User) (timer : Timer)
    (hopen : OpenQuestion g question) (hid : question.ID = questionId)
    (hty : question.QuestionType = QUESTION_TYPE_FREE_TEXT)
    (htimer : g.questionTimer = some timer)
    (hfresh : ∀ r, playerResult g questionId user.Login = some r →
      r.Correct = ANSWER_CORRECT_UNKNOWN) :
    ∃ g' m, AnswerFreeTextQuestion g questionId (text :: rest) user =
        .returned g' ⟨some m, none⟩ ∧
      g'.questionStats.get? questionId =
        some (ftStatsAfter (GetQuestionStatsOrCreate g questionId).2 user.Login
          (resultOrFresh (playerResult g questionId user.Login) user.Login) text
          g.GetConnectedPlayersCount) ∧
      g'.playerStats = g.playerStats.set user.Login
        (playerStatAfter (g.playerStats.get? user.Login) user.Login false) ∧
      g'.questionTimer =
        (if g.GetConnectedPlayersCount =
            ((ftResultsAfter (GetQuestionStatsOrCreate g questionId).2 user.Login
              (resultOrFresh (playerResult g questionId user.Login) user.Login)).len : Int)
          then none
        else some timer) ∧
      g'.GetConnectedPlayersCount = g.GetConnectedPlayersCount ∧
      m.Envelope.MsgType = MESSAGE_TYPE_QUIZ_MESSAGE ∧
      m.Envelope.Action =
        (if g.GetConnectedPlayersCount =
            ((ftResultsAfter (GetQuestionStatsOrCreate g questionId).2 user.Login
              (resultOrFresh (playerResult g questionId user.Login) user.Login)).len : Int)
          then QUIZ_MESSAGE_ACTION_QUESTION_END
        else QUIZ_MESSAGE_ACTION_QUESTION_STATS) ∧
      m.QuestionID = questionId ∧
      m.Status =
        (ftStatsAfter (GetQuestionStatsOrCreate g questionId).2 user.Login
          (resultOrFresh (playerResult g questionId user.Login) user.Login) text
          g.GetConnectedPlayersCount).QuestionStatus := by
  obtain ⟨hps, ht, hcnt, -, -⟩ := GetQuestionStatsOrCreate_fields g questionId
  rw [AnswerFreeTextQuestion_eq_grade g question questionId (text :: rest) user timer hopen hid
    hty htimer hfresh, AnswerFreeTextQuestion_grade_eq]
  refine ⟨_, _, rfl, ?_⟩
  simp only [GoMap.get?_set_self, hps, ht, hcnt, htimer, and_self]

theorem answeredCount_of_get? (g : QuizGame) (questionId : Int) (s : QuestionStats)
    (h : g.questionStats.get? questionId = some s) :
    answeredCount g questionId = s.PlayerStats.len := by
  simp [answeredCount, h]

theorem questionStatus_of_get? (g : QuizGame) (questionId : Int) (s : QuestionStats)
    (h : g.questionStats.get? questionId = some s) :
    questionStatus g questionId = some s.QuestionStatus := by
  simp [questionStatus, h]

/-- Convergence rule on the multiple-choice path. -/
theorem AnswerMCQuestion_convergence (g : QuizGame) (question : Question) (questionId : Int)
    (answers : List Int) (user : User) (timer : Timer)
    (hopen : OpenQuestion g question) (hid : question.ID = questionId)
    (hty : question.QuestionType = QUESTION_TYPE_MCQ)
    (htimer : g.questionTimer = some timer)
    (hfresh : ∀ r, playerResult g questionId user.Login = some r →
      r.Correct = ANSWER_CORRECT_UNKNOWN)
    (hvalid : ∀ i ∈ answers, i ∈ question.Answers.map (fun a => a.ID)) :
    ∃ g' m, AnswerMCQuestion g questionId answers user = .returned g' ⟨some m, none⟩ ∧
      ((questionStatus g' questionId = some QUESTION_STATUS_ENDED ∧
          m.Status = QUESTION_STATUS_ENDED ∧
          m.Envelope.Action = QUIZ_MESSAGE_ACTION_QUESTION_END ∧
          g'.questionTimer = none) ↔
        (answeredCount g' questionId : Int) = g'.GetConnectedPlayersCount) ∧
      ((answeredCount g' questionId : Int) ≠ g'.GetConnectedPlayersCount →
        questionStatus g' questionId = some QUESTION_STATUS_IN_PROGRESS ∧
          m.Status = QUESTION_STATUS_IN_PROGRESS ∧
          m.Envelope.Action = QUIZ_MESSAGE_ACTION_QUESTION_STATS ∧
          g'.questionTimer = some timer) := by
  obtain ⟨g', m, hret, hqs, -, ht, hcnt, -, hact, -, hst, -⟩ :=
    AnswerMCQuestion_graded g question questionId answers user timer hopen hid hty htimer
      hfresh hvalid
  refine ⟨g', m, hret, ?_⟩
  rw [answeredCount_of_get? _ _ _ hqs, questionStatus_of_get? _ _ _ hqs, hcnt, hst, hact, ht]
  simp only [mcStatsAfter]
  by_cases hconv : g.GetConnectedPlayersCount =
      ((mcResultsAfter (GetQuestionStatsOrCreate g questionId).2 user.Login
        (resultOrFresh (playerResult g questionId user.Login) user.Login)
        (question.Answers.all (agrees answers))).len : Int)
  · simp [hconv]
  · have hconv' := fun c => hconv (Eq.symm c)
    simp only [hconv, if_false]
    refine ⟨⟨fun h => ?_, fun h => absurd h hconv'⟩, fun _ => by simp⟩
    exact absurd h.2.2.2 (by simp)

/-- Convergence rule on the free-text path. -/
theorem AnswerFreeTextQuestion_convergence (g : QuizGame) (question : Question)
    (questionId : Int) (text : String) (rest : List String) (user : User) (timer : Timer)
    (hopen : OpenQuestion g question) (hid : question.ID = questionId)
    (hty : question.QuestionType = QUESTION_TYPE_FREE_TEXT)
    (htimer : g.questionTimer = some timer)
    (hfresh : ∀ r, playerResult g questionId user.Login = some r →
      r.Correct = ANSWER_CORRECT_UNKNOWN) :
    ∃ g' m, AnswerFreeTextQuestion g questionId (text :: rest) user =
        .returned g' ⟨some m, none⟩ ∧
      ((questionStatus g' questionId = some QUESTION_STATUS_ENDED ∧
          m.Status = QUESTION_STATUS_ENDED ∧
          m.Envelope.Action = QUIZ_MESSAGE_ACTION_QUESTION_END ∧
          g'.questionTimer = none) ↔
        (answeredCount g' questionId : Int) = g'.GetConnectedPlayersCount) ∧
      ((answeredCount g' questionId : Int) ≠ g'.GetConnectedPlayersCount →
        questionStatus g' questionId = some QUESTION_STATUS_IN_PROGRESS ∧
          m.Status = QUESTION_STATUS_IN_PROGRESS ∧
          m.Envelope.Action = QUIZ_MESSAGE_ACTION_QUESTION_STATS ∧
          g'.questionTimer = some timer) := by
  obtain ⟨g', m, hret, hqs, -, ht, hcnt, -, hact, -, hst⟩ :=
    AnswerFreeTextQuestion_graded g question questionId text rest user timer hopen hid hty
      htimer hfresh
  refine ⟨g', m, hret, ?_⟩
  rw [answeredCount_of_get? _ _ _ hqs, questionStatus_of_get? _ _ _ hqs, hcnt, hst, hact, ht]
  simp only [ftStatsAfter]
  by_cases hconv : g.GetConnectedPlayersCount =
      ((ftResultsAfter (GetQuestionStatsOrCreate g questionId).2 user.Login
        (resultOrFresh (playerResult g questionId user.Login) user.Login)).len : Int)
  · simp [hconv]
  · have hconv' := fun c => hconv (Eq.symm c)
    simp only [hconv, if_false]
    refine ⟨⟨fun h => ?_, fun h => absurd h hconv'⟩, fun _ => by simp⟩
    exact absurd h.2.2.2 (by simp)

/-- What a graded multiple-choice submission does to the timer: either it
calls `Stop` on it and clears the field, or it leaves both as they were. -/
theorem AnswerMCQuestion_graded_timer (g : QuizGame) (question : Question) (questionId : Int)
    (answers : List Int) (user : User) (timer : Timer)
    (hopen : OpenQuestion g question) (hid : question.ID = questionId)
    (hty : question.QuestionType = QUESTION_TYPE_MCQ)
    (htimer : g.questionTimer = some timer)
    (hfresh : ∀ r, playerResult g questionId user.Login = some r →
      r.Correct = ANSWER_CORRECT_UNKNOWN)
    (hvalid : ∀ i ∈ answers, i ∈ question.Answers.map (fun a => a.ID)) :
    ((AnswerMCQuestion g questionId answers user).game.questionTimer = none ∧
      (AnswerMCQuestion g questionId answers user).game.retiredTimers =
        g.retiredTimers ++ [timer.Stop]) ∨
    ((AnswerMCQuestion g questionId answers user).game.questionTimer = some timer ∧
      (AnswerMCQuestion g questionId answers user).game.retiredTimers = g.retiredTimers) := by
  have ht := (GetQuestionStatsOrCreate_fields g questionId).2.1
  have hr : (GetQuestionStatsOrCreate g questionId).1.retiredTimers = g.retiredTimers := by
    unfold GetQuestionStatsOrCreate
    split <;> rfl
  rw [AnswerMCQuestion_eq_grade g question questionId answers user timer hopen hid hty htimer
    hfresh, AnswerMCQuestion_grade_eq _ _ _ _ _ _ _ hvalid]
  simp only [Outcome.game, ht, hr, htimer]
  split
  · exact Or.inl ⟨rfl, rfl⟩
  · exact Or.inr ⟨rfl, rfl⟩

/-- What a graded free-text submission does to the timer: either it calls
`Stop` on it and clears the field, or it leaves both as they were. -/
theorem AnswerFreeTextQuestion_graded_timer (g : QuizGame) (question : Question)
    (questionId : Int) (text : String) (rest : List String) (user : User) (timer : Timer)
    (hopen : OpenQuestion g question) (hid : question.ID = questionId)
    (hty : question.QuestionType = QUESTION_TYPE_FREE_TEXT)
    (htimer : g.questionTimer = some timer)
    (hfresh : ∀ r, playerResult g questionId user.Login = some r →
      r.Correct = ANSWER_CORRECT_UNKNOWN) :
    ((AnswerFreeTextQuestion g questionId (text :: rest) user).game.questionTimer = none ∧
      (AnswerFreeTextQuestion g questionId (text :: rest) user).game.retiredTimers =
        g.retiredTimers ++ [timer.Stop]) ∨
    ((AnswerFreeTextQuestion g questionId (text :: rest) user).game.questionTimer =
        some timer ∧
      (AnswerFreeTextQuestion g questionId (text :: rest) user).game.retiredTimers =
        g.retiredTimers) := by
  have ht := (GetQuestionStatsOrCreate_fields g questionId).2.1
  have hr : (GetQuestionStatsOrCreate g questionId).1.retiredTimers = g.retiredTimers := by
    unfold GetQuestionStatsOrCreate
    split <;> rfl
  rw [AnswerFreeTextQuestion_eq_grade g question questionId (text :: rest) user timer hopen
    hid hty htimer hfresh, AnswerFreeTextQuestion_grade_eq]
  simp only [Outcome.game, ht, hr, htimer]
  split
  · exact Or.inl ⟨rfl, rfl⟩
  · exact Or.inr ⟨rfl, rfl⟩

/-- C3: a graded multiple-choice or free-text submission closes the question
(status ended, action question-end, `Stop` called on the timer, which the
engine stops referencing, and the field cleared) exactly when, after the
submission is recorded, the number of logins holding a per-question result
equals `GetConnectedPlayersCount()`; otherwise the status is in-progress, the
action is stats-update, the armed timer stays in place and no timer is
retired. -/
theorem C3_question_closes_iff_all_answered :
    (∀ (g : QuizGame) (question : Question) (questionId : Int) (answers : List Int)
        (user : User) (timer : Timer),
      OpenQuestion g question → question.ID = questionId →
      question.QuestionType = QUESTION_TYPE_MCQ →
      g.questionTimer = some timer →
      (∀ r, playerResult g questionId user.Login = some r →
        r.Correct = ANSWER_CORRECT_UNKNOWN) →
      (∀ i ∈ answers, i ∈ question.Answers.map (fun a => a.ID)) →
      ∃ g' m, AnswerMCQuestion g questionId answers user = .returned g' ⟨some m, none⟩ ∧
        ((questionStatus g' questionId = some QUESTION_STATUS_ENDED ∧
            m.Status = QUESTION_STATUS_ENDED ∧
            m.Envelope.Action = QUIZ_MESSAGE_ACTION_QUESTION_END ∧
            g'.questionTimer = none ∧
            g'.retiredTimers = g.retiredTimers ++ [{ timer with stopped := true }]) ↔
          (answeredCount g' questionId : Int) = g'.GetConnectedPlayersCount) ∧
        ((answeredCount g' questionId : Int) ≠ g'.GetConnectedPlayersCount →
          questionStatus g' questionId = some QUESTION_STATUS_IN_PROGRESS ∧
            m.Status = QUESTION_STATUS_IN_PROGRESS ∧
            m.Envelope.Action = QUIZ_MESSAGE_ACTION_QUESTION_STATS ∧
            g'.questionTimer = some timer ∧
            g'.retiredTimers = g.retiredTimers)) ∧
    (∀ (g : QuizGame) (question : Question) (questionId : Int) (text : String)
        (rest : List String) (user : User) (timer : Timer),
      OpenQuestion g question → question.ID = questionId →
      question.QuestionType = QUESTION_TYPE_FREE_TEXT →
      g.questionTimer = some timer →
      (∀ r, playerResult g questionId user.Login = some r →
        r.Correct = ANSWER_CORRECT_UNKNOWN) →
      ∃ g' m, AnswerFreeTextQuestion g questionId (text :: rest) user =
          .returned g' ⟨some m, none⟩ ∧
        ((questionStatus g' questionId = some QUESTION_STATUS_ENDED ∧
            m.Status = QUESTION_STATUS_ENDED ∧
            m.Envelope.Action = QUIZ_MESSAGE_ACTION_QUESTION_END ∧
            g'.questionTimer = none ∧
            g'.retiredTimers = g.retiredTimers ++ [{ timer with stopped := true }]) ↔
          (answeredCount g' questionId : Int) = g'.GetConnectedPlayersCount) ∧
        ((answeredCount g' questionId : Int) ≠ g'.GetConnectedPlayersCount →
          questionStatus g' questionId = some QUESTION_STATUS_IN_PROGRESS ∧
            m.Status = QUESTION_STATUS_IN_PROGRESS ∧
            m.Envelope.Action = QUIZ_MESSAGE_ACTION_QUESTION_STATS ∧
            g'.questionTimer = some timer ∧
            g'.retiredTimers = g.retiredTimers)) := by
  refine ⟨?_, ?_⟩
  · intro g question questionId answers user timer hopen hid hty htimer hfresh hvalid
    obtain ⟨g', m, hret, hiff, hother⟩ :=
      AnswerMCQuestion_convergence g question questionId answers user timer hopen hid hty
        htimer hfresh hvalid
    have htim := AnswerMCQuestion_graded_timer g question questionId answers user timer hopen
      hid hty htimer hfresh hvalid
    rw [hret] at htim
    simp only [Outcome.game] at htim
    refine ⟨g', m, hret,
      ⟨fun h => hiff.1 ⟨h.1, h.2.1, h.2.2.1, h.2.2.2.1⟩, fun hc => ?_⟩, fun hne => ?_⟩
    · obtain ⟨a, b, c, d⟩ := hiff.2 hc
      rcases htim with ⟨-, hr⟩ | ⟨ht, -⟩
      · exact ⟨a, b, c, d, hr⟩
      · rw [d] at ht
        cases ht
    · obtain ⟨a, b, c, d⟩ := hother hne
      rcases htim with ⟨ht, -⟩ | ⟨-, hr⟩
      · rw [d] at ht
        cases ht
      · exact ⟨a, b, c, d, hr⟩
  · intro g question questionId text rest user timer hopen hid hty htimer hfresh
    obtain ⟨g', m, hret, hiff, hother⟩ :=
      AnswerFreeTextQuestion_convergence g question questionId text rest user timer hopen hid
        hty htimer hfresh
    have htim := AnswerFreeTextQuestion_graded_timer g question questionId text rest user timer
      hopen hid hty htimer hfresh
    rw [hret] at htim
    simp only [Outcome.game] at htim
    refine ⟨g', m, hret,
      ⟨fun h => hiff.1 ⟨h.1, h.2.1, h.2.2.1, h.2.2.2.1⟩, fun hc => ?_⟩, fun hne => ?_⟩
    · obtain ⟨a, b, c, d⟩ := hiff.2 hc
      rcases htim with ⟨-, hr⟩ | ⟨ht, -⟩
      · exact ⟨a, b, c, d, hr⟩
      · rw [d] at ht
        cases ht
    · obtain ⟨a, b, c, d⟩ := hother hne
      rcases htim with ⟨ht, -⟩ | ⟨-, hr⟩
      · rw [d] at ht
        cases ht
      · exact ⟨a, b, c, d, hr⟩

/-- Witness of C3: the second player of the test closes question 101, whose
timer is stopped and retired, and a first free-text submission with two
connected players leaves its question open and its timer armed. -/
theorem C3_question_closes_iff_all_answered_witness :
    (∃ g' m, AnswerMCQuestion afterRightAnswer 101 [1002] (userNamed "login2") =
        .returned g' ⟨some m, none⟩ ∧
      ((questionStatus g' 101 = some QUESTION_STATUS_ENDED ∧
          m.Status = QUESTION_STATUS_ENDED ∧
          m.Envelope.Action = QUIZ_MESSAGE_ACTION_QUESTION_END ∧
          g'.questionTimer = none ∧
          g'.retiredTimers =
            afterRightAnswer.retiredTimers ++
              [{ question := question101, duration := 1800000000000, stopped := true }]) ↔
        (answeredCount g' 101 : Int) = g'.GetConnectedPlayersCount) ∧
      ((answeredCount g' 101 : Int) ≠ g'.GetConnectedPlayersCount →
        questionStatus g' 101 = some QUESTION_STATUS_IN_PROGRESS ∧
          m.Status = QUESTION_STATUS_IN_PROGRESS ∧
          m.Envelope.Action = QUIZ_MESSAGE_ACTION_QUESTION_STATS ∧
          g'.questionTimer =
            some { question := question101, duration := 1800000000000, stopped := false } ∧
          g'.retiredTimers = afterRightAnswer.retiredTimers)) ∧
    (∃ g' m, AnswerFreeTextQuestion freeTextOpen 301 ["because"] (userNamed "login1") =
        .returned g' ⟨some m, none⟩ ∧
      ((questionStatus g' 301 = some QUESTION_STATUS_ENDED ∧
          m.Status = QUESTION_STATUS_ENDED ∧
          m.Envelope.Action = QUIZ_MESSAGE_ACTION_QUESTION_END ∧
          g'.questionTimer = none ∧
          g'.retiredTimers =
            freeTextOpen.retiredTimers ++
              [{ question := question301, duration := 1800000000000, stopped := true }]) ↔
        (answeredCount g' 301 : Int) = g'.GetConnectedPlayersCount) ∧
      ((answeredCount g' 301 : Int) ≠ g'.GetConnectedPlayersCount →
        questionStatus g' 301 = some QUESTION_STATUS_IN_PROGRESS ∧
          m.Status = QUESTION_STATUS_IN_PROGRESS ∧
          m.Envelope.Action = QUIZ_MESSAGE_ACTION_QUESTION_STATS ∧
          g'.questionTimer =
            some { question := question301, duration := 1800000000000, stopped := false } ∧
          g'.retiredTimers = freeTextOpen.retiredTimers)) :=
  ⟨C3_question_closes_iff_all_answered.1 afterRightAnswer question101 101 [1002]
      (userNamed "login2")
      { question := question101, duration := 1800000000000, stopped := false }
      ⟨validQuiz, by decide, by decide⟩ (by decide) (by decide) (by decide)
      (fun r h => by
        rw [show playerResult afterRightAnswer 101 (userNamed "login2").Login = none
          from by decide] at h
        cases h)
      (by decide),
    C3_question_closes_iff_all_answered.2 freeTextOpen question301 301 "because" []
      (userNamed "login1")
      { question := question301, duration := 1800000000000, stopped := false }
      ⟨freeTextQuiz, by decide, by decide⟩ (by decide) (by decide) (by decide)
      (fun r h => by
        rw [show playerResult freeTextOpen 301 (userNamed "login1").Login = none
          from by decide] at h
        cases h)⟩

/-- C4: effect of a graded multiple-choice submission on a question with
pairwise distinct answer ids: each answer's count grows by one when its id is
selected (however many times) and is unchanged otherwise, the submitter's
`countAnswered` grows by one, the cumulative statistics of the other players
are untouched, and the returned snapshot reports the number of logins holding
a per-question result, `GetConnectedPlayersCount()` and the updated aggregate. -/
theorem C4_graded_submission_effects (g : QuizGame) (question : Question) (questionId : Int)
    (answers : List Int) (user : User) (timer : Timer)
    (hopen : OpenQuestion g question) (hid : question.ID = questionId)
    (hty : question.QuestionType = QUESTION_TYPE_MCQ)
    (htimer : g.questionTimer = some timer)
    (hfresh : ∀ r, playerResult g questionId user.Login = some r →
      r.Correct = ANSWER_CORRECT_UNKNOWN)
    (hvalid : ∀ i ∈ answers, i ∈ question.Answers.map (fun a => a.ID))
    (hnodup : (question.Answers.map (fun a => a.ID)).Nodup) :
    ∃ g' m, AnswerMCQuestion g questionId answers user = .returned g' ⟨some m, none⟩ ∧
      (∀ a ∈ question.Answers,
        answerCount g' questionId a.ID =
          answerCount g questionId a.ID + (if a.ID ∈ answers then 1 else 0)) ∧
      countAnswered g' user.Login = countAnswered g user.Login + 1 ∧
      (∀ login, login ≠ user.Login → g'.playerStats.get? login = g.playerStats.get? login) ∧
      m.AnsweredCount = (answeredCount g' questionId : Int) ∧
      m.LearnersCount = g.GetConnectedPlayersCount ∧
      (g'.questionStats.get? questionId).map (fun s => s.AnswersStats) = some m.AnswersStats := by
  obtain ⟨g', m, hret, hqs, hps, -, -, -, -, -, -, hlc, hac, has, -⟩ :=
    AnswerMCQuestion_graded g question questionId answers user timer hopen hid hty htimer
      hfresh hvalid
  refine ⟨g', m, hret, ?_, ?_, ?_, ?_, hlc, ?_⟩
  · intro a ha
    have hafter : answerStat g' questionId a.ID =
        some (gradedEntry answers a (answerStat g questionId a.ID)) := by
      rw [answerStat_of_get? _ _ _ _ hqs]
      simp only [mcStatsAfter]
      rw [get?_foldStats_of_mem answers question.Answers _ hnodup a ha,
        GetQuestionStatsOrCreate_answersStats]
    unfold answerCount
    rw [hafter]
    by_cases hsel : a.ID ∈ answers
    · have hc := (contains_iff answers a.ID).2 hsel
      cases hb : answerStat g questionId a.ID <;> simp [gradedEntry, hc, hsel]
    · have hc : contains answers a.ID = false := by
        cases h : contains answers a.ID
        · rfl
        · exact absurd ((contains_iff answers a.ID).1 h) hsel
      cases hb : answerStat g questionId a.ID <;> simp [gradedEntry, hc, hsel]
  · simp only [countAnswered, hps, GoMap.get?_set_self, playerStatAfter]
  · intro login hne
    rw [hps, GoMap.get?_set_ne _ _ _ _ hne]
  · rw [hac, answeredCount_of_get? _ _ _ hqs]
    simp [mcStatsAfter]
  · rw [hqs, has]
    simp [mcStatsAfter]

/-- Witness of C4: `login1` selects answer 1001 twice on question 101. -/
theorem C4_graded_submission_effects_witness :
    ∃ g' m, AnswerMCQuestion firstQuestionOpen 101 [1001, 1001] (userNamed "login1") =
        .returned g' ⟨some m, none⟩ ∧
      (∀ a ∈ question101.Answers,
        answerCount g' 101 a.ID =
          answerCount firstQuestionOpen 101 a.ID + (if a.ID ∈ [1001, 1001] then 1 else 0)) ∧
      countAnswered g' (userNamed "login1").Login =
        countAnswered firstQuestionOpen (userNamed "login1").Login + 1 ∧
      (∀ login, login ≠ (userNamed "login1").Login →
        g'.playerStats.get? login = firstQuestionOpen.playerStats.get? login) ∧
      m.AnsweredCount = (answeredCount g' 101 : Int) ∧
      m.LearnersCount = firstQuestionOpen.GetConnectedPlayersCount ∧
      (g'.questionStats.get? 101).map (fun s => s.AnswersStats) = some m.AnswersStats :=
  C4_graded_submission_effects firstQuestionOpen question101 101 [1001, 1001]
    (userNamed "login1")
    { question := question101, duration := 1800000000000, stopped := false }
    ⟨validQuiz, by decide, by decide⟩ (by decide) (by decide) (by decide)
    (fun r h => by
      rw [show playerResult firstQuestionOpen 101 (userNamed "login1").Login = none
        from by decide] at h
      cases h)
    (by decide) (by decide)

/-- C5: precondition failures of both submission operations.  Each failure
returns no message and the engine state it was called on. -/
theorem C5_precondition_errors (g : QuizGame) (questionId : Int) (answers : List Int)
    (texts : List String) (user : User) :
    ((g.quiz = none ∨ g.currentQuestionIndex < 0) →
      AnswerMCQuestion g questionId answers user =
        .returned g ⟨none, some .quizNotStarted⟩ ∧
      AnswerFreeTextQuestion g questionId texts user =
        .returned g ⟨none, some .quizNotStarted⟩) ∧
    (∀ quiz, g.quiz = some quiz → (quiz.Questions.length : Int) ≤ g.currentQuestionIndex →
      AnswerMCQuestion g questionId answers user = .returned g ⟨none, some .quizEnded⟩ ∧
      AnswerFreeTextQuestion g questionId texts user =
        .returned g ⟨none, some .quizEnded⟩) ∧
    (∀ question, OpenQuestion g question → question.ID ≠ questionId →
      AnswerMCQuestion g questionId answers user =
        .returned g ⟨none, some (.questionMismatch questionId question.ID)⟩ ∧
      AnswerFreeTextQuestion g questionId texts user =
        .returned g ⟨none, some (.questionMismatch questionId question.ID)⟩) ∧
    (∀ question, OpenQuestion g question → question.ID = questionId →
      question.QuestionType ≠ QUESTION_TYPE_MCQ →
      AnswerMCQuestion g questionId answers user =
        .returned g ⟨none, some (.notMultipleChoice questionId)⟩) ∧
    (∀ question, OpenQuestion g question → question.ID = questionId →
      question.QuestionType ≠ QUESTION_TYPE_FREE_TEXT →
      AnswerFreeTextQuestion g questionId texts user =
        .returned g ⟨none, some (.notFreeText questionId)⟩) ∧
    GameError.quizNotStarted.message = "quiz not started" ∧
    GameError.quizEnded.message = "quiz ended" := by
  refine ⟨?_, ?_, ?_, ?_, ?_, rfl, rfl⟩
  · rintro (hq | hi)
    · simp [AnswerMCQuestion, AnswerFreeTextQuestion, hq]
    · cases hq : g.quiz <;> simp [AnswerMCQuestion, AnswerFreeTextQuestion, hq, hi]
  · intro quiz hq hlen
    have h0 : ¬ g.currentQuestionIndex < 0 := by omega
    simp [AnswerMCQuestion, AnswerFreeTextQuestion, hq, h0, hlen]
  · rintro question ⟨quiz, hq, hidx⟩ hne
    obtain ⟨h0, hlt⟩ := index?_some_bounds _ _ _ hidx
    simp [AnswerMCQuestion, AnswerFreeTextQuestion, hq, not_lt.2 h0, not_le.2 hlt, hidx, hne]
  · rintro question ⟨quiz, hq, hidx⟩ hid hty
    obtain ⟨h0, hlt⟩ := index?_some_bounds _ _ _ hidx
    simp [AnswerMCQuestion, hq, not_lt.2 h0, not_le.2 hlt, hidx, hid, hty]
  · rintro question ⟨quiz, hq, hidx⟩ hid hty
    obtain ⟨h0, hlt⟩ := index?_some_bounds _ _ _ hidx
    simp [AnswerFreeTextQuestion, hq, not_lt.2 h0, not_le.2 hlt, hidx, hid, hty]

/-- Witness of C5: an engine without quiz, a finished quiz, a wrong question id
and the two wrong question types. -/
theorem C5_precondition_errors_witness :
    (AnswerMCQuestion (blankGame 2) 101 [1001] (userNamed "login1") =
        .returned (blankGame 2) ⟨none, some .quizNotStarted⟩ ∧
      AnswerFreeTextQuestion (blankGame 2) 101 ["go"] (userNamed "login1") =
        .returned (blankGame 2) ⟨none, some .quizNotStarted⟩) ∧
    (AnswerMCQuestion quizFinished 102 [1003] (userNamed "login1") =
        .returned quizFinished ⟨none, some .quizEnded⟩ ∧
      AnswerFreeTextQuestion quizFinished 102 ["go"] (userNamed "login1") =
        .returned quizFinished ⟨none, some .quizEnded⟩) ∧
    (AnswerMCQuestion firstQuestionOpen 102 [1003] (userNamed "login1") =
        .returned firstQuestionOpen ⟨none, some (.questionMismatch 102 question101.ID)⟩ ∧
      AnswerFreeTextQuestion firstQuestionOpen 102 ["go"] (userNamed "login1") =
        .returned firstQuestionOpen ⟨none, some (.questionMismatch 102 question101.ID)⟩) ∧
    AnswerMCQuestion freeTextOpen 301 [1] (userNamed "login1") =
      .returned freeTextOpen ⟨none, some (.notMultipleChoice 301)⟩ ∧
    AnswerFreeTextQuestion firstQuestionOpen 101 ["go"] (userNamed "login1") =
      .returned firstQuestionOpen ⟨none, some (.notFreeText 101)⟩ :=
  ⟨(C5_precondition_errors (blankGame 2) 101 [1001] ["go"] (userNamed "login1")).1
      (Or.inl rfl),
    (C5_precondition_errors quizFinished 102 [1003] ["go"] (userNamed "login1")).2.1
      validQuiz (by decide) (by decide),
    (C5_precondition_errors firstQuestionOpen 102 [1003] ["go"] (userNamed "login1")).2.2.1
      question101 ⟨validQuiz, by decide, by decide⟩ (by decide),
    (C5_precondition_errors freeTextOpen 301 [1] ["go"] (userNamed "login1")).2.2.2.1
      question301 ⟨freeTextQuiz, by decide, by decide⟩ (by decide) (by decide),
    (C5_precondition_errors firstQuestionOpen 101 [1] ["go"] (userNamed "login1")).2.2.2.2.1
      question101 ⟨validQuiz, by decide, by decide⟩ (by decide) (by decide)⟩

theorem firstInvalidAnswer_first (valid pre post : List Int) (bad : Int)
    (hpre : ∀ i ∈ pre, i ∈ valid) (hbad : bad ∉ valid) :
    firstInvalidAnswer valid (pre ++ bad :: post) = some bad := by
  induction pre with
  | nil =>
    have hc : contains valid bad = false := by
      cases h : contains valid bad
      · rfl
      · exact absurd ((contains_iff valid bad).1 h) hbad
    simp [firstInvalidAnswer, hc]
  | cons a rest ih =>
    have ha := (contains_iff valid a).2 (hpre a (List.mem_cons_self _ _))
    have hrest : ∀ i ∈ rest, i ∈ valid := fun i hi => hpre i (List.mem_cons_of_mem _ hi)
    simp [firstInvalidAnswer, ha, ih hrest]

/-- C6 (as amended): with an open multiple-choice question, an armed timer and
a login whose per-question result is not yet decided, a submission whose first
id foreign to the question is `bad` fails with `answer ID bad is invalid` and
returns no message; `playerStats` and every recorded per-question result,
answer count and free-text entry are unchanged, and `questionStats` is
unchanged too unless the question had no entry, in which case the empty entry
is created for it. -/
theorem C6_invalid_answer_id (g : QuizGame) (question : Question) (questionId : Int)
    (pre post : List Int) (bad : Int) (user : User) (timer : Timer)
    (hopen : OpenQuestion g question) (hid : question.ID = questionId)
    (hty : question.QuestionType = QUESTION_TYPE_MCQ)
    (htimer : g.questionTimer = some timer)
    (hfresh : ∀ r, playerResult g questionId user.Login = some r →
      r.Correct = ANSWER_CORRECT_UNKNOWN)
    (hpre : ∀ i ∈ pre, ∃ a ∈ question.Answers, a.ID = i)
    (hbad : ¬ ∃ a ∈ question.Answers, a.ID = bad) :
    ∃ g', AnswerMCQuestion g questionId (pre ++ bad :: post) user =
        .returned g' ⟨none, some (.invalidAnswer bad)⟩ ∧
      (GameError.invalidAnswer bad).message = "answer ID " ++ toString bad ++ " is invalid" ∧
      g'.playerStats = g.playerStats ∧
      ((g.questionStats.get? questionId).isSome → g' = g) ∧
      (g.questionStats.get? questionId = none →
        g' = { g with
          questionStats := g.questionStats.set questionId (emptyQuestionStats questionId) }) ∧
      (∀ q login, playerResult g' q login = playerResult g q login) ∧
      (∀ q answerId, answerCount g' q answerId = answerCount g q answerId) ∧
      (∀ q, freeTexts g' q = freeTexts g q) := by
  have hpre' : ∀ i ∈ pre, i ∈ question.Answers.map (fun a => a.ID) := by
    intro i hi
    obtain ⟨a, ha, hai⟩ := hpre i hi
    exact List.mem_map.2 ⟨a, ha, hai⟩
  have hbad' : bad ∉ question.Answers.map (fun a => a.ID) := by
    intro c
    obtain ⟨a, ha, hai⟩ := List.mem_map.1 c
    exact hbad ⟨a, ha, hai⟩
  have hfirst := firstInvalidAnswer_first _ pre post bad hpre' hbad'
  refine ⟨(GetQuestionStatsOrCreate g questionId).1, ?_, rfl, ?_, ?_, ?_, ?_, ?_, ?_⟩
  · rw [AnswerMCQuestion_eq_grade g question questionId _ user timer hopen hid hty htimer
      hfresh]
    unfold AnswerMCQuestion.grade
    simp only [hfirst]
  · exact (GetQuestionStatsOrCreate_fields g questionId).1
  · intro hsome
    unfold GetQuestionStatsOrCreate
    cases hs : g.questionStats.get? questionId with
    | none => simp [hs] at hsome
    | some s => rfl
  · intro hnone
    unfold GetQuestionStatsOrCreate
    simp only [hnone, emptyQuestionStats]
  · intro q login
    unfold GetQuestionStatsOrCreate
    cases hs : g.questionStats.get? questionId with
    | some s => rfl
    | none =>
      simp only [playerResult, GoMap.get?_set]
      by_cases hq : q = questionId
      · subst hq; simp [hs]
      · simp [hq]
  · intro q answerId
    unfold GetQuestionStatsOrCreate
    cases hs : g.questionStats.get? questionId with
    | some s => rfl
    | none =>
      simp only [answerCount, answerStat, GoMap.get?_set]
      by_cases hq : q = questionId
      · subst hq; simp [hs]
      · simp [hq]
  · intro q
    unfold GetQuestionStatsOrCreate
    cases hs : g.questionStats.get? questionId with
    | some s => rfl
    | none =>
      simp only [freeTexts, GoMap.get?_set]
      by_cases hq : q = questionId
      · subst hq; simp [hs]
      · simp [hq]

/-- Witness of C6: `login1` submits `[1001, 112, 113]` to question 101; the
error names 112, the first foreign id. -/
theorem C6_invalid_answer_id_witness :
    ∃ g', AnswerMCQuestion firstQuestionOpen 101 ([1001] ++ 112 :: [113])
        (userNamed "login1") = .returned g' ⟨none, some (.invalidAnswer 112)⟩ ∧
      g'.playerStats = firstQuestionOpen.playerStats ∧
      g' = { firstQuestionOpen with
        questionStats := firstQuestionOpen.questionStats.set 101 (emptyQuestionStats 101) } :=
  match C6_invalid_answer_id firstQuestionOpen question101 101 [1001] [113] 112
      (userNamed "login1")
      { question := question101, duration := 1800000000000, stopped := false }
      ⟨validQuiz, by decide, by decide⟩ (by decide) (by decide) (by decide)
      (fun r h => by
        rw [show playerResult firstQuestionOpen 101 (userNamed "login1").Login = none
          from by decide] at h
        cases h)
      (by decide) (by decide) with
  | ⟨g', hret, _, hps, _, hnew, _⟩ => ⟨g', hret, hps, hnew (by decide)⟩

/-- C6 (counterexample): three open multiple-choice questions receiving the
foreign id 112.  With the timer already cleared the call returns a snapshot and
no error; for a login already graded correct it fails with `already answered`;
for a first submission it fails with `answer ID 112 is invalid` but
`questionStats` gains the entry of question 101. -/
theorem C6_counterexample :
    (OpenQuestion closedByConvergence question101 ∧
      question101.QuestionType = QUESTION_TYPE_MCQ ∧
      (¬ ∃ a ∈ question101.Answers, a.ID = 112) ∧
      (AnswerMCQuestion closedByConvergence 101 [112] (userNamed "login2")).value?.map
        (fun r => (r.msg.isSome, r.err)) = some (true, none)) ∧
    (OpenQuestion afterRightAnswer question101 ∧
      AnswerMCQuestion afterRightAnswer 101 [112] (userNamed "login1") =
        .returned afterRightAnswer ⟨none, some (.alreadyAnswered "login1" 101)⟩) ∧
    (OpenQuestion firstQuestionOpen question101 ∧
      (AnswerMCQuestion firstQuestionOpen 101 [112] (userNamed "login1")).value? =
        some ⟨none, some (.invalidAnswer 112)⟩ ∧
      firstQuestionOpen.questionStats.get? 101 = none ∧
      (AnswerMCQuestion firstQuestionOpen 101 [112] (userNamed "login1")).game.questionStats.get?
        101 = some (emptyQuestionStats 101) ∧
      (AnswerMCQuestion firstQuestionOpen 101 [112] (userNamed "login1")).game.questionStats ≠
        firstQuestionOpen.questionStats) :=
  ⟨⟨⟨validQuiz, by decide, by decide⟩, by decide, by decide, by decide⟩,
    ⟨⟨validQuiz, by decide, by decide⟩, by decide⟩,
    ⟨⟨validQuiz, by decide, by decide⟩, by decide, by decide, by decide, by decide⟩⟩

theorem AnswerMCQuestion_no_timer (g : QuizGame) (question : Question) (questionId : Int)
    (answers : List Int) (user : User)
    (hopen : OpenQuestion g question) (hid : question.ID = questionId)
    (hty : question.QuestionType = QUESTION_TYPE_MCQ) (htimer : g.questionTimer = none) :
    AnswerMCQuestion g questionId answers user =
      .returned (timedOut g questionId)
        ⟨getQuizQuestionStatsMessage (timedOut g questionId) questionId
          QUIZ_MESSAGE_ACTION_QUESTION_END, none⟩ := by
  obtain ⟨quiz, hquiz, hq⟩ := hopen
  obtain ⟨h0, hlt⟩ := index?_some_bounds _ _ _ hq
  have ht := (GetQuestionStatsOrCreate_fields g questionId).2.1
  unfold AnswerMCQuestion
  simp only [hquiz, not_lt.2 h0, if_false, ge_iff_le, not_le.2 hlt, hq, hid, hty, ne_eq,
    not_true_eq_false, ht, htimer, timedOut]

theorem AnswerFreeTextQuestion_no_timer (g : QuizGame) (question : Question)
    (questionId : Int) (texts : List String) (user : User)
    (hopen : OpenQuestion g question) (hid : question.ID = questionId)
    (hty : question.QuestionType = QUESTION_TYPE_FREE_TEXT)
    (htimer : g.questionTimer = none) :
    AnswerFreeTextQuestion g questionId texts user =
      .returned (timedOut g questionId)
        ⟨getQuizQuestionStatsMessage (timedOut g questionId) questionId
          QUIZ_MESSAGE_ACTION_QUESTION_END, none⟩ := by
  obtain ⟨quiz, hquiz, hq⟩ := hopen
  obtain ⟨h0, hlt⟩ := index?_some_bounds _ _ _ hq
  have ht := (GetQuestionStatsOrCreate_fields g questionId).2.1
  unfold AnswerFreeTextQuestion
  simp only [hquiz, not_lt.2 h0, if_false, ge_iff_le, not_le.2 hlt, hq, hid, hty, ne_eq,
    not_true_eq_false, ht, htimer, timedOut]

theorem timedOut_get? (g : QuizGame) (questionId q : Int) :
    (timedOut g questionId).questionStats.get? q =
      if q = questionId then
        some { (GetQuestionStatsOrCreate g questionId).2 with
          QuestionStatus := QUESTION_STATUS_TIMEOUT }
      else g.questionStats.get? q := by
  unfold timedOut
  by_cases h : q = questionId
  · subst h; simp
  · simp [h, GoMap.get?_set_ne _ _ _ _ h, GetQuestionStatsOrCreate_get?_ne g questionId q h]

theorem timedOut_facts (g : QuizGame) (questionId : Int) :
    (∃ m, getQuizQuestionStatsMessage (timedOut g questionId) questionId
        QUIZ_MESSAGE_ACTION_QUESTION_END = some m ∧
      m.Envelope.MsgType = MESSAGE_TYPE_QUIZ_MESSAGE ∧
      m.Envelope.Action = QUIZ_MESSAGE_ACTION_QUESTION_END ∧
      m.Status = QUESTION_STATUS_TIMEOUT ∧
      m.QuestionID = questionId) ∧
    questionStatus (timedOut g questionId) questionId = some QUESTION_STATUS_TIMEOUT ∧
    (∀ q login, playerResult (timedOut g questionId) q login = playerResult g q login) ∧
    (∀ q answerId, answerStat (timedOut g questionId) q answerId = answerStat g q answerId) ∧
    (∀ q answerId, answerCount (timedOut g questionId) q answerId = answerCount g q answerId) ∧
    (∀ q, freeTexts (timedOut g questionId) q = freeTexts g q) ∧
    (timedOut g questionId).playerStats = g.playerStats := by
  have hstat : ∀ q answerId,
      answerStat (timedOut g questionId) q answerId = answerStat g q answerId := by
    intro q answerId
    by_cases h : q = questionId
    · subst h
      rw [answerStat, timedOut_get?, if_pos rfl, Option.some_bind,
        GetQuestionStatsOrCreate_answersStats]
    · rw [answerStat, timedOut_get?, if_neg h, answerStat]
  refine ⟨?_, ?_, ?_, hstat, ?_, ?_, ?_⟩
  · simp [getQuizQuestionStatsMessage, timedOut_get?]
  · simp [questionStatus, timedOut_get?]
  · intro q login
    by_cases h : q = questionId
    · subst h
      rw [playerResult, timedOut_get?, if_pos rfl, Option.some_bind,
        GetQuestionStatsOrCreate_playerStats]
    · rw [playerResult, timedOut_get?, if_neg h, playerResult]
  · intro q answerId
    simp only [answerCount, hstat]
  · intro q
    by_cases h : q = questionId
    · subst h
      rw [freeTexts, timedOut_get?, if_pos rfl]
      exact GetQuestionStatsOrCreate_freeTexts g q
    · rw [freeTexts, timedOut_get?, if_neg h, freeTexts]
  · exact (GetQuestionStatsOrCreate_fields g questionId).1

/-- C7: when the quiz, index, question id and question type checks pass but
`questionTimer` is nil, both submission operations return no error and a
snapshot with action question-end and status timed-out, and grade nothing:
per-question results, answer statistics, free-text entries and `playerStats`
are as before. -/
theorem C7_no_timer_returns_timed_out (g : QuizGame) (question : Question)
    (questionId : Int) (answers : List Int) (texts : List String) (user : User)
    (hopen : OpenQuestion g question) (hid : question.ID = questionId)
    (htimer : g.questionTimer = none) :
    (question.QuestionType = QUESTION_TYPE_MCQ →
      ∃ g' m, AnswerMCQuestion g questionId answers user = .returned g' ⟨some m, none⟩ ∧
        m.Envelope.Action = QUIZ_MESSAGE_ACTION_QUESTION_END ∧
        m.Status = QUESTION_STATUS_TIMEOUT ∧
        (∀ q login, playerResult g' q login = playerResult g q login) ∧
        (∀ q answerId, answerStat g' q answerId = answerStat g q answerId) ∧
        (∀ q answerId, answerCount g' q answerId = answerCount g q answerId) ∧
        (∀ q, freeTexts g' q = freeTexts g q) ∧
        g'.playerStats = g.playerStats) ∧
    (question.QuestionType = QUESTION_TYPE_FREE_TEXT →
      ∃ g' m, AnswerFreeTextQuestion g questionId texts user = .returned g' ⟨some m, none⟩ ∧
        m.Envelope.Action = QUIZ_MESSAGE_ACTION_QUESTION_END ∧
        m.Status = QUESTION_STATUS_TIMEOUT ∧
        (∀ q login, playerResult g' q login = playerResult g q login) ∧
        (∀ q answerId, answerStat g' q answerId = answerStat g q answerId) ∧
        (∀ q answerId, answerCount g' q answerId = answerCount g q answerId) ∧
        (∀ q, freeTexts g' q = freeTexts g q) ∧
        g'.playerStats = g.playerStats) := by
  obtain ⟨⟨m, hm, -, hact, hst, -⟩, -, hres, hstat, hcount, hft, hps⟩ :=
    timedOut_facts g questionId
  constructor
  · intro hty
    refine ⟨timedOut g questionId, m, ?_, hact, hst, hres, hstat, hcount, hft, hps⟩
    rw [AnswerMCQuestion_no_timer g question questionId answers user hopen hid hty htimer, hm]
  · intro hty
    refine ⟨timedOut g questionId, m, ?_, hact, hst, hres, hstat, hcount, hft, hps⟩
    rw [AnswerFreeTextQuestion_no_timer g question questionId texts user hopen hid hty htimer,
      hm]

/-- Witness of C7: late submissions (one of them with no text at all) after
the single connected player has closed the question. -/
theorem C7_no_timer_returns_timed_out_witness :
    (∃ g' m, AnswerMCQuestion closedByConvergence 101 [1002] (userNamed "login2") =
        .returned g' ⟨some m, none⟩ ∧
      m.Envelope.Action = QUIZ_MESSAGE_ACTION_QUESTION_END ∧
      m.Status = QUESTION_STATUS_TIMEOUT ∧
      g'.playerStats = closedByConvergence.playerStats) ∧
    (∃ g' m, AnswerFreeTextQuestion freeTextClosed 301 [] (userNamed "login2") =
        .returned g' ⟨some m, none⟩ ∧
      m.Envelope.Action = QUIZ_MESSAGE_ACTION_QUESTION_END ∧
      m.Status = QUESTION_STATUS_TIMEOUT ∧
      g'.playerStats = freeTextClosed.playerStats) :=
  ⟨match (C7_no_timer_returns_timed_out closedByConvergence question101 101 [1002] []
        (userNamed "login2") ⟨validQuiz, by decide, by decide⟩ (by decide)
        (by decide)).1 (by decide) with
    | ⟨g', m, hret, hact, hst, _, _, _, _, hps⟩ => ⟨g', m, hret, hact, hst, hps⟩,
    match (C7_no_timer_returns_timed_out freeTextClosed question301 301 [] []
        (userNamed "login2") ⟨freeTextQuiz, by decide, by decide⟩ (by decide)
        (by decide)).2 (by decide) with
    | ⟨g', m, hret, hact, hst, _, _, _, _, hps⟩ => ⟨g', m, hret, hact, hst, hps⟩⟩

/-! ## Lemmas on `NextQuizQuestionMessage` -/

theorem index?_of_bounds {α : Type} (l : List α) (i : Int) (h0 : 0 ≤ i)
    (hlt : i < l.length) : ∃ x, index? l i = some x := by
  have hn : i.toNat < l.length := by omega
  refine ⟨l[i.toNat], ?_⟩
  unfold index?
  rw [if_neg (not_lt.2 h0)]
  exact List.getElem?_eq_getElem hn

theorem redactAnswers_correct (l : List Answer) :
    ∀ a ∈ redactAnswers l, a.Correct = ANSWER_CORRECT_UNKNOWN := by
  induction l with
  | nil => intro a ha; cases ha
  | cons b rest ih =>
    intro a ha
    rcases List.mem_cons.1 ha with h | h
    · rw [h]
    · exact ih a h

theorem redactAnswers_keeps (l : List Answer) :
    (redactAnswers l).map (fun a => (a.ID, a.Title, a.URL)) =
      l.map (fun a => (a.ID, a.Title, a.URL)) := by
  induction l with
  | nil => rfl
  | cons b rest ih => simp [redactAnswers, ih]

theorem redactAnswers_length (l : List Answer) : (redactAnswers l).length = l.length := by
  induction l with
  | nil => rfl
  | cons b rest ih => simp [redactAnswers, ih]

theorem Question.Clone_eq (q : Question) : q.Clone = q := by
  unfold Question.Clone
  have : q.Answers.map Answer.Clone = q.Answers := by
    induction q.Answers with
    | nil => rfl
    | cons a rest ih => simp [Answer.Clone, ih]
  rw [this]

/-- Past the last question the call returns the summary and only moves the index. -/
theorem NextQuizQuestionMessage_finished (g : QuizGame) (quiz : Quiz)
    (hquiz : g.quiz = some quiz)
    (hlast : (quiz.Questions.length : Int) ≤ g.currentQuestionIndex + 1) :
    NextQuizQuestionMessage g =
      .returned { g with currentQuestionIndex := g.currentQuestionIndex + 1 }
        (.quizStats
          { Envelope :=
              { MsgType := MESSAGE_TYPE_QUIZ_MESSAGE, Action := QUIZ_MESSAGE_ACTION_STATS,
                Timestamp := 0, ClientId := "" }
            QuizId := quiz.ID
            LearnersCount := g.playerStats.len
            PlayerStats := g.playerStats }) := by
  unfold NextQuizQuestionMessage getNextQuestion
  simp only [hquiz, not_lt.2 hlast, if_false]

/-- With a question left the call returns the redacted question and arms a timer. -/
theorem NextQuizQuestionMessage_question (g : QuizGame) (quiz : Quiz) (question : Question)
    (hquiz : g.quiz = some quiz)
    (hq : index? quiz.Questions (g.currentQuestionIndex + 1) = some question) :
    NextQuizQuestionMessage g =
      .returned
        { g with
          currentQuestionIndex := g.currentQuestionIndex + 1
          questionTimer :=
            some { question := question, duration := g.questionTimeout, stopped := false }
          retiredTimers := g.retiredTimers ++ (g.questionTimer.map Timer.Stop).toList
          currentQuizQuestion :=
            some { question with Answers := redactAnswers question.Answers } }
        (.quizQuestion
          { Envelope :=
              { MsgType := MESSAGE_TYPE_QUIZ_MESSAGE
                Action := QUIZ_MESSAGE_ACTION_QUESTION_START
                Timestamp := 0, ClientId := "" }
            QuizInfo :=
              { ID := quiz.ID, Title := quiz.Title, Kind := quiz.Kind, URL := quiz.URL,
                StartedBy := g.StartedBy }
            Question := { question with Answers := redactAnswers question.Answers }
            QuestionType := 0
            QuestionNumber := g.currentQuestionIndex + 1 + 1
            QuestionCount := quiz.Questions.length
            Timeout := DEFAULT_TIMEOUT_SECONDS }) := by
  obtain ⟨-, hlt⟩ := index?_some_bounds _ _ _ hq
  unfold NextQuizQuestionMessage getNextQuestion
  simp only [hquiz, hlt, if_true, hq, Question.Clone_eq, QuizGame.setQuestionTimer]

theorem advance_finished (g : QuizGame) (quiz : Quiz) (hquiz : g.quiz = some quiz)
    (hlast : (quiz.Questions.length : Int) ≤ g.currentQuestionIndex + 1) (n : Nat) :
    (Nat.iterate advance n g).quiz = some quiz ∧
    (quiz.Questions.length : Int) ≤ (Nat.iterate advance n g).currentQuestionIndex + 1 ∧
    (Nat.iterate advance n g).playerStats = g.playerStats ∧
    (Nat.iterate advance n g).questionStats = g.questionStats ∧
    (Nat.iterate advance n g).currentQuestionIndex = g.currentQuestionIndex + n := by
  induction n generalizing g with
  | zero => simp [hquiz, hlast]
  | succ k ih =>
    have hstep : advance g = { g with currentQuestionIndex := g.currentQuestionIndex + 1 } := by
      unfold advance
      rw [NextQuizQuestionMessage_finished g quiz hquiz hlast]
      rfl
    have hlast' : (quiz.Questions.length : Int) ≤ (advance g).currentQuestionIndex + 1 := by
      rw [hstep]
      show (quiz.Questions.length : Int) ≤ g.currentQuestionIndex + 1 + 1
      omega
    have hquiz' : (advance g).quiz = some quiz := by rw [hstep]; exact hquiz
    obtain ⟨h1, h2, h3, h4, h5⟩ := ih (advance g) hquiz' hlast'
    rw [Function.iterate_succ_apply]
    refine ⟨h1, h2, ?_, ?_, ?_⟩
    · rw [h3, hstep]
    · rw [h4, hstep]
    · rw [h5, hstep]
      show g.currentQuestionIndex + 1 + (k : Int) = g.currentQuestionIndex + ((k + 1 : Nat) : Int)
      push_cast
      omega

/-- C8: with a quiz loaded and no question left, `NextQuizQuestionMessage`
returns the Quiz-Summary message (type 4, action 6) carrying the quiz id, the
cumulative `playerStats` and their number of entries, and changes neither
`questionStats` nor `playerStats`; every further call returns the same summary. -/
theorem C8_summary_past_last_question (g : QuizGame) (quiz : Quiz)
    (hquiz : g.quiz = some quiz)
    (hlast : (quiz.Questions.length : Int) ≤ g.currentQuestionIndex + 1) :
    ∃ g' m, NextQuizQuestionMessage g = .returned g' (.quizStats m) ∧
      m.Envelope.MsgType = 4 ∧ m.Envelope.Action = 6 ∧
      m.QuizId = quiz.ID ∧
      m.PlayerStats = g.playerStats ∧
      m.LearnersCount = (g.playerStats.len : Int) ∧
      g'.questionStats = g.questionStats ∧
      g'.playerStats = g.playerStats ∧
      ∀ n : Nat, (NextQuizQuestionMessage (Nat.iterate advance n g')).value? =
        some (.quizStats m) := by
  refine ⟨_, _, NextQuizQuestionMessage_finished g quiz hquiz hlast, rfl, rfl, rfl, rfl, rfl,
    rfl, rfl, ?_⟩
  intro n
  have hlast' : (quiz.Questions.length : Int) ≤
      ({ g with currentQuestionIndex := g.currentQuestionIndex + 1 } :
        QuizGame).currentQuestionIndex + 1 := by
    show (quiz.Questions.length : Int) ≤ g.currentQuestionIndex + 1 + 1
    omega
  obtain ⟨h1, h2, h3, -, -⟩ :=
    advance_finished { g with currentQuestionIndex := g.currentQuestionIndex + 1 } quiz hquiz
      hlast' n
  rw [NextQuizQuestionMessage_finished _ quiz h1 h2, h3]
  rfl

/-- Witness of C8: the test engine after its two questions. -/
theorem C8_summary_past_last_question_witness :
    ∃ g' m, NextQuizQuestionMessage (advance (advance newQuizGame)) =
        .returned g' (.quizStats m) ∧
      m.Envelope.MsgType = 4 ∧ m.Envelope.Action = 6 ∧
      m.QuizId = validQuiz.ID ∧
      m.PlayerStats = (advance (advance newQuizGame)).playerStats ∧
      m.LearnersCount = ((advance (advance newQuizGame)).playerStats.len : Int) ∧
      g'.questionStats = (advance (advance newQuizGame)).questionStats ∧
      g'.playerStats = (advance (advance newQuizGame)).playerStats ∧
      ∀ n : Nat, (NextQuizQuestionMessage (Nat.iterate advance n g')).value? =
        some (.quizStats m) :=
  C8_summary_past_last_question (advance (advance newQuizGame)) validQuiz (by decide)
    (by decide)

/-- C9: in a started engine with a question left, `NextQuizQuestionMessage`
returns the Question-Started message (type 4, action 1) with the quiz
metadata and the starter's login, the next question with its id, text, type,
url and its answers' ids, titles and urls in order, the 1-based question
number, the question count, and the timeout 30 whatever duration is armed. -/
theorem C9_question_started_message (g : QuizGame) (quiz : Quiz)
    (hquiz : g.quiz = some quiz) (hstarted : -1 ≤ g.currentQuestionIndex)
    (hnext : g.currentQuestionIndex + 1 < (quiz.Questions.length : Int)) :
    ∃ g' m question, NextQuizQuestionMessage g = .returned g' (.quizQuestion m) ∧
      index? quiz.Questions (g.currentQuestionIndex + 1) = some question ∧
      g'.currentQuestionIndex = g.currentQuestionIndex + 1 ∧
      m.Envelope.MsgType = 4 ∧ m.Envelope.Action = 1 ∧
      m.QuizInfo =
        { ID := quiz.ID, Title := quiz.Title, Kind := quiz.Kind, URL := quiz.URL,
          StartedBy := g.StartedBy } ∧
      m.Question.ID = question.ID ∧
      m.Question.Text = question.Text ∧
      m.Question.QuestionType = question.QuestionType ∧
      m.Question.URL = question.URL ∧
      m.Question.Answers.map (fun a => (a.ID, a.Title, a.URL)) =
        question.Answers.map (fun a => (a.ID, a.Title, a.URL)) ∧
      m.QuestionNumber = g'.currentQuestionIndex + 1 ∧
      1 ≤ m.QuestionNumber ∧ m.QuestionNumber ≤ m.QuestionCount ∧
      m.QuestionCount = (quiz.Questions.length : Int) ∧
      m.Timeout = 30 ∧
      g'.questionTimer =
        some { question := question, duration := g.questionTimeout, stopped := false } := by
  obtain ⟨question, hq⟩ :=
    index?_of_bounds quiz.Questions (g.currentQuestionIndex + 1) (by omega) hnext
  refine ⟨_, _, question, NextQuizQuestionMessage_question g quiz question hquiz hq, hq, rfl,
    rfl, rfl, rfl, rfl, rfl, rfl, rfl, redactAnswers_keeps _, rfl, ?_, ?_, rfl, rfl, rfl⟩
  · show (1 : Int) ≤ g.currentQuestionIndex + 1 + 1
    omega
  · show g.currentQuestionIndex + 1 + 1 ≤ (quiz.Questions.length : Int)
    omega

/-- Witness of C9: the first call on the test engine, armed for 30 minutes. -/
theorem C9_question_started_message_witness :
    ∃ g' m, NextQuizQuestionMessage newQuizGame = .returned g' (.quizQuestion m) ∧
      m.Question.ID = 101 ∧ m.QuestionNumber = 1 ∧ m.QuestionCount = 2 ∧ m.Timeout = 30 ∧
      m.QuizInfo.StartedBy = "login" ∧
      g'.questionTimer =
        some { question := question101, duration := 1800000000000, stopped := false } :=
  match C9_question_started_message newQuizGame validQuiz (by decide) (by decide)
      (by decide) with
  | ⟨g', m, question, hret, hq, hidx, _, _, hinfo, hid, _, _, _, _, hnum, _, _, hcount, htime,
      htimer⟩ => by
    have hq' : question = question101 := by
      have : index? validQuiz.Questions (newQuizGame.currentQuestionIndex + 1) =
          some question101 := by decide
      rw [this] at hq
      exact (Option.some.inj hq).symm
    subst hq'
    refine ⟨g', m, hret, hid, ?_, hcount, htime, ?_, htimer⟩
    · rw [hnum, hidx]; decide
    · rw [hinfo]; decide

/-- C10: whatever the true correctness recorded in the quiz, every answer of
the question carried by the Question-Started message has correctness unknown
(-1); the message carries as many answers as the question has. -/
theorem C10_served_question_is_redacted (g : QuizGame) (quiz : Quiz) (question : Question)
    (hquiz : g.quiz = some quiz)
    (hq : index? quiz.Questions (g.currentQuestionIndex + 1) = some question) :
    ∃ g' m, NextQuizQuestionMessage g = .returned g' (.quizQuestion m) ∧
      m.Question.ID = question.ID ∧
      m.Question.Answers.length = question.Answers.length ∧
      (∀ a ∈ m.Question.Answers, a.Correct = -1) ∧
      ∀ g'' m', NextQuizQuestionMessage g = .returned g'' (.quizQuestion m') →
        ∀ a ∈ m'.Question.Answers, a.Correct = -1 := by
  have hret := NextQuizQuestionMessage_question g quiz question hquiz hq
  refine ⟨_, _, hret, rfl, redactAnswers_length _, redactAnswers_correct _, ?_⟩
  intro g'' m' h
  rw [hret] at h
  injection h with _ hm
  injection hm with hm
  rw [← hm]
  exact redactAnswers_correct _

/-- Witness of C10: the first question of the test quiz, whose answer 1001 is correct. -/
theorem C10_served_question_is_redacted_witness :
    ∃ g' m, NextQuizQuestionMessage newQuizGame = .returned g' (.quizQuestion m) ∧
      m.Question.ID = question101.ID ∧
      m.Question.Answers.length = question101.Answers.length ∧
      (∀ a ∈ m.Question.Answers, a.Correct = -1) ∧
      ∀ g'' m', NextQuizQuestionMessage newQuizGame = .returned g'' (.quizQuestion m') →
        ∀ a ∈ m'.Question.Answers, a.Correct = -1 :=
  C10_served_question_is_redacted newQuizGame validQuiz question101 (by decide) (by decide)

/-! ## Frame lemmas: what a call leaves alone -/

theorem SameProgress.same_refl (g : QuizGame) : SameProgress g g := ⟨rfl, rfl, rfl, rfl⟩

theorem SameProgress.same_trans {a b c : QuizGame} (h1 : SameProgress a b) (h2 : SameProgress b c) :
    SameProgress a c :=
  ⟨h2.1.trans h1.1, h2.2.1.trans h1.2.1, h2.2.2.1.trans h1.2.2.1, h2.2.2.2.trans h1.2.2.2⟩

theorem GetQuestionStatsOrCreate_progress (g : QuizGame) (questionId : Int) :
    SameProgress g (GetQuestionStatsOrCreate g questionId).1 := by
  unfold GetQuestionStatsOrCreate SameProgress
  cases h : g.questionStats.get? questionId <;> simp

theorem AnswerMCQuestion_grade_progress (g : QuizGame) (question : Question)
    (questionId : Int) (answers : List Int) (user : User) (qs : QuestionStats)
    (qps : QuestionPlayerStat) :
    SameProgress g (AnswerMCQuestion.grade g question questionId answers user qs qps).game := by
  unfold AnswerMCQuestion.grade
  simp only [gradeAnswers_eq]
  split
  · exact ⟨rfl, rfl, rfl, rfl⟩
  · split_ifs <;> exact ⟨rfl, rfl, rfl, rfl⟩

theorem AnswerFreeTextQuestion_grade_progress (g : QuizGame) (questionId : Int)
    (answers : List String) (user : User) (qs : QuestionStats) (qps : QuestionPlayerStat) :
    SameProgress g (AnswerFreeTextQuestion.grade g questionId answers user qs qps).game := by
  unfold AnswerFreeTextQuestion.grade
  dsimp only
  split
  · split <;> exact ⟨rfl, rfl, rfl, rfl⟩
  · split_ifs <;> exact ⟨rfl, rfl, rfl, rfl⟩

theorem AnswerMCQuestion_progress (g : QuizGame) (questionId : Int) (answers : List Int)
    (user : User) : SameProgress g (AnswerMCQuestion g questionId answers user).game := by
  have hc := GetQuestionStatsOrCreate_progress g questionId
  unfold AnswerMCQuestion
  split
  · exact SameProgress.same_refl g
  · split
    · exact SameProgress.same_refl g
    · split
      · exact SameProgress.same_refl g
      · split
        · exact SameProgress.same_refl g
        · split
          · exact SameProgress.same_refl g
          · split
            · exact SameProgress.same_refl g
            · simp only []
              split
              · exact hc
              · split
                · split
                  · exact hc
                  · exact hc.same_trans (AnswerMCQuestion_grade_progress _ _ _ _ _ _ _)
                · exact hc.same_trans (AnswerMCQuestion_grade_progress _ _ _ _ _ _ _)

theorem AnswerFreeTextQuestion_progress (g : QuizGame) (questionId : Int)
    (answers : List String) (user : User) :
    SameProgress g (AnswerFreeTextQuestion g questionId answers user).game := by
  have hc := GetQuestionStatsOrCreate_progress g questionId
  unfold AnswerFreeTextQuestion
  split
  · exact SameProgress.same_refl g
  · split
    · exact SameProgress.same_refl g
    · split
      · exact SameProgress.same_refl g
      · split
        · exact SameProgress.same_refl g
        · split
          · exact SameProgress.same_refl g
          · split
            · exact SameProgress.same_refl g
            · simp only []
              split
              · exact hc
              · split
                · split
                  · exact hc
                  · exact hc.same_trans (AnswerFreeTextQuestion_grade_progress _ _ _ _ _ _)
                · exact hc.same_trans (AnswerFreeTextQuestion_grade_progress _ _ _ _ _ _)

theorem storeSharedAnswers_progress (g : QuizGame) (questionId : Int)
    (shared : GoMap Int AnswerStat) : SameProgress g (storeSharedAnswers g questionId shared) := by
  unfold storeSharedAnswers
  split <;> exact ⟨rfl, rfl, rfl, rfl⟩

theorem timerCallback_progress (g : QuizGame) (question : Question) :
    SameProgress g (timerCallback g question).game := by
  have h0 : SameProgress g (g.setQuestionTimer none) := ⟨rfl, rfl, rfl, rfl⟩
  have hstep : ∀ (r : Outcome AnswerReturn), SameProgress g r.game →
      SameProgress g
        (match r with
        | .panicked quizGame => (.panicked quizGame : Outcome (List Sent))
        | .returned quizGame r =>
          let (quizGame, questionStats) := GetQuestionStatsOrCreate quizGame question.ID
          let looped := timerCallback.loop question.ID question.Answers questionStats r.msg
          let quizGame :=
            storeSharedAnswers quizGame question.ID looped.questionStats.AnswersStats
          if looped.nilDereference then .panicked quizGame
          else
            match looped.message with
            | some m =>
              .returned quizGame
                [{ user :=
                     { Login := "system", UserID := "", SessionID := quizGame.SessionID,
                       InstanceName := "" }
                   message := .questionStats m }]
            | none => .returned quizGame []).game := by
    intro r hr
    cases r with
    | panicked q => exact hr
    | returned q v =>
      have h2 := (hr.same_trans (GetQuestionStatsOrCreate_progress q question.ID)).same_trans
        (storeSharedAnswers_progress (GetQuestionStatsOrCreate q question.ID).1 question.ID
          (timerCallback.loop question.ID question.Answers
            (GetQuestionStatsOrCreate q question.ID).2 v.msg).questionStats.AnswersStats)
      dsimp only
      split_ifs
      · exact h2
      · split <;> exact h2
  unfold timerCallback
  dsimp only
  split_ifs
  · exact hstep _ (h0.same_trans (AnswerMCQuestion_progress _ _ _ _))
  · exact hstep _ (h0.same_trans (AnswerFreeTextQuestion_progress _ _ _ _))
  · exact hstep (.returned (g.setQuestionTimer none) ⟨none, none⟩) h0

theorem timerExpiry_progress (g : QuizGame) : SameProgress g (timerExpiry g).game := by
  unfold timerExpiry
  split
  · exact SameProgress.same_refl g
  · split_ifs
    · exact SameProgress.same_refl g
    · exact SameProgress.same_trans ⟨rfl, rfl, rfl, rfl⟩ (timerCallback_progress _ _)

theorem NextQuizQuestionMessage_index (g : QuizGame) :
    (NextQuizQuestionMessage g).game.currentQuestionIndex = g.currentQuestionIndex + 1 := by
  unfold NextQuizQuestionMessage getNextQuestion
  dsimp only
  cases hq : g.quiz with
  | none => rfl
  | some quiz =>
    dsimp only
    split_ifs
    · cases hi : index? quiz.Questions (g.currentQuestionIndex + 1) <;> simp [hq, Outcome.game,
        QuizGame.setQuestionTimer]
    · simp [hq, Outcome.game]

theorem run_append (g : QuizGame) (pre post : List Event) :
    run g (pre ++ post) = run (run g pre) post := by
  induction pre generalizing g with
  | nil => rfl
  | cons e rest ih => exact ih (e.apply g)

theorem Event.apply_index (g : QuizGame) (e : Event) (h : e.isStart = false) :
    (e.apply g).currentQuestionIndex =
      g.currentQuestionIndex + (if e.isNext then 1 else 0) := by
  cases e with
  | start quiz user => cases h
  | next => simpa [Event.apply, Event.isNext] using NextQuizQuestionMessage_index g
  | answerMC q a u => simpa [Event.apply, Event.isNext] using (AnswerMCQuestion_progress g q a u).1
  | answerFreeText q a u =>
    simpa [Event.apply, Event.isNext] using (AnswerFreeTextQuestion_progress g q a u).1
  | expire => simpa [Event.apply, Event.isNext] using (timerExpiry_progress g).1
  | connected n => simp [Event.apply, Event.isNext]

theorem run_index (g : QuizGame) (events : List Event)
    (h : ∀ e ∈ events, e.isStart = false) :
    (run g events).currentQuestionIndex =
      g.currentQuestionIndex + ((events.filter Event.isNext).length : Int) := by
  induction events generalizing g with
  | nil => simp [run]
  | cons e rest ih =>
    have he := Event.apply_index g e (h e (List.mem_cons_self _ _))
    have hrest := ih (e.apply g) (fun x hx => h x (List.mem_cons_of_mem _ hx))
    rw [run, hrest, he]
    cases hn : e.isNext
    · simp [List.filter, hn]
    · simp [List.filter, hn]
      omega

/-- C11: along any sequence of `NextQuizQuestionMessage` calls, submissions,
timer expiries and changes of the player count, with no `Start`,
`currentQuestionIndex` never decreases: each `NextQuizQuestionMessage` call
adds exactly one (whatever it returns), no submission and no timer expiry
changes it (whether it returns a snapshot, an error, or panics), and `Start`
sets it to -1. -/
theorem C11_index_is_monotone (g : QuizGame) (pre post : List Event)
    (hpre : ∀ e ∈ pre, e.isStart = false) (hpost : ∀ e ∈ post, e.isStart = false) :
    (run g pre).currentQuestionIndex ≤ (run g (pre ++ post)).currentQuestionIndex ∧
    (run g (pre ++ post)).currentQuestionIndex =
      g.currentQuestionIndex + (((pre ++ post).filter Event.isNext).length : Int) ∧
    (∀ h, (NextQuizQuestionMessage h).game.currentQuestionIndex =
      h.currentQuestionIndex + 1) ∧
    (∀ h questionId answers user,
      (AnswerMCQuestion h questionId answers user).game.currentQuestionIndex =
        h.currentQuestionIndex) ∧
    (∀ h questionId texts user,
      (AnswerFreeTextQuestion h questionId texts user).game.currentQuestionIndex =
        h.currentQuestionIndex) ∧
    (∀ h, (timerExpiry h).game.currentQuestionIndex = h.currentQuestionIndex) ∧
    (∀ h quiz user, (Start h quiz user).currentQuestionIndex = -1) := by
  have hall : ∀ e ∈ pre ++ post, e.isStart = false := by
    intro e he
    rcases List.mem_append.1 he with h | h
    · exact hpre e h
    · exact hpost e h
  refine ⟨?_, run_index g _ hall, NextQuizQuestionMessage_index,
    fun h q a u => (AnswerMCQuestion_progress h q a u).1,
    fun h q a u => (AnswerFreeTextQuestion_progress h q a u).1,
    fun h => (timerExpiry_progress h).1, fun _ _ _ => rfl⟩
  rw [run_append, run_index (run g pre) post hpost]
  omega

/-- Witness of C11: the test engine is advanced, answered, timed out, advanced
twice and timed out again (the second expiry panics). -/
theorem C11_index_is_monotone_witness :
    (run newQuizGame [.next, .answerMC 101 [1001] (userNamed "login1"),
      .expire]).currentQuestionIndex ≤
      (run newQuizGame ([.next, .answerMC 101 [1001] (userNamed "login1"), .expire] ++
        [.next, .next, .expire])).currentQuestionIndex ∧
    (run newQuizGame ([.next, .answerMC 101 [1001] (userNamed "login1"), .expire] ++
        [.next, .next, .expire])).currentQuestionIndex = 2 :=
  have h := C11_index_is_monotone newQuizGame
    [.next, .answerMC 101 [1001] (userNamed "login1"), .expire] [.next, .next, .expire]
    (by decide) (by decide)
  ⟨h.1, h.2.1.trans (by decide)⟩

/-- A login whose per-question result is already decided is rejected by the
free-text operation, and the engine state is left as it was. -/
theorem AnswerFreeTextQuestion_already_answered (g : QuizGame) (question : Question)
    (questionId : Int) (texts : List String) (user : User) (timer : Timer)
    (r : QuestionPlayerStat)
    (hopen : OpenQuestion g question) (hid : question.ID = questionId)
    (hty : question.QuestionType = QUESTION_TYPE_FREE_TEXT)
    (htimer : g.questionTimer = some timer)
    (hres : playerResult g questionId user.Login = some r)
    (hdecided : r.Correct ≠ ANSWER_CORRECT_UNKNOWN) :
    AnswerFreeTextQuestion g questionId texts user =
      .returned g ⟨none, some (.alreadyAnswered user.Login questionId)⟩ := by
  obtain ⟨quiz, hquiz, hq⟩ := hopen
  obtain ⟨h0, hlt⟩ := index?_some_bounds _ _ _ hq
  cases hs : g.questionStats.get? questionId with
  | none => simp [playerResult, hs] at hres
  | some s =>
    have hres' : s.PlayerStats.get? user.Login = some r := by
      simpa [playerResult, hs] using hres
    unfold AnswerFreeTextQuestion
    simp only [hquiz, not_lt.2 h0, if_false, ge_iff_le, not_le.2 hlt, hq, hid, hty, ne_eq,
      not_true_eq_false, GetQuestionStatsOrCreate, hs, htimer, hres', hdecided, if_true,
      not_false_eq_true]

theorem freeTexts_of_get? (g : QuizGame) (questionId : Int) (s : QuestionStats)
    (h : g.questionStats.get? questionId = some s) :
    freeTexts g questionId = s.FreeTextAnswersStats := by
  simp [freeTexts, h]

/-- C13: a graded free-text submission (open free-text question, armed timer,
login not yet graded, at least one text) succeeds, records the player as
correct, appends `{first text, login}` at the end of the free-text list and
adds one to the player's `countAnswered`; while the question stays open, any
further submission of that login fails with `already answered` and changes
nothing. -/
theorem C13_free_text_submission (g : QuizGame) (question : Question) (questionId : Int)
    (text : String) (rest : List String) (user : User) (timer : Timer)
    (hopen : OpenQuestion g question) (hid : question.ID = questionId)
    (hty : question.QuestionType = QUESTION_TYPE_FREE_TEXT)
    (htimer : g.questionTimer = some timer)
    (hfresh : ∀ r, playerResult g questionId user.Login = some r →
      r.Correct = ANSWER_CORRECT_UNKNOWN) :
    ∃ g' m, AnswerFreeTextQuestion g questionId (text :: rest) user =
        .returned g' ⟨some m, none⟩ ∧
      (playerResult g' questionId user.Login).map (fun r => r.Correct) =
        some ANSWER_CORRECT_CORRECT ∧
      freeTexts g' questionId =
        freeTexts g questionId ++ [{ Text := text, Login := user.Login }] ∧
      m.FreeTextAnswersStats = freeTexts g' questionId ∧
      countAnswered g' user.Login = countAnswered g user.Login + 1 ∧
      (g'.questionTimer ≠ none → ∀ texts : List String,
        AnswerFreeTextQuestion g' questionId texts user =
          .returned g' ⟨none, some (.alreadyAnswered user.Login questionId)⟩) := by
  obtain ⟨g', m, hret, hqs, hps, -⟩ :=
    AnswerFreeTextQuestion_graded g question questionId text rest user timer hopen hid hty
      htimer hfresh
  have hprog := AnswerFreeTextQuestion_progress g questionId (text :: rest) user
  rw [hret] at hprog
  have hres : playerResult g' questionId user.Login =
      some { resultOrFresh (playerResult g questionId user.Login) user.Login with
        Correct := ANSWER_CORRECT_CORRECT } := by
    rw [playerResult_of_get? _ _ _ _ hqs]
    simp [ftStatsAfter, ftResultsAfter]
  have hft : freeTexts g' questionId =
      freeTexts g questionId ++ [{ Text := text, Login := user.Login }] := by
    rw [freeTexts_of_get? _ _ _ hqs]
    simp [ftStatsAfter, GetQuestionStatsOrCreate_freeTexts]
  have hm : m.FreeTextAnswersStats = freeTexts g' questionId := by
    have hmsg : (AnswerFreeTextQuestion g questionId (text :: rest) user).value? =
        some ⟨some m, none⟩ := by rw [hret]; rfl
    rw [AnswerFreeTextQuestion_eq_grade g question questionId (text :: rest) user timer hopen
      hid hty htimer hfresh, AnswerFreeTextQuestion_grade_eq] at hmsg
    simp only [Outcome.value?, Option.some.injEq, AnswerReturn.mk.injEq, and_true] at hmsg
    rw [hft, ← hmsg, GetQuestionStatsOrCreate_freeTexts]
  refine ⟨g', m, hret, ?_, hft, hm, ?_, ?_⟩
  · rw [hres]; rfl
  · simp only [countAnswered, hps, GoMap.get?_set_self, playerStatAfter]
  · intro hstill texts
    cases ht : g'.questionTimer with
    | none => exact absurd ht hstill
    | some t' =>
      obtain ⟨quiz, hquiz, hq⟩ := hopen
      have hopen' : OpenQuestion g' question :=
        ⟨quiz, by rw [show g'.quiz = g.quiz from hprog.2.1]; exact hquiz,
          by rw [show g'.currentQuestionIndex = g.currentQuestionIndex from hprog.1]; exact hq⟩
      exact AnswerFreeTextQuestion_already_answered g' question questionId texts user t' _
        hopen' hid hty ht hres
        (show ANSWER_CORRECT_CORRECT ≠ ANSWER_CORRECT_UNKNOWN by decide)

/-- Witness of C13: the first text sent to question 301 with two connected players. -/
theorem C13_free_text_submission_witness :
    ∃ g' m, AnswerFreeTextQuestion freeTextOpen 301 ("because" :: ["or not"])
        (userNamed "login1") = .returned g' ⟨some m, none⟩ ∧
      freeTexts g' 301 = [{ Text := "because", Login := "login1" }] ∧
      countAnswered g' "login1" = 1 ∧
      AnswerFreeTextQuestion g' 301 ["again"] (userNamed "login1") =
        .returned g' ⟨none, some (.alreadyAnswered "login1" 301)⟩ :=
  match C13_free_text_submission freeTextOpen question301 301 "because" ["or not"]
      (userNamed "login1")
      { question := question301, duration := 1800000000000, stopped := false }
      ⟨freeTextQuiz, by decide, by decide⟩ (by decide) (by decide) (by decide)
      (fun r h => by
        rw [show playerResult freeTextOpen 301 (userNamed "login1").Login = none
          from by decide] at h
        cases h) with
  | ⟨g', m, hret, _, hft, _, hcount, hsecond⟩ =>
    ⟨g', m, hret, hft, hcount, hsecond
      (by
        have hg : g' = (AnswerFreeTextQuestion freeTextOpen 301 ("because" :: ["or not"])
            (userNamed "login1")).game := by rw [hret]; rfl
        rw [hg]
        decide)
      ["again"]⟩

/-- C14 (evaluation at the failing input): with the free-text question 301
open, its timer armed and `login1` not yet graded, a submission with an empty
list of texts does not return: `answers[0]` panics with index out of range,
after `login1` has been recorded as correct in the per-question results. -/
theorem C14_empty_texts_panic :
    OpenQuestion freeTextOpen question301 ∧
    question301.QuestionType = QUESTION_TYPE_FREE_TEXT ∧
    freeTextOpen.questionTimer.isSome = true ∧
    playerResult freeTextOpen 301 "login1" = none ∧
    (AnswerFreeTextQuestion freeTextOpen 301 [] (userNamed "login1")).value? = none ∧
    (playerResult (AnswerFreeTextQuestion freeTextOpen 301 [] (userNamed "login1")).game 301
      "login1").map (fun r => r.Correct) = some ANSWER_CORRECT_CORRECT :=
  ⟨⟨freeTextQuiz, by decide, by decide⟩, by decide, by decide, by decide, by decide, by decide⟩

/-- C15 (evaluation at the failing input): after `Start` and three calls of
`NextQuizQuestionMessage` on the two-question quiz the timer of question 102 is
still pending; its expiry gets `quiz ended` and no message from
`AnswerMCQuestion`, and the callback panics on the nil message without sending
anything. -/
theorem C15_expiry_after_last_question_panics :
    lastTimerLeftArmed.questionTimer =
      some { question := question102, duration := 0, stopped := false } ∧
    pendingTimers lastTimerLeftArmed =
      [{ question := question102, duration := 0, stopped := false }] ∧
    (AnswerMCQuestion (lastTimerLeftArmed.setQuestionTimer none) 102 []
      { Login := "system", UserID := "", SessionID := "", InstanceName := "" }).value? =
      some ⟨none, some .quizEnded⟩ ∧
    (timerExpiry lastTimerLeftArmed).value? = none := by
  decide

/-- C18 (evaluation at the failing input): with one connected player, the
answer of `login1` ends question 101 (status ended); a later submission to the
same question takes the nil-timer branch and rewrites the recorded status to
timed-out. -/
theorem C18_ended_becomes_timed_out :
    questionStatus closedByConvergence 101 = some QUESTION_STATUS_ENDED ∧
    closedByConvergence.questionTimer = none ∧
    questionStatus (AnswerMCQuestion closedByConvergence 101 [1002] (userNamed "login2")).game
      101 = some QUESTION_STATUS_TIMEOUT ∧
    questionStatus (Event.apply closedByConvergence
      (.answerMC 101 [1002] (userNamed "login2"))) 101 = some QUESTION_STATUS_TIMEOUT := by
  decide

/-! ## Lemmas on the timer callback -/

theorem timerCallback_loop_some (questionId : Int) (as : List Answer) (qs : QuestionStats)
    (m : QuizQuestionStatsMessage) (hshared : m.AnswersStats = qs.AnswersStats) :
    timerCallback.loop questionId as qs (some m) =
      ⟨{ qs with AnswersStats := foldStats [] as qs.AnswersStats },
        some { m with AnswersStats := foldStats [] as qs.AnswersStats }, false⟩ := by
  induction as generalizing qs m with
  | nil =>
    cases m
    simp only [timerCallback.loop, foldStats] at *
    simp [hshared]
  | cons a rest ih =>
    cases hget : qs.AnswersStats.get? a.ID with
    | none =>
      simp only [timerCallback.loop, QuestionStats.GetAnswerStatsOrCreate, hget]
      rw [ih _ _ rfl]
      simp [foldStats, stepStats, gradedEntry, contains, hget]
    | some s =>
      simp only [timerCallback.loop, QuestionStats.GetAnswerStatsOrCreate, hget]
      rw [ih _ _ rfl]
      simp [foldStats, stepStats, gradedEntry, contains, hget]

theorem GoMap.set_set {K V : Type} [DecidableEq K] (m : GoMap K V) (k : K) (v w : V) :
    (m.set k v).set k w = m.set k w := by
  have h : ∀ l : List (K × V), setEntries k w (setEntries k v l) = setEntries k w l := by
    intro l
    induction l with
    | nil => simp [setEntries]
    | cons e rest ih =>
      by_cases he : e.1 = k
      · simp [setEntries, he]
      · simp [setEntries, he, ih]
  cases m with
  | mk entries nodup =>
    simp only [GoMap.set, h]

/-- Closed form of the timer callback while its question is the open one. -/
theorem timerCallback_open (g : QuizGame) (question : Question)
    (hopen : OpenQuestion g question)
    (hty : question.QuestionType = QUESTION_TYPE_MCQ ∨
      question.QuestionType = QUESTION_TYPE_FREE_TEXT) :
    timerCallback g question =
      .returned (expiredGame g question)
        [{ user := { Login := "system", UserID := "", SessionID := g.SessionID,
                     InstanceName := "" }
           message := .questionStats (expiredMessage g question) }] := by
  have hopen2 : OpenQuestion (g.setQuestionTimer none) question := hopen
  have hans : (if question.QuestionType = QUESTION_TYPE_MCQ then
        AnswerMCQuestion (g.setQuestionTimer none) question.ID []
          { Login := "system", UserID := "", SessionID := "", InstanceName := "" }
      else if question.QuestionType = QUESTION_TYPE_FREE_TEXT then
        AnswerFreeTextQuestion (g.setQuestionTimer none) question.ID []
          { Login := "system", UserID := "", SessionID := "", InstanceName := "" }
      else .returned (g.setQuestionTimer none) ⟨none, none⟩) =
      .returned (timedOut (g.setQuestionTimer none) question.ID)
        ⟨getQuizQuestionStatsMessage (timedOut (g.setQuestionTimer none) question.ID)
          question.ID QUIZ_MESSAGE_ACTION_QUESTION_END, none⟩ := by
    rcases hty with h | h
    · rw [if_pos h]
      exact AnswerMCQuestion_no_timer _ question _ _ _ hopen2 rfl h rfl
    · have hne : ¬ question.QuestionType = QUESTION_TYPE_MCQ := by
        rw [h]; decide
      rw [if_neg hne, if_pos h]
      exact AnswerFreeTextQuestion_no_timer _ question _ _ _ hopen2 rfl h rfl
  unfold timerCallback
  simp only [hans]
  cases hs : g.questionStats.get? question.ID with
  | none =>
    have hs2 : (g.setQuestionTimer none).questionStats.get? question.ID = none := hs
    simp only [timedOut, GetQuestionStatsOrCreate, hs2, hs, getQuizQuestionStatsMessage,
      GoMap.get?_set_self, GoMap.set_set, storeSharedAnswers, expiredGame, expiredMessage,
      expiredEntry, QuizGame.setQuestionTimer]
    rw [timerCallback_loop_some _ _ _ _ rfl]
    simp [GoMap.set_set]
  | some s =>
    have hs2 : (g.setQuestionTimer none).questionStats.get? question.ID = some s := hs
    simp only [timedOut, GetQuestionStatsOrCreate, hs2, hs, getQuizQuestionStatsMessage,
      GoMap.get?_set_self, GoMap.set_set, storeSharedAnswers, expiredGame, expiredMessage,
      expiredEntry, QuizGame.setQuestionTimer]
    rw [timerCallback_loop_some _ _ _ _ rfl]
    simp [GoMap.set_set]

/-- C16 (as amended): when the pending timer of the open multiple-choice or
free-text question expires, and the answer ids of that question are pairwise
distinct, exactly one message is sent, by `{login "system", session id of the
game}`, with action question-end and status timed-out; it lists every answer
of the question with its true correctness and its aggregate count as it was;
no per-question result and no `playerStats` entry is added or changed. -/
theorem C16_expiry_of_open_question (g : QuizGame) (question : Question) (timer : Timer)
    (hopen : OpenQuestion g question) (htimer : g.questionTimer = some timer)
    (hq : timer.question = question) (hpending : timer.pending = true)
    (hty : question.QuestionType = QUESTION_TYPE_MCQ ∨
      question.QuestionType = QUESTION_TYPE_FREE_TEXT)
    (hnodup : (question.Answers.map (fun a => a.ID)).Nodup) :
    ∃ g' m, timerExpiry g =
        .returned g'
          [{ user := { Login := "system", UserID := "", SessionID := g.SessionID,
                       InstanceName := "" }
             message := .questionStats m }] ∧
      m.Envelope.Action = QUIZ_MESSAGE_ACTION_QUESTION_END ∧
      m.Status = QUESTION_STATUS_TIMEOUT ∧
      m.QuestionID = question.ID ∧
      (∀ a ∈ question.Answers, ∃ s, m.AnswersStats.get? a.ID = some s ∧
        s.Correct = a.Correct ∧ s.Count = answerCount g question.ID a.ID) ∧
      (∀ q login, playerResult g' q login = playerResult g q login) ∧
      g'.playerStats = g.playerStats ∧
      (∀ login, countAnswered g' login = countAnswered g login ∧
        countCorrect g' login = countCorrect g login) ∧
      questionStatus g' question.ID = some QUESTION_STATUS_TIMEOUT ∧
      g'.questionTimer = none := by
  have hnp : (timer.stopped || timer.fired) = false := by
    cases hs : timer.stopped <;> cases hf : timer.fired <;>
      simp [Timer.pending, hs, hf] at hpending ⊢
  have hexp : timerExpiry g =
      timerCallback { g with questionTimer := some { timer with fired := true } }
        question := by
    unfold timerExpiry
    simp only [htimer, hnp, hq]
    rfl
  have hopen1 : OpenQuestion
      { g with questionTimer := some { timer with fired := true } } question := hopen
  rw [hexp, timerCallback_open _ question hopen1 hty]
  refine ⟨_, _, rfl, rfl, rfl, rfl, ?_, ?_, rfl, fun _ => ⟨rfl, rfl⟩, ?_, rfl⟩
  · intro a ha
    refine ⟨_, get?_foldStats_of_mem [] question.Answers _ hnodup a ha, rfl, ?_⟩
    have hst : (GetQuestionStatsOrCreate
        { g with questionTimer := some { timer with fired := true } }
        question.ID).2.AnswersStats.get? a.ID = answerStat g question.ID a.ID :=
      GetQuestionStatsOrCreate_answersStats _ _ _
    rw [hst]
    unfold answerCount
    cases answerStat g question.ID a.ID <;> simp [gradedEntry, contains]
  · intro q login
    by_cases hqq : q = question.ID
    · subst hqq
      have hres : (GetQuestionStatsOrCreate
          { g with questionTimer := some { timer with fired := true } }
          question.ID).2.PlayerStats.get? login = playerResult g question.ID login :=
        GetQuestionStatsOrCreate_playerStats _ _ _
      simp only [playerResult, expiredGame, GoMap.get?_set_self, Option.some_bind,
        expiredEntry]
      exact hres
    · simp only [playerResult, expiredGame, GoMap.get?_set_ne _ _ _ _ hqq]
  · simp [questionStatus, expiredGame, expiredEntry]

/-- Witness of C16: the timer of question 101 expires after `login1` answered. -/
theorem C16_expiry_of_open_question_witness :
    ∃ g' m, timerExpiry afterRightAnswer =
        .returned g'
          [{ user := { Login := "system", UserID := "", SessionID := afterRightAnswer.SessionID,
                       InstanceName := "" }
             message := .questionStats m }] ∧
      m.Envelope.Action = QUIZ_MESSAGE_ACTION_QUESTION_END ∧
      m.Status = QUESTION_STATUS_TIMEOUT ∧
      (∀ a ∈ question101.Answers, ∃ s, m.AnswersStats.get? a.ID = some s ∧
        s.Correct = a.Correct ∧ s.Count = answerCount afterRightAnswer question101.ID a.ID) ∧
      g'.playerStats = afterRightAnswer.playerStats :=
  match C16_expiry_of_open_question afterRightAnswer question101
      { question := question101, duration := 1800000000000, stopped := false }
      ⟨validQuiz, by decide, by decide⟩ (by decide) (by decide) (by decide)
      (Or.inl (by decide)) (by decide) with
  | ⟨g', m, hret, hact, hst, _, hlist, _, hps, _⟩ => ⟨g', m, hret, hact, hst, hlist, hps⟩

/-- C16 (counterexample): the two answers of `question401` share the id 4001.
At the expiry of its timer the message sent holds a single entry for that id,
with correctness incorrect, although the first answer 4001 is correct. -/
theorem C16_counterexample :
    OpenQuestion sharedIdOpen question401 ∧
    sharedIdOpen.questionTimer =
      some { question := question401, duration := 0, stopped := false } ∧
    (sentQuestionStats (timerExpiry sharedIdOpen)).length = 1 ∧
    (∃ a ∈ question401.Answers, a.Correct = ANSWER_CORRECT_CORRECT ∧
      ∀ sent ∈ sentQuestionStats (timerExpiry sharedIdOpen),
        (sent.2.AnswersStats.get? a.ID).map (fun s => s.Correct) =
          some ANSWER_CORRECT_INCORRECT) :=
  ⟨⟨sharedIdQuiz, by decide, by decide⟩, by decide, by decide,
    ⟨{ ID := 4001, Title := "This one", URL := "/answer/4001", Correct := 1 }, by decide,
      by decide, by decide⟩⟩

/-! ## Lemmas on the retired timers -/

theorem RetiresQuietly.quiet_refl (g : QuizGame) : RetiresQuietly g g := fun _ ht => Or.inl ht

theorem RetiresQuietly.quiet_trans {a b c : QuizGame} (h1 : RetiresQuietly a b)
    (h2 : RetiresQuietly b c) : RetiresQuietly a c := by
  intro t ht
  rcases h2 t ht with h | h
  · exact h1 t h
  · exact Or.inr h

theorem RetiresQuietly.quiet_of_eq {g g' : QuizGame} (h : g'.retiredTimers = g.retiredTimers) :
    RetiresQuietly g g' := fun _ ht => Or.inl (h ▸ ht)

theorem Timer.Stop_not_pending (t : Timer) : t.Stop.pending = false := by
  simp [Timer.pending, Timer.Stop]

theorem RetiresQuietly.quiet_of_stop {g g' : QuizGame}
    (h : g'.retiredTimers = g.retiredTimers ++ (g.questionTimer.map Timer.Stop).toList) :
    RetiresQuietly g g' := by
  intro t ht
  rw [h] at ht
  rcases List.mem_append.1 ht with h1 | h1
  · exact Or.inl h1
  · cases hq : g.questionTimer with
    | none => simp [hq] at h1
    | some t0 =>
      simp only [hq, Option.map_some', Option.toList_some, List.mem_singleton] at h1
      rw [h1]
      exact Or.inr (Timer.Stop_not_pending t0)

theorem GetQuestionStatsOrCreate_retired (g : QuizGame) (questionId : Int) :
    (GetQuestionStatsOrCreate g questionId).1.retiredTimers = g.retiredTimers ∧
    (GetQuestionStatsOrCreate g questionId).1.questionTimer = g.questionTimer := by
  unfold GetQuestionStatsOrCreate
  cases h : g.questionStats.get? questionId <;> simp

theorem AnswerMCQuestion_grade_retires (g : QuizGame) (question : Question)
    (questionId : Int) (answers : List Int) (user : User) (qs : QuestionStats)
    (qps : QuestionPlayerStat) :
    RetiresQuietly g
      (AnswerMCQuestion.grade g question questionId answers user qs qps).game := by
  unfold AnswerMCQuestion.grade
  simp only [gradeAnswers_eq]
  split
  · exact RetiresQuietly.quiet_refl g
  · split_ifs
    all_goals first
      | exact RetiresQuietly.quiet_of_eq rfl
      | exact RetiresQuietly.quiet_of_stop rfl

theorem AnswerFreeTextQuestion_grade_retires (g : QuizGame) (questionId : Int)
    (answers : List String) (user : User) (qs : QuestionStats) (qps : QuestionPlayerStat) :
    RetiresQuietly g (AnswerFreeTextQuestion.grade g questionId answers user qs qps).game := by
  unfold AnswerFreeTextQuestion.grade
  dsimp only
  split
  · split <;> exact RetiresQuietly.quiet_of_eq rfl
  · split_ifs
    all_goals first
      | exact RetiresQuietly.quiet_of_eq rfl
      | exact RetiresQuietly.quiet_of_stop rfl

theorem AnswerMCQuestion_retires (g : QuizGame) (questionId : Int) (answers : List Int)
    (user : User) : RetiresQuietly g (AnswerMCQuestion g questionId answers user).game := by
  have hc : RetiresQuietly g (GetQuestionStatsOrCreate g questionId).1 :=
    RetiresQuietly.quiet_of_eq (GetQuestionStatsOrCreate_retired g questionId).1
  unfold AnswerMCQuestion
  split
  · exact RetiresQuietly.quiet_refl g
  · split
    · exact RetiresQuietly.quiet_refl g
    · split
      · exact RetiresQuietly.quiet_refl g
      · split
        · exact RetiresQuietly.quiet_refl g
        · split
          · exact RetiresQuietly.quiet_refl g
          · split
            · exact RetiresQuietly.quiet_refl g
            · simp only []
              split
              · exact hc
              · split
                · split
                  · exact hc
                  · exact hc.quiet_trans (AnswerMCQuestion_grade_retires _ _ _ _ _ _ _)
                · exact hc.quiet_trans (AnswerMCQuestion_grade_retires _ _ _ _ _ _ _)

theorem AnswerFreeTextQuestion_retires (g : QuizGame) (questionId : Int)
    (answers : List String) (user : User) :
    RetiresQuietly g (AnswerFreeTextQuestion g questionId answers user).game := by
  have hc : RetiresQuietly g (GetQuestionStatsOrCreate g questionId).1 :=
    RetiresQuietly.quiet_of_eq (GetQuestionStatsOrCreate_retired g questionId).1
  unfold AnswerFreeTextQuestion
  split
  · exact RetiresQuietly.quiet_refl g
  · split
    · exact RetiresQuietly.quiet_refl g
    · split
      · exact RetiresQuietly.quiet_refl g
      · split
        · exact RetiresQuietly.quiet_refl g
        · split
          · exact RetiresQuietly.quiet_refl g
          · split
            · exact RetiresQuietly.quiet_refl g
            · simp only []
              split
              · exact hc
              · split
                · split
                  · exact hc
                  · exact hc.quiet_trans (AnswerFreeTextQuestion_grade_retires _ _ _ _ _ _)
                · exact hc.quiet_trans (AnswerFreeTextQuestion_grade_retires _ _ _ _ _ _)

theorem storeSharedAnswers_retired (g : QuizGame) (questionId : Int)
    (shared : GoMap Int AnswerStat) :
    (storeSharedAnswers g questionId shared).retiredTimers = g.retiredTimers := by
  unfold storeSharedAnswers
  split <;> rfl

theorem timerCallback_retires (g : QuizGame) (question : Question)
    (hquiet : ∀ t, g.questionTimer = some t → t.pending = false) :
    RetiresQuietly g (timerCallback g question).game := by
  have h0 : RetiresQuietly g (g.setQuestionTimer none) := by
    intro t ht
    rcases List.mem_append.1 ht with h | h
    · exact Or.inl h
    · cases hq : g.questionTimer with
      | none => simp [hq] at h
      | some t0 =>
        simp only [hq, Option.toList_some, List.mem_singleton] at h
        exact Or.inr (h ▸ hquiet t0 hq)
  have hstep : ∀ (r : Outcome AnswerReturn), RetiresQuietly g r.game →
      RetiresQuietly g
        (match r with
        | .panicked quizGame => (.panicked quizGame : Outcome (List Sent))
        | .returned quizGame r =>
          let (quizGame, questionStats) := GetQuestionStatsOrCreate quizGame question.ID
          let looped := timerCallback.loop question.ID question.Answers questionStats r.msg
          let quizGame :=
            storeSharedAnswers quizGame question.ID looped.questionStats.AnswersStats
          if looped.nilDereference then .panicked quizGame
          else
            match looped.message with
            | some m =>
              .returned quizGame
                [{ user :=
                     { Login := "system", UserID := "", SessionID := quizGame.SessionID,
                       InstanceName := "" }
                   message := .questionStats m }]
            | none => .returned quizGame []).game := by
    intro r hr
    cases r with
    | panicked q => exact hr
    | returned q v =>
      have h2 : RetiresQuietly g
          (storeSharedAnswers (GetQuestionStatsOrCreate q question.ID).1 question.ID
            (timerCallback.loop question.ID question.Answers
              (GetQuestionStatsOrCreate q question.ID).2 v.msg).questionStats.AnswersStats) :=
        hr.quiet_trans (RetiresQuietly.quiet_of_eq
          ((storeSharedAnswers_retired _ _ _).trans
            (GetQuestionStatsOrCreate_retired q question.ID).1))
      dsimp only
      split_ifs
      · exact h2
      · split <;> exact h2
  unfold timerCallback
  dsimp only
  split_ifs
  · exact hstep _ (h0.quiet_trans (AnswerMCQuestion_retires _ _ _ _))
  · exact hstep _ (h0.quiet_trans (AnswerFreeTextQuestion_retires _ _ _ _))
  · exact hstep (.returned (g.setQuestionTimer none) ⟨none, none⟩) h0

theorem timerExpiry_retires (g : QuizGame) : RetiresQuietly g (timerExpiry g).game := by
  unfold timerExpiry
  split
  · exact RetiresQuietly.quiet_refl g
  · rename_i timer htimer
    split_ifs
    · exact RetiresQuietly.quiet_refl g
    · have h1 : RetiresQuietly g
          { g with questionTimer := some { timer with fired := true } } :=
        RetiresQuietly.quiet_of_eq rfl
      refine h1.quiet_trans (timerCallback_retires _ _ ?_)
      intro t ht
      simp only [Option.some.injEq] at ht
      rw [← ht]
      simp [Timer.pending]

/-- A Question-Started message is only returned when a quiz is loaded and a
question stands at the next index. -/
theorem NextQuizQuestionMessage_question_inv (g g' : QuizGame) (m : QuizQuestionMessage)
    (hret : NextQuizQuestionMessage g = .returned g' (.quizQuestion m)) :
    ∃ quiz question, g.quiz = some quiz ∧
      index? quiz.Questions (g.currentQuestionIndex + 1) = some question := by
  revert hret
  unfold NextQuizQuestionMessage getNextQuestion
  dsimp only
  cases hq : g.quiz with
  | none => intro hret; cases hret
  | some quiz =>
    dsimp only
    split_ifs
    · cases hi : index? quiz.Questions (g.currentQuestionIndex + 1) with
      | none => intro hret; cases hret
      | some question => intro _; exact ⟨quiz, question, rfl, hi⟩
    · intro hret
      simp [hq] at hret

/-- What a call of `NextQuizQuestionMessage` does to the timers: either it
leaves them alone, or it stops the referenced timer and retires it. -/
theorem NextQuizQuestionMessage_timers (g : QuizGame) :
    (NextQuizQuestionMessage g).game.retiredTimers = g.retiredTimers ∨
    (NextQuizQuestionMessage g).game.retiredTimers =
      g.retiredTimers ++ (g.questionTimer.map Timer.Stop).toList := by
  unfold NextQuizQuestionMessage getNextQuestion
  dsimp only
  cases hq : g.quiz with
  | none => exact Or.inl rfl
  | some quiz =>
    dsimp only
    split_ifs
    · cases hi : index? quiz.Questions (g.currentQuestionIndex + 1) with
      | none => exact Or.inl rfl
      | some question =>
        refine Or.inr ?_
        simp only [hq, Outcome.game, QuizGame.setQuestionTimer]
    · exact Or.inl (by simp [hq, Outcome.game])

theorem NextQuizQuestionMessage_retires (g : QuizGame) :
    RetiresQuietly g (NextQuizQuestionMessage g).game := by
  rcases NextQuizQuestionMessage_timers g with h | h
  · exact RetiresQuietly.quiet_of_eq h
  · exact RetiresQuietly.quiet_of_stop h

theorem Event.apply_retires (g : QuizGame) (e : Event) : RetiresQuietly g (e.apply g) := by
  cases e with
  | start quiz user => exact RetiresQuietly.quiet_of_eq rfl
  | next => exact NextQuizQuestionMessage_retires g
  | answerMC q a u => exact AnswerMCQuestion_retires g q a u
  | answerFreeText q a u => exact AnswerFreeTextQuestion_retires g q a u
  | expire => exact timerExpiry_retires g
  | connected n => exact RetiresQuietly.quiet_of_eq rfl

theorem run_retires (g : QuizGame) (events : List Event) : RetiresQuietly g (run g events) := by
  induction events generalizing g with
  | nil => exact RetiresQuietly.quiet_refl g
  | cons e rest ih => exact (Event.apply_retires g e).quiet_trans (ih (e.apply g))

theorem pendingTimers_length (g : QuizGame) (h : ∀ t ∈ g.retiredTimers, t.pending = false) :
    (pendingTimers g).length ≤ 1 := by
  unfold pendingTimers
  rw [List.filter_append]
  have hnil : g.retiredTimers.filter Timer.pending = [] := by
    rw [List.filter_eq_nil_iff]
    intro t ht
    simp [h t ht]
  rw [hnil, List.nil_append]
  cases g.questionTimer with
  | none => simp
  | some t =>
    simp only [Option.toList_some]
    exact (List.length_filter_le _ _).trans (by simp)

/-- C17: in every state of an engine built by the hub and driven by `Start`,
`NextQuizQuestionMessage`, submissions, timer expiries and changes of the
player count, no timer the engine has stopped referencing is pending, so at
most one timer is pending; and a call of `NextQuizQuestionMessage` that
returns a Question-Started message has stopped the timer referenced before,
retired it in that stopped state, and armed one pending timer. -/
theorem C17_at_most_one_pending_timer :
    (∀ (sessionID : String) (players : Int) (events : List Event),
      (∀ t ∈ (run (NewQuizGame sessionID players) events).retiredTimers, t.pending = false) ∧
      (pendingTimers (run (NewQuizGame sessionID players) events)).length ≤ 1) ∧
    (∀ g g' m, NextQuizQuestionMessage g = .returned g' (.quizQuestion m) →
      g'.retiredTimers = g.retiredTimers ++ (g.questionTimer.map Timer.Stop).toList ∧
      (∀ t ∈ (g.questionTimer.map Timer.Stop).toList, t.stopped = true) ∧
      ∃ t, g'.questionTimer = some t ∧ t.pending = true) := by
  constructor
  · intro sessionID players events
    have hquiet : ∀ t ∈ (run (NewQuizGame sessionID players) events).retiredTimers,
        t.pending = false := by
      intro t ht
      rcases run_retires (NewQuizGame sessionID players) events t ht with h | h
      · cases h
      · exact h
    exact ⟨hquiet, pendingTimers_length _ hquiet⟩
  · intro g g' m hret
    obtain ⟨quiz, question, hquiz, hq⟩ := NextQuizQuestionMessage_question_inv g g' m hret
    rw [NextQuizQuestionMessage_question g quiz question hquiz hq] at hret
    injection hret with hg _
    rw [← hg]
    refine ⟨rfl, ?_, _, rfl, rfl⟩
    intro t ht
    cases hqt : g.questionTimer with
    | none => simp [hqt] at ht
    | some t0 =>
      simp only [hqt, Option.map_some', Option.toList_some, List.mem_singleton] at ht
      rw [ht]
      rfl

/-- Witness of C17: a session that restarts its quiz while a timer is armed. -/
theorem C17_at_most_one_pending_timer_witness :
    (pendingTimers (run (NewQuizGame "session" 2)
      [.start validQuiz (userNamed "login"), .next, .answerMC 101 [1001] (userNamed "login1"),
        .start validQuiz (userNamed "login"), .next, .next, .next])).length ≤ 1 ∧
    (run (NewQuizGame "session" 2)
      [.start validQuiz (userNamed "login"), .next, .answerMC 101 [1001] (userNamed "login1"),
        .start validQuiz (userNamed "login"), .next, .next, .next]).retiredTimers.length = 2 :=
  ⟨(C17_at_most_one_pending_timer.1 "session" 2 _).2, by decide⟩

/-! ## Lemmas on the growth of the statistics -/

theorem CountsGrow.counts_refl (m : GoMap Int AnswerStat) : CountsGrow m m :=
  fun _ st h => ⟨st, h, le_refl _⟩

theorem CountsGrow.counts_trans {a b c : GoMap Int AnswerStat} (h1 : CountsGrow a b)
    (h2 : CountsGrow b c) : CountsGrow a c := by
  intro id st h
  obtain ⟨st1, hb, hle1⟩ := h1 id st h
  obtain ⟨st2, hc, hle2⟩ := h2 id st1 hb
  exact ⟨st2, hc, hle1.trans hle2⟩

theorem CountsGrow.counts_set (m : GoMap Int AnswerStat) (k : Int) (v : AnswerStat)
    (h : ∀ st, m.get? k = some st → st.Count ≤ v.Count) : CountsGrow m (m.set k v) := by
  intro id st hst
  by_cases hk : id = k
  · subst hk
    exact ⟨v, GoMap.get?_set_self _ _ _, h st hst⟩
  · exact ⟨st, by rw [GoMap.get?_set_ne _ _ _ _ hk]; exact hst, le_refl _⟩

theorem stepStats_grows (answers : List Int) (answer : Answer) (m : GoMap Int AnswerStat) :
    CountsGrow m (stepStats answers answer m) := by
  intro id st hst
  rw [get?_stepStats]
  by_cases hk : id = answer.ID
  · subst hk
    refine ⟨_, if_pos rfl, ?_⟩
    rw [hst]
    simp only [gradedEntry]
    split <;> omega
  · exact ⟨st, by rw [if_neg hk]; exact hst, le_refl _⟩

theorem foldStats_grows (answers : List Int) (as : List Answer) (m : GoMap Int AnswerStat) :
    CountsGrow m (foldStats answers as m) := by
  induction as generalizing m with
  | nil => exact CountsGrow.counts_refl m
  | cons a rest ih => exact (stepStats_grows answers a m).counts_trans (ih _)

theorem StatsGrow.stats_refl (s : QuestionStats) : StatsGrow s s :=
  ⟨CountsGrow.counts_refl _, fun _ h => h, List.prefix_refl _⟩

theorem StatsGrow.stats_trans {a b c : QuestionStats} (h1 : StatsGrow a b) (h2 : StatsGrow b c) :
    StatsGrow a c :=
  ⟨h1.1.counts_trans h2.1, fun l h => h2.2.1 l (h1.2.1 l h), h1.2.2.trans h2.2.2⟩

theorem PlayersGrow.players_refl (m : GoMap String PlayerStat) : PlayersGrow m m :=
  fun _ p h => ⟨p, h, le_refl _, le_refl _⟩

theorem PlayersGrow.players_trans {a b c : GoMap String PlayerStat} (h1 : PlayersGrow a b)
    (h2 : PlayersGrow b c) : PlayersGrow a c := by
  intro l p h
  obtain ⟨p1, hb, ha1, hc1⟩ := h1 l p h
  obtain ⟨p2, hc, ha2, hc2⟩ := h2 l p1 hb
  exact ⟨p2, hc, ha1.trans ha2, hc1.trans hc2⟩

theorem PlayersGrow.players_set (m : GoMap String PlayerStat) (k : String) (v : PlayerStat)
    (h : ∀ p, m.get? k = some p →
      p.CountAnswered ≤ v.CountAnswered ∧ p.CountCorrect ≤ v.CountCorrect) :
    PlayersGrow m (m.set k v) := by
  intro l p hp
  by_cases hk : l = k
  · subst hk
    exact ⟨v, GoMap.get?_set_self _ _ _, (h p hp).1, (h p hp).2⟩
  · exact ⟨p, by rw [GoMap.get?_set_ne _ _ _ _ hk]; exact hp, le_refl _, le_refl _⟩

theorem Grows.grows_refl (g : QuizGame) : Grows g g :=
  ⟨fun _ s h => ⟨s, h, StatsGrow.stats_refl s⟩, PlayersGrow.players_refl _⟩

theorem Grows.grows_trans {a b c : QuizGame} (h1 : Grows a b) (h2 : Grows b c) : Grows a c := by
  refine ⟨?_, h1.2.players_trans h2.2⟩
  intro q s h
  obtain ⟨s1, hb, hg1⟩ := h1.1 q s h
  obtain ⟨s2, hc, hg2⟩ := h2.1 q s1 hb
  exact ⟨s2, hc, hg1.stats_trans hg2⟩

theorem Grows.grows_of_eq {g g' : QuizGame} (hq : g'.questionStats = g.questionStats)
    (hp : g'.playerStats = g.playerStats) : Grows g g' := by
  refine ⟨fun q s h => ⟨s, by rw [hq]; exact h, StatsGrow.stats_refl s⟩, ?_⟩
  rw [hp]
  exact PlayersGrow.players_refl _

/-- Overwriting the stored entry of a question by a grown one, and the player
statistics by grown ones, makes the engine statistics grow. -/
theorem Grows.set_entry {g g' : QuizGame} (questionId : Int) (qs qs' : QuestionStats)
    (hstored : g.questionStats.get? questionId = some qs)
    (hq : g'.questionStats = g.questionStats.set questionId qs') (hs : StatsGrow qs qs')
    (hp : PlayersGrow g.playerStats g'.playerStats) : Grows g g' := by
  refine ⟨?_, hp⟩
  intro q s h
  by_cases hk : q = questionId
  · subst hk
    rw [hstored] at h
    cases h
    exact ⟨qs', by rw [hq]; exact GoMap.get?_set_self _ _ _, hs⟩
  · exact ⟨s, by rw [hq, GoMap.get?_set_ne _ _ _ _ hk]; exact h, StatsGrow.stats_refl s⟩

theorem GetQuestionStatsOrCreate_grows (g : QuizGame) (questionId : Int) :
    Grows g (GetQuestionStatsOrCreate g questionId).1 := by
  refine ⟨?_, ?_⟩
  · intro q s h
    refine ⟨s, ?_, StatsGrow.stats_refl s⟩
    by_cases hk : q = questionId
    · subst hk
      rw [GetQuestionStatsOrCreate_get?]
      unfold GetQuestionStatsOrCreate
      rw [h]
    · rw [GetQuestionStatsOrCreate_get?_ne g questionId q hk]
      exact h
  · rw [(GetQuestionStatsOrCreate_fields g questionId).1]
    exact PlayersGrow.players_refl _

theorem GoMap.isSome_set {K V : Type} [DecidableEq K] (m : GoMap K V) (k l : K) (v : V)
    (h : (m.get? l).isSome) : ((m.set k v).get? l).isSome := by
  rw [GoMap.get?_set]
  split
  · rfl
  · exact h

theorem playerStatAfter_grows (m : GoMap String PlayerStat) (login : String) (correct : Bool) :
    PlayersGrow m (m.set login (playerStatAfter (m.get? login) login correct)) := by
  apply PlayersGrow.players_set
  intro p hp
  rw [hp]
  simp only [playerStatAfter]
  constructor
  · omega
  · split <;> omega

theorem AnswerMCQuestion_grade_grows (g : QuizGame) (question : Question) (questionId : Int)
    (answers : List Int) (user : User) (qs : QuestionStats) (qps : QuestionPlayerStat)
    (hstored : g.questionStats.get? questionId = some qs) :
    Grows g (AnswerMCQuestion.grade g question questionId answers user qs qps).game := by
  cases h : firstInvalidAnswer (question.Answers.map (fun a => a.ID)) answers with
  | some bad =>
    unfold AnswerMCQuestion.grade
    simp only [h]
    exact Grows.grows_refl g
  | none =>
    rw [AnswerMCQuestion_grade_eq g question questionId answers user qs qps
      ((firstInvalidAnswer_none_iff _ _).1 h)]
    refine Grows.set_entry questionId qs _ hstored rfl ?_ (playerStatAfter_grows _ _ _)
    exact ⟨foldStats_grows _ _ _, fun l hl => GoMap.isSome_set _ _ _ _ hl, List.prefix_refl _⟩

theorem AnswerFreeTextQuestion_grade_grows (g : QuizGame) (questionId : Int)
    (answers : List String) (user : User) (qs : QuestionStats) (qps : QuestionPlayerStat)
    (hstored : g.questionStats.get? questionId = some qs) :
    Grows g (AnswerFreeTextQuestion.grade g questionId answers user qs qps).game := by
  cases answers with
  | nil =>
    have hidx : index? ([] : List String) 0 = none := by simp [index?]
    unfold AnswerFreeTextQuestion.grade
    simp only [hidx, hstored]
    refine Grows.set_entry questionId qs _ hstored rfl ?_ (PlayersGrow.players_refl _)
    exact ⟨CountsGrow.counts_refl _, fun l hl => GoMap.isSome_set _ _ _ _ hl, List.prefix_refl _⟩
  | cons text rest =>
    rw [AnswerFreeTextQuestion_grade_eq]
    refine Grows.set_entry questionId qs _ hstored rfl ?_ (playerStatAfter_grows _ _ _)
    exact ⟨CountsGrow.counts_refl _, fun l hl => GoMap.isSome_set _ _ _ _ hl,
      List.prefix_append _ _⟩

theorem timedOut_grows (g : QuizGame) (questionId : Int) : Grows g (timedOut g questionId) := by
  refine (GetQuestionStatsOrCreate_grows g questionId).grows_trans ?_
  exact Grows.set_entry questionId _ _ (GetQuestionStatsOrCreate_get? g questionId) rfl
    ⟨CountsGrow.counts_refl _, fun _ h => h, List.prefix_refl _⟩ (PlayersGrow.players_refl _)

theorem AnswerMCQuestion_grows (g : QuizGame) (questionId : Int) (answers : List Int)
    (user : User) : Grows g (AnswerMCQuestion g questionId answers user).game := by
  have hc := GetQuestionStatsOrCreate_grows g questionId
  have hst := GetQuestionStatsOrCreate_get? g questionId
  have hto := timedOut_grows g questionId
  unfold timedOut at hto
  unfold AnswerMCQuestion
  split
  · exact Grows.grows_refl g
  · split
    · exact Grows.grows_refl g
    · split
      · exact Grows.grows_refl g
      · split
        · exact Grows.grows_refl g
        · split
          · exact Grows.grows_refl g
          · split
            · exact Grows.grows_refl g
            · simp only []
              split
              · exact hto
              · split
                · split
                  · exact hc
                  · exact hc.grows_trans (AnswerMCQuestion_grade_grows _ _ _ _ _ _ _ hst)
                · exact hc.grows_trans (AnswerMCQuestion_grade_grows _ _ _ _ _ _ _ hst)

theorem AnswerFreeTextQuestion_grows (g : QuizGame) (questionId : Int)
    (answers : List String) (user : User) :
    Grows g (AnswerFreeTextQuestion g questionId answers user).game := by
  have hc := GetQuestionStatsOrCreate_grows g questionId
  have hst := GetQuestionStatsOrCreate_get? g questionId
  have hto := timedOut_grows g questionId
  unfold timedOut at hto
  unfold AnswerFreeTextQuestion
  split
  · exact Grows.grows_refl g
  · split
    · exact Grows.grows_refl g
    · split
      · exact Grows.grows_refl g
      · split
        · exact Grows.grows_refl g
        · split
          · exact Grows.grows_refl g
          · split
            · exact Grows.grows_refl g
            · simp only []
              split
              · exact hto
              · split
                · split
                  · exact hc
                  · exact hc.grows_trans (AnswerFreeTextQuestion_grade_grows _ _ _ _ _ _ hst)
                · exact hc.grows_trans (AnswerFreeTextQuestion_grade_grows _ _ _ _ _ _ hst)

theorem timerCallback_loop_grows (questionId : Int) (as : List Answer) (qs : QuestionStats)
    (msg : Option QuizQuestionStatsMessage) :
    CountsGrow qs.AnswersStats
      (timerCallback.loop questionId as qs msg).questionStats.AnswersStats := by
  induction as generalizing qs msg with
  | nil => exact CountsGrow.counts_refl _
  | cons a rest ih =>
    cases msg with
    | none =>
      cases hget : qs.AnswersStats.get? a.ID with
      | none =>
        simp only [timerCallback.loop, QuestionStats.GetAnswerStatsOrCreate, hget]
        exact CountsGrow.counts_set _ _ _ (fun st hst => by rw [hget] at hst; cases hst)
      | some st0 =>
        simp only [timerCallback.loop, QuestionStats.GetAnswerStatsOrCreate, hget]
        exact CountsGrow.counts_refl _
    | some m =>
      cases hget : qs.AnswersStats.get? a.ID with
      | none =>
        simp only [timerCallback.loop, QuestionStats.GetAnswerStatsOrCreate, hget]
        refine CountsGrow.counts_trans ?_ (ih _ _)
        have h1 : CountsGrow qs.AnswersStats
            (qs.AnswersStats.set a.ID
              { AnswerID := a.ID, Count := 0, Correct := ANSWER_CORRECT_UNKNOWN }) :=
          CountsGrow.counts_set _ _ _ (fun st hst => by rw [hget] at hst; cases hst)
        exact h1.counts_trans (CountsGrow.counts_set _ _ _ (fun st hst => by
          rw [GoMap.get?_set_self] at hst
          cases hst
          exact le_refl _))
      | some st0 =>
        simp only [timerCallback.loop, QuestionStats.GetAnswerStatsOrCreate, hget]
        refine CountsGrow.counts_trans ?_ (ih _ _)
        exact CountsGrow.counts_set _ _ _ (fun st hst => by
          rw [hget] at hst
          cases hst
          exact le_refl _)

theorem storeSharedAnswers_grows (g : QuizGame) (questionId : Int) (stored : QuestionStats)
    (shared : GoMap Int AnswerStat)
    (hstored : g.questionStats.get? questionId = some stored)
    (hgrow : CountsGrow stored.AnswersStats shared) :
    Grows g (storeSharedAnswers g questionId shared) := by
  unfold storeSharedAnswers
  simp only [hstored]
  exact Grows.set_entry questionId stored _ hstored rfl
    ⟨hgrow, fun _ h => h, List.prefix_refl _⟩ (PlayersGrow.players_refl _)

theorem timerCallback_grows (g : QuizGame) (question : Question) :
    Grows g (timerCallback g question).game := by
  have h0 : Grows g (g.setQuestionTimer none) := Grows.grows_of_eq rfl rfl
  have hstep : ∀ (r : Outcome AnswerReturn), Grows g r.game →
      Grows g
        (match r with
        | .panicked quizGame => (.panicked quizGame : Outcome (List Sent))
        | .returned quizGame r =>
          let (quizGame, questionStats) := GetQuestionStatsOrCreate quizGame question.ID
          let looped := timerCallback.loop question.ID question.Answers questionStats r.msg
          let quizGame :=
            storeSharedAnswers quizGame question.ID looped.questionStats.AnswersStats
          if looped.nilDereference then .panicked quizGame
          else
            match looped.message with
            | some m =>
              .returned quizGame
                [{ user :=
                     { Login := "system", UserID := "", SessionID := quizGame.SessionID,
                       InstanceName := "" }
                   message := .questionStats m }]
            | none => .returned quizGame []).game := by
    intro r hr
    cases r with
    | panicked q => exact hr
    | returned q v =>
      have h2 : Grows g
          (storeSharedAnswers (GetQuestionStatsOrCreate q question.ID).1 question.ID
            (timerCallback.loop question.ID question.Answers
              (GetQuestionStatsOrCreate q question.ID).2 v.msg).questionStats.AnswersStats) :=
        (hr.grows_trans (GetQuestionStatsOrCreate_grows q question.ID)).grows_trans
          (storeSharedAnswers_grows _ _ _ _ (GetQuestionStatsOrCreate_get? q question.ID)
            (timerCallback_loop_grows _ _ _ _))
      dsimp only
      split_ifs
      · exact h2
      · split <;> exact h2
  unfold timerCallback
  dsimp only
  split_ifs
  · exact hstep _ (h0.grows_trans (AnswerMCQuestion_grows _ _ _ _))
  · exact hstep _ (h0.grows_trans (AnswerFreeTextQuestion_grows _ _ _ _))
  · exact hstep (.returned (g.setQuestionTimer none) ⟨none, none⟩) h0

theorem timerExpiry_grows (g : QuizGame) : Grows g (timerExpiry g).game := by
  unfold timerExpiry
  split
  · exact Grows.grows_refl g
  · rename_i timer htimer
    split_ifs
    · exact Grows.grows_refl g
    · have h1 : Grows g { g with questionTimer := some { timer with fired := true } } :=
        Grows.grows_of_eq rfl rfl
      exact h1.grows_trans (timerCallback_grows _ _)

theorem NextQuizQuestionMessage_stats (g : QuizGame) :
    (NextQuizQuestionMessage g).game.questionStats = g.questionStats ∧
    (NextQuizQuestionMessage g).game.playerStats = g.playerStats := by
  unfold NextQuizQuestionMessage getNextQuestion
  dsimp only
  cases hq : g.quiz with
  | none => exact ⟨rfl, rfl⟩
  | some quiz =>
    dsimp only
    split_ifs
    · cases hi : index? quiz.Questions (g.currentQuestionIndex + 1) <;>
        simp [hq, Outcome.game, QuizGame.setQuestionTimer]
    · simp [hq, Outcome.game]

theorem Event.apply_grows (g : QuizGame) (e : Event) (h : e.isStart = false) :
    Grows g (e.apply g) := by
  cases e with
  | start quiz user => cases h
  | next =>
    exact Grows.grows_of_eq (NextQuizQuestionMessage_stats g).1 (NextQuizQuestionMessage_stats g).2
  | answerMC q a u => exact AnswerMCQuestion_grows g q a u
  | answerFreeText q a u => exact AnswerFreeTextQuestion_grows g q a u
  | expire => exact timerExpiry_grows g
  | connected n => exact Grows.grows_of_eq rfl rfl

theorem run_grows (g : QuizGame) (events : List Event)
    (h : ∀ e ∈ events, e.isStart = false) : Grows g (run g events) := by
  induction events generalizing g with
  | nil => exact Grows.grows_refl g
  | cons e rest ih =>
    exact (Event.apply_grows g e (h e (List.mem_cons_self _ _))).grows_trans
      (ih (e.apply g) (fun x hx => h x (List.mem_cons_of_mem _ hx)))

/-- What `Grows` says in terms of the observations. -/
theorem Grows.observed {a b : QuizGame} (h : Grows a b) :
    (∀ q, (a.questionStats.get? q).isSome → (b.questionStats.get? q).isSome) ∧
    (∀ q answerId st, answerStat a q answerId = some st →
      ∃ st', answerStat b q answerId = some st' ∧ st.Count ≤ st'.Count) ∧
    (∀ q login, (playerResult a q login).isSome → (playerResult b q login).isSome) ∧
    (∀ q, freeTexts a q <+: freeTexts b q) ∧
    (∀ login p, a.playerStats.get? login = some p →
      ∃ p', b.playerStats.get? login = some p' ∧ p.CountAnswered ≤ p'.CountAnswered ∧
        p.CountCorrect ≤ p'.CountCorrect) := by
  refine ⟨?_, ?_, ?_, ?_, h.2⟩
  · intro q hq
    cases hs : a.questionStats.get? q with
    | none => simp [hs] at hq
    | some s =>
      obtain ⟨s', hb, -⟩ := h.1 q s hs
      simp [hb]
  · intro q answerId st hst
    cases hs : a.questionStats.get? q with
    | none => simp [answerStat, hs] at hst
    | some s =>
      obtain ⟨s', hb, hg, -⟩ := h.1 q s hs
      rw [answerStat_of_get? _ _ _ _ hs] at hst
      rw [answerStat_of_get? _ _ _ _ hb]
      exact hg answerId st hst
  · intro q login hl
    cases hs : a.questionStats.get? q with
    | none => simp [playerResult, hs] at hl
    | some s =>
      obtain ⟨s', hb, -, hg, -⟩ := h.1 q s hs
      rw [playerResult_of_get? _ _ _ _ hs] at hl
      rw [playerResult_of_get? _ _ _ _ hb]
      exact hg login hl
  · intro q
    cases hs : a.questionStats.get? q with
    | none =>
      simp only [freeTexts, hs]
      exact List.nil_prefix
    | some s =>
      obtain ⟨s', hb, -, -, hg⟩ := h.1 q s hs
      rw [freeTexts_of_get? _ _ _ hs, freeTexts_of_get? _ _ _ hb]
      exact hg

/-- C19: along any sequence of `NextQuizQuestionMessage` calls, submissions,
timer expiries and changes of the player count, with no `Start`, nothing is
removed from `questionStats`, from the per-answer statistics, per-player
results or free-text list of a question, or from `playerStats`, and no answer
count, `countAnswered` or `countCorrect` decreases; earlier free-text entries
keep their place. -/
theorem C19_statistics_only_grow (g : QuizGame) (pre post : List Event)
    (hpost : ∀ e ∈ post, e.isStart = false) :
    (∀ q, ((run g pre).questionStats.get? q).isSome →
      ((run g (pre ++ post)).questionStats.get? q).isSome) ∧
    (∀ q answerId st, answerStat (run g pre) q answerId = some st →
      ∃ st', answerStat (run g (pre ++ post)) q answerId = some st' ∧
        st.Count ≤ st'.Count) ∧
    (∀ q login, (playerResult (run g pre) q login).isSome →
      (playerResult (run g (pre ++ post)) q login).isSome) ∧
    (∀ q, freeTexts (run g pre) q <+: freeTexts (run g (pre ++ post)) q) ∧
    (∀ login p, (run g pre).playerStats.get? login = some p →
      ∃ p', (run g (pre ++ post)).playerStats.get? login = some p' ∧
        p.CountAnswered ≤ p'.CountAnswered ∧ p.CountCorrect ≤ p'.CountCorrect) := by
  rw [run_append]
  exact (run_grows (run g pre) post hpost).observed

/-- Witness of C19: the test engine before and after a wrong answer sent twice
and the expiry of the timer. -/
theorem C19_statistics_only_grow_witness :
    (∀ q answerId st,
      answerStat (run newQuizGame [.next, .answerMC 101 [1002] (userNamed "login1")]) q
        answerId = some st →
      ∃ st', answerStat (run newQuizGame
          ([.next, .answerMC 101 [1002] (userNamed "login1")] ++
            [.answerMC 101 [1002] (userNamed "login1"), .expire])) q answerId = some st' ∧
        st.Count ≤ st'.Count) ∧
    answerCount (run newQuizGame [.next, .answerMC 101 [1002] (userNamed "login1")]) 101
      1002 = 1 ∧
    answerCount (run newQuizGame
      ([.next, .answerMC 101 [1002] (userNamed "login1")] ++
        [.answerMC 101 [1002] (userNamed "login1"), .expire])) 101 1002 = 2 :=
  ⟨(C19_statistics_only_grow newQuizGame [.next, .answerMC 101 [1002] (userNamed "login1")]
      [.answerMC 101 [1002] (userNamed "login1"), .expire] (by decide)).2.1,
    by decide, by decide⟩

/-- C20 (as amended): the answer commands do not look at the login.  For an
actor whose login is empty and whose submission passes the checks of the
engine, both `Execute` methods send the snapshot to the actor and return the
result of `MessageSender` (no error when it succeeds), and `playerStats` and
the per-question results gain an entry under the empty login. -/
theorem C20_empty_login_is_graded (g : QuizGame) (question : Question) (questionId : Int)
    (envelope : Envelope) (answers : List Int) (text : String) (rest : List String)
    (user : User) (timer : Timer) (commandServices : CommandServices)
    (hlogin : user.Login = "")
    (hopen : OpenQuestion g question) (hid : question.ID = questionId)
    (htimer : g.questionTimer = some timer)
    (hfresh : ∀ r, playerResult g questionId "" = some r →
      r.Correct = ANSWER_CORRECT_UNKNOWN) :
    (question.QuestionType = QUESTION_TYPE_MCQ →
      (∀ i ∈ answers, i ∈ question.Answers.map (fun a => a.ID)) →
      ∃ g' m,
        QuizLearnerAnswerMessage.Execute
            { Envelope := envelope, QuestionId := questionId, Answers := answers } user g
            commandServices =
          .returned g'
            ⟨[⟨user, .questionStats m⟩],
              (commandServices.MessageSender user (.questionStats m)).map .sending⟩ ∧
        (g'.playerStats.get? "").isSome ∧
        (playerResult g' questionId "").isSome ∧
        countAnswered g' "" = countAnswered g "" + 1) ∧
    (question.QuestionType = QUESTION_TYPE_FREE_TEXT →
      ∃ g' m,
        QuizLearnerAnswerFreeTextMessage.Execute
            { Envelope := envelope, QuestionId := questionId, Answers := text :: rest } user g
            commandServices =
          .returned g'
            ⟨[⟨user, .questionStats m⟩],
              (commandServices.MessageSender user (.questionStats m)).map .sending⟩ ∧
        (g'.playerStats.get? "").isSome ∧
        (playerResult g' questionId "").isSome ∧
        countAnswered g' "" = countAnswered g "" + 1) := by
  have hfresh' : ∀ r, playerResult g questionId user.Login = some r →
      r.Correct = ANSWER_CORRECT_UNKNOWN := by rw [hlogin]; exact hfresh
  constructor
  · intro hty hvalid
    obtain ⟨g', m, hret, hqs, hps, -⟩ :=
      AnswerMCQuestion_graded g question questionId answers user timer hopen hid hty htimer
        hfresh' hvalid
    refine ⟨g', m, ?_, ?_, ?_, ?_⟩
    · unfold QuizLearnerAnswerMessage.Execute
      rw [hret]
      simp only [executeAnswer]
      cases hsend : commandServices.MessageSender user (.questionStats m) <;> rfl
    · rw [hps, hlogin]; simp
    · rw [playerResult_of_get? _ _ _ _ hqs]
      simp [mcStatsAfter, mcResultsAfter, hlogin]
    · simp only [countAnswered, hps, hlogin, GoMap.get?_set_self, playerStatAfter]
  · intro hty
    obtain ⟨g', m, hret, hqs, hps, -⟩ :=
      AnswerFreeTextQuestion_graded g question questionId text rest user timer hopen hid hty
        htimer hfresh'
    refine ⟨g', m, ?_, ?_, ?_, ?_⟩
    · unfold QuizLearnerAnswerFreeTextMessage.Execute
      rw [hret]
      simp only [executeAnswer]
      cases hsend : commandServices.MessageSender user (.questionStats m) <;> rfl
    · rw [hps, hlogin]; simp
    · rw [playerResult_of_get? _ _ _ _ hqs]
      simp [ftStatsAfter, ftResultsAfter, hlogin]
    · simp only [countAnswered, hps, hlogin, GoMap.get?_set_self, playerStatAfter]

/-- Witness of C20: an actor who never joined answers question 101. -/
theorem C20_empty_login_is_graded_witness :
    ∃ g' m,
      QuizLearnerAnswerMessage.Execute
          { Envelope := quizEnvelope QUIZ_MESSAGE_ACTION_LEARNER_ANSWER, QuestionId := 101,
            Answers := [1001] } (userNamed "") firstQuestionOpen okServices =
        .returned g' ⟨[⟨userNamed "", .questionStats m⟩], none⟩ ∧
      (g'.playerStats.get? "").isSome ∧
      (playerResult g' 101 "").isSome ∧
      countAnswered g' "" = countAnswered firstQuestionOpen "" + 1 :=
  (C20_empty_login_is_graded firstQuestionOpen question101 101
    (quizEnvelope QUIZ_MESSAGE_ACTION_LEARNER_ANSWER) [1001] "" [] (userNamed "")
    { question := question101, duration := 1800000000000, stopped := false } okServices
    rfl ⟨validQuiz, by decide, by decide⟩ (by decide) (by decide)
    (fun r h => by
      rw [show playerResult firstQuestionOpen 101 "" = none from by decide] at h
      cases h)).1 (by decide) (by decide)

/-- C20 (counterexample): an actor with the empty login answers the open
questions 101 and 301; both `Execute` methods return no error, send the
snapshot, and the engine records the empty login in `playerStats` and in the
per-question results. -/
theorem C20_counterexample :
    (userNamed "").Login = "" ∧
    ((QuizLearnerAnswerMessage.Execute
        { Envelope := quizEnvelope QUIZ_MESSAGE_ACTION_LEARNER_ANSWER, QuestionId := 101,
          Answers := [1001] } (userNamed "") firstQuestionOpen okServices).value?.map
      (fun r => (r.err, r.sent.length)) = some (none, 1)) ∧
    firstQuestionOpen.playerStats.get? "" = none ∧
    ((QuizLearnerAnswerMessage.Execute
        { Envelope := quizEnvelope QUIZ_MESSAGE_ACTION_LEARNER_ANSWER, QuestionId := 101,
          Answers := [1001] } (userNamed "") firstQuestionOpen okServices).game.playerStats.get?
      "") = some { PlayerLogin := "", CountAnswered := 1, CountCorrect := 1 } ∧
    (playerResult (QuizLearnerAnswerMessage.Execute
        { Envelope := quizEnvelope QUIZ_MESSAGE_ACTION_LEARNER_ANSWER, QuestionId := 101,
          Answers := [1001] } (userNamed "") firstQuestionOpen okServices).game 101 "") =
      some { PlayerLogin := "", Correct := ANSWER_CORRECT_CORRECT } ∧
    ((QuizLearnerAnswerFreeTextMessage.Execute
        { Envelope := quizEnvelope QUIZ_MESSAGE_ACTION_LEARNER_ANSWER_FREE_TEXT,
          QuestionId := 301, Answers := ["because"] } (userNamed "") freeTextOpen
        okServices).value?.map (fun r => (r.err, r.sent.length)) = some (none, 1)) ∧
    ((QuizLearnerAnswerFreeTextMessage.Execute
        { Envelope := quizEnvelope QUIZ_MESSAGE_ACTION_LEARNER_ANSWER_FREE_TEXT,
          QuestionId := 301, Answers := ["because"] } (userNamed "") freeTextOpen
        okServices).game.playerStats.get? "") =
      some { PlayerLogin := "", CountAnswered := 1, CountCorrect := 0 } := by
  decide

/-- C12: whatever the prior state, after `Start` the engine holds the given
quiz, `currentQuestionIndex` is -1, `questionStats` and `playerStats` are
empty, `StartedBy` is the starter's login, and the timer the engine references
has been stopped; no timer at all is pending when none of the retired timers
was, which is the case in every state of an engine built by the hub. -/
theorem C12_start_resets_the_engine (g : QuizGame) (quiz : Quiz) (user : User) :
    (Start g quiz user).quiz = some quiz ∧
    (Start g quiz user).currentQuestionIndex = -1 ∧
    (Start g quiz user).questionStats = GoMap.empty ∧
    (Start g quiz user).questionStats.len = 0 ∧
    (Start g quiz user).playerStats = GoMap.empty ∧
    (Start g quiz user).playerStats.len = 0 ∧
    (Start g quiz user).StartedBy = user.Login ∧
    (∀ t, (Start g quiz user).questionTimer = some t → t.stopped = true) ∧
    ((∀ t ∈ g.retiredTimers, t.pending = false) → pendingTimers (Start g quiz user) = []) ∧
    (∀ (sessionID : String) (players : Int) (events : List Event),
      pendingTimers (Start (run (NewQuizGame sessionID players) events) quiz user) = []) := by
  have hfield : ∀ h : QuizGame, ∀ t, (Start h quiz user).questionTimer = some t →
      t.stopped = true := by
    intro h t ht
    cases hg : h.questionTimer with
    | none => simp [Start, hg] at ht
    | some t0 =>
      simp only [Start, hg, Option.map_some', Option.some.injEq] at ht
      rw [← ht]
      rfl
  have hnone : ∀ h : QuizGame, (∀ t ∈ h.retiredTimers, t.pending = false) →
      pendingTimers (Start h quiz user) = [] := by
    intro h hret
    unfold pendingTimers
    rw [List.filter_eq_nil_iff]
    intro t ht
    rcases List.mem_append.1 ht with h1 | h1
    · simpa using hret t h1
    · cases hg : (Start h quiz user).questionTimer with
      | none => simp [hg] at h1
      | some t0 =>
        simp only [hg, Option.toList_some, List.mem_singleton] at h1
        rw [h1]
        simp [Timer.pending, hfield h t0 hg]
  refine ⟨rfl, rfl, rfl, rfl, rfl, rfl, rfl, hfield g, hnone g, ?_⟩
  intro sessionID players events
  apply hnone
  intro t ht
  rcases run_retires (NewQuizGame sessionID players) events t ht with h | h
  · cases h
  · exact h

/-- Witness of C12: restarting the test engine while the timer of question 101 is armed. -/
theorem C12_start_resets_the_engine_witness :
    pendingTimers firstQuestionOpen ≠ [] ∧
    pendingTimers (Start firstQuestionOpen validQuiz (userNamed "login2")) = [] :=
  ⟨by decide,
    (C12_start_resets_the_engine firstQuestionOpen validQuiz
      (userNamed "login2")).2.2.2.2.2.2.2.2.1 (by decide)⟩

/-! ## Lemmas on the session commands -/

theorem nextQuestion_of_returned (user : User) (session : Session)
    (commandServices : CommandServices) (game : QuizGame) (quizMsg : OutMessage)
    (h : NextQuizQuestionMessage session.QuizGame = .returned game quizMsg) :
    nextQuestion user session commandServices =
      .returned game
        { user := user, sent := [⟨user, quizMsg.payload⟩], joined := []
          err := (commandServices.MessageSender user quizMsg.payload).map .unwrapped } := by
  simp only [nextQuestion, h]

theorem nextQuestion_game (user : User) (session : Session)
    (commandServices : CommandServices) :
    (nextQuestion user session commandServices).game =
      (NextQuizQuestionMessage session.QuizGame).game := by
  unfold nextQuestion
  cases NextQuizQuestionMessage session.QuizGame <;> rfl

/-! ## Claims on the command layer -/

/-- C21: `createCommand` returns a command exactly for the types 0, 1, 2 and
for type 4 with an action among 0, 1, 2, 3, 4, 5, 7, and an error exactly
otherwise.  It selects the join command for type 0, leave for type 1 and chat
for type 2 whatever the action, and for type 4 the quiz start for action 0,
the question-started variant for 1, the multiple-choice answer for 2, the
question statistics for 3, the question end for 4, the next question for 5 and
the free-text answer for 7.  Type 3 and the pair (4, 6) give an error and no
command. -/
theorem C21_createCommand_selects_by_type_and_action (envelope : Envelope) :
    ((createCommand envelope).command.isSome ↔
      (envelope.MsgType = 0 ∨ envelope.MsgType = 1 ∨ envelope.MsgType = 2 ∨
        (envelope.MsgType = 4 ∧ envelope.Action ∈ [0, 1, 2, 3, 4, 5, 7]))) ∧
    ((createCommand envelope).err.isSome ↔ (createCommand envelope).command = none) ∧
    (envelope.MsgType = 0 →
      (createCommand envelope).command.map Command.variant = some "UserConnectMessage") ∧
    (envelope.MsgType = 1 →
      (createCommand envelope).command.map Command.variant = some "UserDisconnectMessage") ∧
    (envelope.MsgType = 2 →
      (createCommand envelope).command.map Command.variant = some "Message") ∧
    (envelope.MsgType = 4 →
      (envelope.Action = 0 →
        (createCommand envelope).command.map Command.variant = some "QuizStartMessage") ∧
      (envelope.Action = 1 →
        (createCommand envelope).command.map Command.variant = some "QuizQuestionMessage") ∧
      (envelope.Action = 2 →
        (createCommand envelope).command.map Command.variant =
          some "QuizLearnerAnswerMessage") ∧
      (envelope.Action = 3 →
        (createCommand envelope).command.map Command.variant =
          some "QuizQuestionStatsMessage") ∧
      (envelope.Action = 4 →
        (createCommand envelope).command.map Command.variant =
          some "QuizQuestionEndMessage") ∧
      (envelope.Action = 5 →
        (createCommand envelope).command.map Command.variant =
          some "QuizNextQuestionMessage") ∧
      (envelope.Action = 7 →
        (createCommand envelope).command.map Command.variant =
          some "QuizLearnerAnswerFreeTextMessage") ∧
      (envelope.Action = 6 →
        createCommand envelope = ⟨none, some (.unknownAction 6)⟩)) ∧
    (envelope.MsgType = 3 → createCommand envelope = ⟨none, some (.unknownType 3)⟩) := by
  obtain ⟨msgType, action, timestamp, clientId⟩ := envelope
  by_cases h2 : msgType = 2
  · subst h2
    simp [createCommand, MESSAGE_TYPE_MESSAGE, Command.variant]
  by_cases h0 : msgType = 0
  · subst h0
    simp [createCommand, MESSAGE_TYPE_MESSAGE, MESSAGE_TYPE_USER_CONNECTED, Command.variant]
  by_cases h1 : msgType = 1
  · subst h1
    simp [createCommand, MESSAGE_TYPE_MESSAGE, MESSAGE_TYPE_USER_CONNECTED,
      MESSAGE_TYPE_USER_DISCONNECTED, Command.variant]
  by_cases h4 : msgType = 4
  · subst h4
    by_cases a0 : action = 0
    · subst a0
      simp [createCommand, MESSAGE_TYPE_MESSAGE, MESSAGE_TYPE_USER_CONNECTED,
        MESSAGE_TYPE_USER_DISCONNECTED, MESSAGE_TYPE_QUIZ_MESSAGE, QUIZ_MESSAGE_ACTION_START,
        Command.variant]
    by_cases a1 : action = 1
    · subst a1
      simp [createCommand, MESSAGE_TYPE_MESSAGE, MESSAGE_TYPE_USER_CONNECTED,
        MESSAGE_TYPE_USER_DISCONNECTED, MESSAGE_TYPE_QUIZ_MESSAGE, QUIZ_MESSAGE_ACTION_START,
        QUIZ_MESSAGE_ACTION_QUESTION_START, Command.variant]
    by_cases a2 : action = 2
    · subst a2
      simp [createCommand, MESSAGE_TYPE_MESSAGE, MESSAGE_TYPE_USER_CONNECTED,
        MESSAGE_TYPE_USER_DISCONNECTED, MESSAGE_TYPE_QUIZ_MESSAGE, QUIZ_MESSAGE_ACTION_START,
        QUIZ_MESSAGE_ACTION_QUESTION_START, QUIZ_MESSAGE_ACTION_LEARNER_ANSWER, Command.variant]
    by_cases a7 : action = 7
    · subst a7
      simp [createCommand, MESSAGE_TYPE_MESSAGE, MESSAGE_TYPE_USER_CONNECTED,
        MESSAGE_TYPE_USER_DISCONNECTED, MESSAGE_TYPE_QUIZ_MESSAGE, QUIZ_MESSAGE_ACTION_START,
        QUIZ_MESSAGE_ACTION_QUESTION_START, QUIZ_MESSAGE_ACTION_LEARNER_ANSWER,
        QUIZ_MESSAGE_ACTION_LEARNER_ANSWER_FREE_TEXT, Command.variant]
    by_cases a3 : action = 3
    · subst a3
      simp [createCommand, MESSAGE_TYPE_MESSAGE, MESSAGE_TYPE_USER_CONNECTED,
        MESSAGE_TYPE_USER_DISCONNECTED, MESSAGE_TYPE_QUIZ_MESSAGE, QUIZ_MESSAGE_ACTION_START,
        QUIZ_MESSAGE_ACTION_QUESTION_START, QUIZ_MESSAGE_ACTION_LEARNER_ANSWER,
        QUIZ_MESSAGE_ACTION_LEARNER_ANSWER_FREE_TEXT, QUIZ_MESSAGE_ACTION_QUESTION_STATS,
        Command.variant]
    by_cases a4 : action = 4
    · subst a4
      simp [createCommand, MESSAGE_TYPE_MESSAGE, MESSAGE_TYPE_USER_CONNECTED,
        MESSAGE_TYPE_USER_DISCONNECTED, MESSAGE_TYPE_QUIZ_MESSAGE, QUIZ_MESSAGE_ACTION_START,
        QUIZ_MESSAGE_ACTION_QUESTION_START, QUIZ_MESSAGE_ACTION_LEARNER_ANSWER,
        QUIZ_MESSAGE_ACTION_LEARNER_ANSWER_FREE_TEXT, QUIZ_MESSAGE_ACTION_QUESTION_STATS,
        QUIZ_MESSAGE_ACTION_QUESTION_END, Command.variant]
    by_cases a5 : action = 5
    · subst a5
      simp [createCommand, MESSAGE_TYPE_MESSAGE, MESSAGE_TYPE_USER_CONNECTED,
        MESSAGE_TYPE_USER_DISCONNECTED, MESSAGE_TYPE_QUIZ_MESSAGE, QUIZ_MESSAGE_ACTION_START,
        QUIZ_MESSAGE_ACTION_QUESTION_START, QUIZ_MESSAGE_ACTION_LEARNER_ANSWER,
        QUIZ_MESSAGE_ACTION_LEARNER_ANSWER_FREE_TEXT, QUIZ_MESSAGE_ACTION_QUESTION_STATS,
        QUIZ_MESSAGE_ACTION_QUESTION_END, QUIZ_MESSAGE_ACTION_NEXT_QUESTION, Command.variant]
    · simp [createCommand, MESSAGE_TYPE_MESSAGE, MESSAGE_TYPE_USER_CONNECTED,
        MESSAGE_TYPE_USER_DISCONNECTED, MESSAGE_TYPE_QUIZ_MESSAGE, QUIZ_MESSAGE_ACTION_START,
        QUIZ_MESSAGE_ACTION_QUESTION_START, QUIZ_MESSAGE_ACTION_LEARNER_ANSWER,
        QUIZ_MESSAGE_ACTION_LEARNER_ANSWER_FREE_TEXT, QUIZ_MESSAGE_ACTION_QUESTION_STATS,
        QUIZ_MESSAGE_ACTION_QUESTION_END, QUIZ_MESSAGE_ACTION_NEXT_QUESTION, a0, a1, a2, a3,
        a4, a5, a7]
  · simp [createCommand, MESSAGE_TYPE_MESSAGE, MESSAGE_TYPE_USER_CONNECTED,
      MESSAGE_TYPE_USER_DISCONNECTED, MESSAGE_TYPE_QUIZ_MESSAGE, h0, h1, h2, h4]

/-- Witness of C21: the envelope of a free-text answer. -/
theorem C21_createCommand_selects_by_type_and_action_witness :
    (createCommand ⟨4, 7, 0, ""⟩).command.map Command.variant =
      some "QuizLearnerAnswerFreeTextMessage" :=
  (C21_createCommand_selects_by_type_and_action ⟨4, 7, 0, ""⟩).2.2.2.2.2.1 rfl
    |>.2.2.2.2.2.2.1 rfl

/-- C22: an inbound message carrying the type and action of an engine output
(Question-Started (4, 1), statistics update (4, 3), question ended (4, 4),
Quiz-Summary (4, 6)) is rejected.  Either `createCommand` returns an error and
no command, which is the case of action 6 only, or every command of the
selected variant, whatever its decoded fields, has an `Execute` that returns an
error with the engine as it was, the actor as it was, no call of
`MessageSender` and no session notification. -/
theorem C22_engine_outputs_are_rejected_inbound (envelope : Envelope) (user : User)
    (session : Session) (commandServices : CommandServices)
    (htype : envelope.MsgType = 4) (haction : envelope.Action ∈ [1, 3, 4, 6]) :
    (envelope.Action = 6 ∧ (createCommand envelope).command = none ∧
      (createCommand envelope).err = some (.unknownAction 6)) ∨
    (envelope.Action ≠ 6 ∧
      ∃ selected, createCommand envelope = ⟨some selected, none⟩ ∧
        ∀ command : Command, command.variant = selected.variant →
          ∃ err, command.Execute user session commandServices =
            .returned session.QuizGame
              { user := user, sent := [], joined := [], err := some err }) := by
  obtain ⟨msgType, action, timestamp, clientId⟩ := envelope
  simp only at htype haction
  subst htype
  simp only [List.mem_cons, List.mem_singleton, List.not_mem_nil, or_false] at haction
  rcases haction with h | h | h | h <;> subst h
  · refine Or.inr ⟨by simp, _, rfl, ?_⟩
    intro command hvariant
    cases command <;> first
      | exact ⟨_, rfl⟩
      | simp [Command.variant] at hvariant
  · refine Or.inr ⟨by simp, _, rfl, ?_⟩
    intro command hvariant
    cases command <;> first
      | exact ⟨_, rfl⟩
      | simp [Command.variant] at hvariant
  · refine Or.inr ⟨by simp, _, rfl, ?_⟩
    intro command hvariant
    cases command <;> first
      | exact ⟨_, rfl⟩
      | simp [Command.variant] at hvariant
  · exact Or.inl ⟨rfl, rfl, rfl⟩

/-- Witness of C22: a Question-Started message sent by a client to a session
whose first question is open. -/
theorem C22_engine_outputs_are_rejected_inbound_witness :
    ∃ selected, createCommand ⟨4, 1, 0, "browser"⟩ = ⟨some selected, none⟩ ∧
      ∀ command : Command, command.variant = selected.variant →
        ∃ err, command.Execute (userNamed "alice") ⟨"room", firstQuestionOpen⟩ okServices =
          .returned firstQuestionOpen
            { user := userNamed "alice", sent := [], joined := [], err := some err } :=
  match C22_engine_outputs_are_rejected_inbound ⟨4, 1, 0, "browser"⟩ (userNamed "alice")
      ⟨"room", firstQuestionOpen⟩ okServices rfl (by decide) with
  | .inl h => absurd h.1 (by decide)
  | .inr h => h.2

/-- A call of `NextQuizQuestionMessage` writes neither the quiz, nor the
starter, nor the session id. -/
theorem NextQuizQuestionMessage_frame (g : QuizGame) :
    (NextQuizQuestionMessage g).game.quiz = g.quiz ∧
    (NextQuizQuestionMessage g).game.StartedBy = g.StartedBy ∧
    (NextQuizQuestionMessage g).game.SessionID = g.SessionID := by
  unfold NextQuizQuestionMessage getNextQuestion
  dsimp only
  cases hq : g.quiz with
  | none => exact ⟨rfl, rfl, rfl⟩
  | some quiz =>
    dsimp only
    split_ifs
    · cases hi : index? quiz.Questions (g.currentQuestionIndex + 1) <;>
        simp [hq, Outcome.game, QuizGame.setQuestionTimer]
    · simp [hq, Outcome.game]

/-- C23: `QuizStartMessage.Execute`.  When `GetQuiz` fails the call returns the
error naming the quiz id, sends nothing and leaves the engine as it was.  When
`GetQuiz` returns a quiz with at least one question, then from every prior
engine state the engine afterwards holds that quiz, its question statistics
and player statistics are empty, its index is 0, and `MessageSender` has been
called exactly once, for the actor, with the Question-Started message (4, 1)
of the first question; the call returns what `MessageSender` returned. -/
theorem C23_quiz_start_serves_first_question (msg : QuizStartMessage) (user : User)
    (session : Session) (commandServices : CommandServices) :
    (commandServices.GetQuiz msg.QuizId = none →
      msg.Execute user session commandServices =
        .returned session.QuizGame
          { user := user, sent := [], joined := [], err := some (.gettingQuiz msg.QuizId) }) ∧
    (∀ quiz first rest, commandServices.GetQuiz msg.QuizId = some quiz →
      quiz.Questions = first :: rest →
      ∃ game m,
        msg.Execute user session commandServices =
          .returned game
            { user := user, sent := [⟨user, .quizQuestion m⟩], joined := []
              err := (commandServices.MessageSender user (.quizQuestion m)).map .unwrapped } ∧
        game.quiz = some quiz ∧ game.questionStats = GoMap.empty ∧
        game.playerStats = GoMap.empty ∧ game.currentQuestionIndex = 0 ∧
        game.StartedBy = user.Login ∧
        m.Envelope.MsgType = 4 ∧ m.Envelope.Action = 1 ∧
        m.Question = { first with Answers := redactAnswers first.Answers } ∧
        m.QuestionNumber = 1 ∧ m.QuestionCount = (quiz.Questions.length : Int) ∧
        m.QuizInfo.ID = quiz.ID ∧ m.QuizInfo.StartedBy = user.Login ∧
        game.questionTimer =
          some { question := first, duration := 30000000000, stopped := false }) := by
  refine ⟨?_, ?_⟩
  · intro hget
    simp only [QuizStartMessage.Execute, hget]
  · intro quiz first rest hget hquestions
    have hq : index? quiz.Questions
        ((startQuiz session commandServices quiz user).QuizGame.currentQuestionIndex + 1) =
        some first := by
      rw [hquestions]
      simp [startQuiz, Start, index?]
    have hnext := NextQuizQuestionMessage_question
      (startQuiz session commandServices quiz user).QuizGame quiz first rfl hq
    have hrun : msg.Execute user session commandServices =
        nextQuestion user (startQuiz session commandServices quiz user) commandServices := by
      simp only [QuizStartMessage.Execute, hget]
    refine ⟨_, _, hrun.trans (nextQuestion_of_returned user _ commandServices _ _ hnext),
      rfl, rfl, rfl, ?_, rfl, rfl, rfl, rfl, ?_, rfl, rfl, rfl, ?_⟩
    · simp [startQuiz, Start]
    · simp [startQuiz, Start]
    · simp [startQuiz, Start, DEFAULT_TIMEOUT_SECONDS, Second]

/-- Witness of C23: quiz 1 started on the session the hub has just built. -/
theorem C23_quiz_start_serves_first_question_witness :
    ∃ game m,
      QuizStartMessage.Execute ⟨1, quizEnvelope 0⟩ (userNamed "teacher") roomSession
          catalogServices =
        .returned game
          { user := userNamed "teacher", sent := [⟨userNamed "teacher", .quizQuestion m⟩]
            joined := [], err := none } ∧
      game.quiz = some validQuiz ∧ game.currentQuestionIndex = 0 ∧ m.Question.ID = 101 ∧
      m.QuestionNumber = 1 :=
  match (C23_quiz_start_serves_first_question ⟨1, quizEnvelope 0⟩ (userNamed "teacher")
      roomSession catalogServices).2 validQuiz question101 [question102] rfl rfl with
  | ⟨game, m, hret, hquiz, _, _, hindex, _, _, _, hquestion, hnumber, _⟩ =>
    ⟨game, m, hret, hquiz, hindex, by rw [hquestion]; rfl, hnumber⟩

/-- C24: `QuizNextQuestionMessage.Execute`.  When `GetQuiz` returns a quiz the
call equals the reference behaviour.  On an engine with no quiz loaded it
gives the same engine state, sent message and result as
`QuizStartMessage.Execute` with the same quiz id.  On an engine with a quiz
loaded it is one call of `NextQuizQuestionMessage`, and the question
statistics, the player statistics and `StartedBy` are those of before.  When
`GetQuiz` fails it returns the error and changes nothing. -/
theorem C24_next_question_is_start_or_advance (msg : QuizNextQuestionMessage) (user : User)
    (session : Session) (commandServices : CommandServices) :
    (∀ quiz, commandServices.GetQuiz msg.QuizId = some quiz →
      msg.Execute user session commandServices =
        referenceNextQuestion quiz user session commandServices) ∧
    (∀ quiz, commandServices.GetQuiz msg.QuizId = some quiz → session.QuizGame.quiz = none →
      msg.Execute user session commandServices =
        QuizStartMessage.Execute ⟨msg.QuizId, msg.Envelope⟩ user session commandServices) ∧
    (∀ quiz loaded, commandServices.GetQuiz msg.QuizId = some quiz →
      session.QuizGame.quiz = some loaded →
      msg.Execute user session commandServices = nextQuestion user session commandServices ∧
      (msg.Execute user session commandServices).game =
        (NextQuizQuestionMessage session.QuizGame).game ∧
      (msg.Execute user session commandServices).game.quiz = some loaded ∧
      (msg.Execute user session commandServices).game.questionStats =
        session.QuizGame.questionStats ∧
      (msg.Execute user session commandServices).game.playerStats =
        session.QuizGame.playerStats ∧
      (msg.Execute user session commandServices).game.StartedBy =
        session.QuizGame.StartedBy) ∧
    (commandServices.GetQuiz msg.QuizId = none →
      msg.Execute user session commandServices =
        .returned session.QuizGame
          { user := user, sent := [], joined := [], err := some (.gettingQuiz msg.QuizId) }) := by
  refine ⟨?_, ?_, ?_, ?_⟩
  · intro quiz hget
    cases hloaded : session.QuizGame.quiz <;>
      simp [QuizNextQuestionMessage.Execute, referenceNextQuestion, hget, hloaded]
  · intro quiz hget hnone
    simp [QuizNextQuestionMessage.Execute, QuizStartMessage.Execute, hget, hnone]
  · intro quiz loaded hget hloaded
    have hexec : msg.Execute user session commandServices =
        nextQuestion user session commandServices := by
      simp [QuizNextQuestionMessage.Execute, hget, hloaded]
    rw [hexec, nextQuestion_game]
    exact ⟨rfl, rfl, (NextQuizQuestionMessage_frame _).1.trans hloaded,
      (NextQuizQuestionMessage_stats _).1, (NextQuizQuestionMessage_stats _).2,
      (NextQuizQuestionMessage_frame _).2.1⟩
  · intro hget
    simp only [QuizNextQuestionMessage.Execute, hget]

/-- Witness of C24: on the session the hub has just built the command is the
quiz start; on a session whose first question is open it advances and keeps
the starter. -/
theorem C24_next_question_is_start_or_advance_witness :
    QuizNextQuestionMessage.Execute ⟨1, quizEnvelope 5⟩ (userNamed "teacher") roomSession
        catalogServices =
      QuizStartMessage.Execute ⟨1, quizEnvelope 5⟩ (userNamed "teacher") roomSession
        catalogServices ∧
    (QuizNextQuestionMessage.Execute ⟨1, quizEnvelope 5⟩ (userNamed "teacher")
        ⟨"room", firstQuestionOpen⟩ catalogServices).game.StartedBy =
      firstQuestionOpen.StartedBy :=
  ⟨(C24_next_question_is_start_or_advance ⟨1, quizEnvelope 5⟩ (userNamed "teacher")
      roomSession catalogServices).2.1 validQuiz rfl rfl,
    ((C24_next_question_is_start_or_advance ⟨1, quizEnvelope 5⟩ (userNamed "teacher")
      ⟨"room", firstQuestionOpen⟩ catalogServices).2.2.1 validQuiz validQuiz rfl
        (by decide)).2.2.2.2.2⟩

/-- C25: the two answer commands.  When the engine returns an error, `Execute`
returns an error wrapping it and `MessageSender` is not called.  When the
engine returns a snapshot, `MessageSender` is called exactly once, with the
submitting actor and that snapshot, and `Execute` returns an error exactly
when that call does. -/
theorem C25_answer_commands_send_the_snapshot_once (mc : QuizLearnerAnswerMessage)
    (freeText : QuizLearnerAnswerFreeTextMessage) (user : User) (quizGame : QuizGame)
    (commandServices : CommandServices) :
    (∀ game r e, AnswerMCQuestion quizGame mc.QuestionId mc.Answers user = .returned game r →
      r.err = some e →
      mc.Execute user quizGame commandServices = .returned game ⟨[], some (.processing e)⟩) ∧
    (∀ game r m, AnswerMCQuestion quizGame mc.QuestionId mc.Answers user = .returned game r →
      r.err = none → r.msg = some m →
      mc.Execute user quizGame commandServices =
        .returned game
          ⟨[⟨user, .questionStats m⟩],
            (commandServices.MessageSender user (.questionStats m)).map .sending⟩) ∧
    (∀ game r e,
      AnswerFreeTextQuestion quizGame freeText.QuestionId freeText.Answers user =
        .returned game r →
      r.err = some e →
      freeText.Execute user quizGame commandServices =
        .returned game ⟨[], some (.processing e)⟩) ∧
    (∀ game r m,
      AnswerFreeTextQuestion quizGame freeText.QuestionId freeText.Answers user =
        .returned game r →
      r.err = none → r.msg = some m →
      freeText.Execute user quizGame commandServices =
        .returned game
          ⟨[⟨user, .questionStats m⟩],
            (commandServices.MessageSender user (.questionStats m)).map .sending⟩) := by
  refine ⟨?_, ?_, ?_, ?_⟩
  · intro game r e hret herr
    simp only [QuizLearnerAnswerMessage.Execute, hret, executeAnswer, herr]
  · intro game r m hret herr hmsg
    simp only [QuizLearnerAnswerMessage.Execute, hret, executeAnswer, herr, hmsg]
    cases commandServices.MessageSender user (.questionStats m) <;> rfl
  · intro game r e hret herr
    simp only [QuizLearnerAnswerFreeTextMessage.Execute, hret, executeAnswer, herr]
  · intro game r m hret herr hmsg
    simp only [QuizLearnerAnswerFreeTextMessage.Execute, hret, executeAnswer, herr, hmsg]
    cases commandServices.MessageSender user (.questionStats m) <;> rfl

/-- Witness of C25: an answer sent to an engine that has no quiz. -/
theorem C25_answer_commands_send_the_snapshot_once_witness :
    QuizLearnerAnswerMessage.Execute ⟨quizEnvelope 2, 101, [1001]⟩ (userNamed "alice")
        (NewQuizGame "room" 1) okServices =
      .returned (NewQuizGame "room" 1) ⟨[], some (.processing .quizNotStarted)⟩ :=
  (C25_answer_commands_send_the_snapshot_once ⟨quizEnvelope 2, 101, [1001]⟩
    ⟨quizEnvelope 7, 101, ["go"]⟩ (userNamed "alice") (NewQuizGame "room" 1) okServices).1
    (NewQuizGame "room" 1) ⟨none, some .quizNotStarted⟩ .quizNotStarted (by decide) rfl

/-- C26: `Message.Execute` calls `MessageSender` exactly once, for the actor,
with the chat message whose sender is the learner (recipient type 1) named by
the actor's login, whatever sender the client supplied, and whose text,
addressees and envelope are those of the inbound message.  It returns what
`MessageSender` returned, and the engine and the actor are as before. -/
theorem C26_chat_sender_is_the_actor (msg : Message) (user : User) (session : Session)
    (commandServices : CommandServices) :
    msg.Execute user session commandServices =
      .returned session.QuizGame
        { user := user
          sent :=
            [⟨user, .chat
              { From := { RecipientType := 1, Id := user.Login }, To := msg.To, Msg := msg.Msg
                Envelope := msg.Envelope }⟩]
          joined := []
          err :=
            (commandServices.MessageSender user
              (.chat
                { From := { RecipientType := 1, Id := user.Login }, To := msg.To
                  Msg := msg.Msg, Envelope := msg.Envelope })).map .unwrapped } :=
  rfl

/-- C27: `UserConnectMessage.Execute` sets the login of the actor to
`msg.From.Id` and leaves its user id, session id and instance name as they
were; the engine is as before and `MessageSender` is not called.  The session
notification is invoked exactly once, for the session handed to the command,
and the call returns what the notification returned. -/
theorem C27_join_sets_the_login_and_notifies (msg : UserConnectMessage) (user : User)
    (session : Session) (commandServices : CommandServices) :
    msg.Execute user session commandServices =
      .returned session.QuizGame
        { user :=
            { Login := msg.From.Id, UserID := user.UserID, SessionID := user.SessionID
              InstanceName := user.InstanceName }
          sent := []
          joined := [session]
          err :=
            (commandServices.SendUserConnectMessageForAllUsersInSession session).map
              .unwrapped } :=
  rfl

/-! ## Lemmas on the hub -/

namespace GoMap

variable {K V : Type} [DecidableEq K]

theorem lookup_deleteEntries_self (k : K) (l : List (K × V)) :
    lookupEntries k (deleteEntries k l) = none := by
  induction l with
  | nil => rfl
  | cons e rest ih =>
    by_cases h : e.1 = k
    · simpa [deleteEntries, List.filter_cons, h] using ih
    · simpa [deleteEntries, List.filter_cons, h, lookupEntries] using ih

theorem lookup_deleteEntries_ne (k k' : K) (l : List (K × V)) (hne : k' ≠ k) :
    lookupEntries k' (deleteEntries k l) = lookupEntries k' l := by
  induction l with
  | nil => rfl
  | cons e rest ih =>
    by_cases h : e.1 = k
    · have h2 : ¬ e.1 = k' := fun c => hne (c.symm.trans h)
      have h3 : ¬ k = k' := fun c => hne c.symm
      simpa [deleteEntries, List.filter_cons, h, lookupEntries, h2, h3] using ih
    · by_cases h2 : e.1 = k'
      · subst h2
        simp [deleteEntries, List.filter_cons, h, lookupEntries]
      · simpa [deleteEntries, List.filter_cons, h, lookupEntries, h2] using ih

@[simp] theorem get?_delete_self (m : GoMap K V) (k : K) : (m.delete k).get? k = none :=
  lookup_deleteEntries_self k m.entries

theorem get?_delete_ne (m : GoMap K V) (k k' : K) (hne : k' ≠ k) :
    (m.delete k).get? k' = m.get? k' :=
  lookup_deleteEntries_ne k k' m.entries hne

end GoMap

theorem removeFirst?_eq (client : Client) (clients : List Client) :
    removeFirst? client clients =
      if client ∈ clients then some (clients.erase client) else none := by
  induction clients with
  | nil => rfl
  | cons c rest ih =>
    by_cases h : c = client
    · subst h
      simp [removeFirst?]
    · have h' : ¬ client = c := fun e => h e.symm
      simp only [removeFirst?, h, if_false, ih, List.mem_cons, h', false_or]
      split <;> simp [List.erase_cons, h]

theorem Hub.connections_register (h : Hub) (client : Client) (s : String) :
    (h.register client).connections s =
      if s = client.SessionID then h.connections s ++ [client] else h.connections s := by
  by_cases hs : s = client.SessionID
  · subst hs
    simp [Hub.register, Hub.connections]
  · simp [Hub.register, Hub.connections, hs, GoMap.get?_set_ne _ _ _ _ hs]

theorem Hub.queue_register (h : Hub) (client other : Client) :
    (h.register client).queue other = h.queue other := rfl

theorem Hub.clients_register (h : Hub) (client other : Client) :
    (h.register client).clients.get? other =
      if other = client then some true else h.clients.get? other :=
  GoMap.get?_set _ _ _ _

theorem Hub.sessions_register (h : Hub) (client : Client) (s : String) :
    (h.register client).sessions.get? s =
      if s = client.SessionID then
        some
          { SessionID := client.SessionID
            QuizGame :=
              NewQuizGame client.SessionID
                (((h.connections client.SessionID).length + 1 : Nat) : Int) }
      else h.sessions.get? s := by
  by_cases hs : s = client.SessionID
  · subst hs
    simp [Hub.register, Hub.connections]
  · simp [Hub.register, hs, GoMap.get?_set_ne _ _ _ _ hs]

/-- Closed form of `removeClient` on a client of the flat set whose channel is
open. -/
theorem removeClient_present (h : Hub) (client : Client)
    (hpresent : h.clients.get? client ≠ none) (hopen : (h.queue client).closed = false) :
    ∃ h', removeClient h client = .done h' ∧
      h'.clients = h.clients.delete client ∧
      h'.send = h.send.set client { h.queue client with closed := true } ∧
      h'.sessions = h.sessions ∧
      h'.connections client.SessionID = (h.connections client.SessionID).erase client ∧
      ∀ s, s ≠ client.SessionID → h'.sessionClients.get? s = h.sessionClients.get? s := by
  obtain ⟨b, hb⟩ := Option.ne_none_iff_exists'.1 hpresent
  unfold removeClient
  simp only [hb, hopen]
  cases hlist : h.sessionClients.get? client.SessionID with
  | none =>
    refine ⟨_, rfl, rfl, rfl, rfl, ?_, fun _ _ => rfl⟩
    simp [Hub.connections, hlist]
  | some clients =>
    simp only [Bool.false_eq_true, if_false]
    rw [removeFirst?_eq]
    by_cases hmem : client ∈ clients
    · simp only [hmem, if_true]
      refine ⟨_, rfl, rfl, rfl, rfl, ?_, ?_⟩
      · simp [Hub.connections, hlist]
      · intro s hs
        exact GoMap.get?_set_ne _ _ _ _ hs
    · simp only [hmem, if_false]
      refine ⟨_, rfl, rfl, rfl, rfl, ?_, fun _ _ => rfl⟩
      simp [Hub.connections, hlist, List.erase_of_not_mem hmem]

theorem removeClient_absent (h : Hub) (client : Client)
    (habsent : h.clients.get? client = none) : removeClient h client = .done h := by
  unfold removeClient
  simp only [habsent]

theorem removeClient_queue_other (h h' : Hub) (client other : Client)
    (hsend : h'.send = h.send.set client { h.queue client with closed := true })
    (hne : other ≠ client) : h'.queue other = h.queue other := by
  simp only [Hub.queue, hsend, GoMap.get?_set_ne _ _ _ _ hne]

theorem removeClient_queue_self (h h' : Hub) (client : Client)
    (hsend : h'.send = h.send.set client { h.queue client with closed := true }) :
    h'.queue client = { h.queue client with closed := true } := by
  simp only [Hub.queue, hsend, GoMap.get?_set_self, Option.getD_some]

theorem Hub.sound_new : NewHub.Sound [] := by
  refine ⟨?_, ?_, ?_, ?_⟩
  · intro client hc
    exact absurd rfl hc
  · intro client hc
    exact absurd rfl hc
  · intro client _
    rfl
  · intro s session hs
    cases hs

theorem Hub.register_sound (h : Hub) (registered : List Client) (client : Client)
    (hsound : h.Sound registered) (hfresh : client ∉ registered) :
    (h.register client).Sound (client :: registered) := by
  obtain ⟨h1, h2, h3, h4⟩ := hsound
  refine ⟨?_, ?_, ?_, ?_⟩
  · intro other hother
    rw [Hub.clients_register] at hother
    by_cases he : other = client
    · exact he ▸ List.mem_cons_self _ _
    · rw [if_neg he] at hother
      exact List.mem_cons_of_mem _ (h1 other hother)
  · intro other hother
    rw [Hub.clients_register] at hother
    rw [Hub.queue_register, Hub.connections_register, Hub.sessions_register]
    by_cases he : other = client
    · subst he
      refine ⟨h3 other hfresh, ?_, ?_⟩
      · simp
      · simp
    · rw [if_neg he] at hother
      obtain ⟨ha, hb, hc⟩ := h2 other hother
      refine ⟨ha, ?_, ?_⟩
      · split
        · exact List.mem_append_left _ hb
        · exact hb
      · split
        · simp
        · exact hc
  · intro other hother
    rw [Hub.queue_register]
    exact h3 other (fun hmem => hother (List.mem_cons_of_mem _ hmem))
  · intro s session hs
    rw [Hub.sessions_register] at hs
    by_cases he : s = client.SessionID
    · rw [if_pos he] at hs
      cases hs
      exact he.symm
    · rw [if_neg he] at hs
      exact h4 s session hs

theorem removeClient_sound (h : Hub) (registered : List Client) (client : Client)
    (hsound : h.Sound registered) :
    ∃ h', removeClient h client = .done h' ∧ h'.Sound registered := by
  by_cases hpresent : h.clients.get? client = none
  · exact ⟨h, removeClient_absent h client hpresent, hsound⟩
  · obtain ⟨h1, h2, h3, h4⟩ := hsound
    obtain ⟨h', hrun, hclients, hsend, hsessions, hlist, hothers⟩ :=
      removeClient_present h client hpresent (h2 client hpresent).1
    have hflat : ∀ other, h'.clients.get? other ≠ none →
        other ≠ client ∧ h.clients.get? other ≠ none := by
      intro other hother
      rw [hclients] at hother
      have hne : other ≠ client := by
        intro he
        subst he
        exact hother (GoMap.get?_delete_self _ _)
      rw [GoMap.get?_delete_ne _ _ _ hne] at hother
      exact ⟨hne, hother⟩
    refine ⟨h', hrun, ?_, ?_, ?_, ?_⟩
    · intro other hother
      exact h1 other (hflat other hother).2
    · intro other hother
      obtain ⟨hne, hold⟩ := hflat other hother
      obtain ⟨ha, hb, hc⟩ := h2 other hold
      rw [removeClient_queue_other h h' client other hsend hne, hsessions]
      refine ⟨ha, ?_, hc⟩
      by_cases hs : other.SessionID = client.SessionID
      · rw [hs, hlist]
        rw [hs] at hb
        exact (List.mem_erase_of_ne hne).2 hb
      · simp only [Hub.connections, hothers _ hs]
        exact hb
    · intro other hother
      have hne : other ≠ client := by
        intro he
        subst he
        exact hother (h1 other hpresent)
      rw [removeClient_queue_other h h' client other hsend hne]
      exact h3 other hother
    · intro s session hs
      rw [hsessions] at hs
      exact h4 s session hs

theorem Hub.run_sound (events : List HubEvent) :
    ∀ (h : Hub) (registered : List Client), h.Sound registered →
      (∀ event ∈ events, event.isMembership = true) → (registrations events).Nodup →
      (∀ client ∈ registrations events, client ∉ registered) →
      ∃ h' registered', h.run events = .done h' ∧ h'.Sound registered' := by
  induction events with
  | nil =>
    intro h registered hsound _ _ _
    exact ⟨h, registered, rfl, hsound⟩
  | cons event rest ih =>
    intro h registered hsound hmembership hnodup hfresh
    have hrest : ∀ event ∈ rest, event.isMembership = true :=
      fun e he => hmembership e (List.mem_cons_of_mem _ he)
    cases event with
    | register client =>
      simp only [registrations, List.nodup_cons] at hnodup
      have hnew : client ∉ registered := hfresh client (by simp [registrations])
      obtain ⟨h', registered', hrun, hsound'⟩ :=
        ih (h.register client) (client :: registered)
          (Hub.register_sound h registered client hsound hnew) hrest hnodup.2
          (by
            intro other hother hmem
            rcases List.mem_cons.1 hmem with he | hold
            · exact hnodup.1 (he ▸ hother)
            · exact hfresh other (by simp [registrations, hother]) hold)
      exact ⟨h', registered', by simpa [Hub.run, Hub.step] using hrun, hsound'⟩
    | unregister client =>
      obtain ⟨h1, hremoved, hsound1⟩ := removeClient_sound h registered client hsound
      obtain ⟨h', registered', hrun, hsound'⟩ :=
        ih h1 registered hsound1 hrest (by simpa [registrations] using hnodup)
          (fun other hother => hfresh other (by simpa [registrations] using hother))
      exact ⟨h', registered', by simpa [Hub.run, Hub.step, hremoved] using hrun, hsound'⟩
    | broadcast message =>
      have := hmembership (.broadcast message) (List.mem_cons_self _ _)
      simp [HubEvent.isMembership] at this

theorem Hub.GetSession_register (h : Hub) (client : Client) :
    (h.register client).GetSession client.SessionID =
      some
        { SessionID := client.SessionID
          QuizGame :=
            NewQuizGame client.SessionID
              (((h.connections client.SessionID).length + 1 : Nat) : Int) } := by
  rw [Hub.GetSession, Hub.sessions_register, if_pos rfl]
  simp [NewQuizGame, Hub.connections_register]

/-! ## Claims on the hub -/

/-- C28 (evaluation at the failing input): a register event adds the
connection to the flat set and to the end of the list of its session, and it
stores a new `Session` with a new engine under the session id whether one
exists or not.  In `midQuizHub` the engine of `room` holds quiz 1 with its
first question open; after the registration of a second connection to `room`
the engine of `room` holds no quiz. -/
theorem C28_register_replaces_the_session (h : Hub) (client : Client) :
    (h.register client).clients.get? client = some true ∧
    (h.register client).connections client.SessionID =
      h.connections client.SessionID ++ [client] ∧
    (h.register client).sessions.get? client.SessionID =
      some
        { SessionID := client.SessionID
          QuizGame :=
            NewQuizGame client.SessionID
              (((h.connections client.SessionID).length + 1 : Nat) : Int) } ∧
    (midQuizHub.GetSession "room").map (fun session =>
        (session.QuizGame.quiz, session.QuizGame.currentQuestionIndex)) =
      some (some validQuiz, 0) ∧
    ((midQuizHub.register lateClient).GetSession "room").map (fun session =>
        (session.QuizGame.quiz, session.QuizGame.currentQuestionIndex)) =
      some (none, 0) ∧
    (midQuizHub.register lateClient).GetSession "room" =
      some { SessionID := "room", QuizGame := NewQuizGame "room" 2 } := by
  refine ⟨?_, ?_, ?_, by decide, by decide, by decide⟩
  · rw [Hub.clients_register, if_pos rfl]
  · rw [Hub.connections_register, if_pos rfl]
  · rw [Hub.sessions_register, if_pos rfl]

/-- C29: after any sequence of register and unregister events in which no
connection is registered twice, the hub has not panicked and, for every
session that has a `Session`, `GetConnectedPlayersCount` of its engine returns
the length of the connection list of the session at the time of the call.  A
registration into a session makes that value one more than the length before;
the unregistration of a connection of the flat set makes it one less. -/
theorem C29_player_count_is_the_live_list_length (events : List HubEvent)
    (hmembership : ∀ event ∈ events, event.isMembership = true)
    (hfresh : (registrations events).Nodup) :
    ∃ h, NewHub.run events = .done h ∧
      (∀ s session, h.GetSession s = some session →
        session.QuizGame.GetConnectedPlayersCount = ((h.connections s).length : Int)) ∧
      (∀ client, ∃ session,
        (h.register client).GetSession client.SessionID = some session ∧
        session.QuizGame.GetConnectedPlayersCount =
          ((h.connections client.SessionID).length : Int) + 1) ∧
      (∀ client, h.clients.get? client ≠ none →
        ∃ h' session, h.step (.unregister client) = .done h' ∧
          h'.GetSession client.SessionID = some session ∧
          session.QuizGame.GetConnectedPlayersCount + 1 =
            ((h.connections client.SessionID).length : Int)) := by
  obtain ⟨h, registered, hrun, h1, h2, h3, h4⟩ :=
    Hub.run_sound events NewHub [] Hub.sound_new hmembership hfresh (fun _ _ => by simp)
  refine ⟨h, hrun, ?_, ?_, ?_⟩
  · intro s session hget
    simp only [Hub.GetSession, Option.map_eq_some'] at hget
    obtain ⟨stored, hstored, hsession⟩ := hget
    rw [← hsession, h4 s stored hstored]
  · intro client
    refine ⟨_, Hub.GetSession_register h client, ?_⟩
    simp [NewQuizGame]
  · intro client hpresent
    obtain ⟨hopen, hmem, hsession⟩ := h2 client hpresent
    obtain ⟨h', hremoved, -, -, hsessions, hlist, -⟩ :=
      removeClient_present h client hpresent hopen
    obtain ⟨stored, hstored⟩ := Option.ne_none_iff_exists'.1 hsession
    refine ⟨h',
      { stored with
        QuizGame :=
          { stored.QuizGame with
            GetConnectedPlayersCount := (h'.connections stored.QuizGame.SessionID).length } },
      hremoved, ?_, ?_⟩
    · simp only [Hub.GetSession, hsessions, hstored, Option.map_some']
    · simp only [h4 _ stored hstored, hlist, List.length_erase_of_mem hmem]
      have hpos : 0 < (h.connections client.SessionID).length := List.length_pos_of_mem hmem
      omega

/-- Witness of C29: two connections join `room`, then the first one leaves. -/
theorem C29_player_count_is_the_live_list_length_witness :
    ∃ h, NewHub.run [.register firstClient, .register lateClient, .unregister firstClient] =
        .done h ∧
      ∀ s session, h.GetSession s = some session →
        session.QuizGame.GetConnectedPlayersCount = ((h.connections s).length : Int) :=
  match C29_player_count_is_the_live_list_length
      [.register firstClient, .register lateClient, .unregister firstClient]
      (by decide) (by decide) with
  | ⟨h, hrun, hcount, _⟩ => ⟨h, hrun, hcount⟩

/-- C30: `removeClient` on a connection of the flat set whose queue is open
removes it from the flat set and leaves the other connections of the flat set
as they were, removes its first occurrence from the list of its session, so
that a list in which it occurs once keeps the other connections in their
order, leaves the other lists as they were, closes its queue, leaves the other
queues and the sessions map as they were, and a second call changes nothing.
On a connection absent from the flat set the hub state is unchanged. -/
theorem C30_removeClient_removes_once (h : Hub) (client : Client) :
    (h.clients.get? client ≠ none → (h.queue client).closed = false →
      ∃ h', removeClient h client = .done h' ∧
        h'.clients.get? client = none ∧
        (∀ other, other ≠ client → h'.clients.get? other = h.clients.get? other) ∧
        h'.connections client.SessionID = (h.connections client.SessionID).erase client ∧
        (∀ before after, h.connections client.SessionID = before ++ client :: after →
          client ∉ before → h'.connections client.SessionID = before ++ after) ∧
        (∀ s, s ≠ client.SessionID → h'.sessionClients.get? s = h.sessionClients.get? s) ∧
        h'.queue client = { h.queue client with closed := true } ∧
        (∀ other, other ≠ client → h'.queue other = h.queue other) ∧
        h'.sessions = h.sessions ∧
        removeClient h' client = .done h') ∧
    (h.clients.get? client = none → removeClient h client = .done h) := by
  refine ⟨?_, removeClient_absent h client⟩
  intro hpresent hopen
  obtain ⟨h', hremoved, hclients, hsend, hsessions, hlist, hothers⟩ :=
    removeClient_present h client hpresent hopen
  have hgone : h'.clients.get? client = none := by
    rw [hclients]
    exact GoMap.get?_delete_self _ _
  refine ⟨h', hremoved, hgone, ?_, hlist, ?_, hothers,
    removeClient_queue_self h h' client hsend,
    fun other hne => removeClient_queue_other h h' client other hsend hne, hsessions,
    removeClient_absent h' client hgone⟩
  · intro other hne
    rw [hclients]
    exact GoMap.get?_delete_ne _ _ _ hne
  · intro before after hsplit hnotin
    rw [hlist, hsplit, List.erase_append_right _ hnotin, List.erase_cons_head]

/-- Witness of C30: the first of two connections of `room` is removed. -/
theorem C30_removeClient_removes_once_witness :
    ∃ h', removeClient twoClientHub firstClient = .done h' ∧
      h'.clients.get? firstClient = none ∧
      h'.connections "room" = [lateClient] ∧
      (h'.queue firstClient).closed = true ∧
      h'.sessions = twoClientHub.sessions ∧
      removeClient h' firstClient = .done h' :=
  match (C30_removeClient_removes_once twoClientHub firstClient).1 (by decide) (by decide) with
  | ⟨h', hremoved, hgone, _, hlist, _, _, hqueue, _, hsessions, htwice⟩ =>
    ⟨h', hremoved, hgone, by rw [show "room" = firstClient.SessionID from rfl, hlist]; decide,
      by rw [hqueue], hsessions, htwice⟩

set_option maxRecDepth 16384 in
/-- Counterexample of C30: in `closedQueueHub` the connection `firstClient` is
in the flat set and its channel is already closed, as in the default branch of
the broadcast.  `removeClient` deletes it from the flat set and panics on
`close`: it does not return, and the connection is still in the list of its
session. -/
theorem C30_counterexample :
    closedQueueHub.clients.get? firstClient = some true ∧
    (closedQueueHub.queue firstClient).closed = true ∧
    removeClient closedQueueHub firstClient =
      .panicked { closedQueueHub with clients := closedQueueHub.clients.delete firstClient } ∧
    (removeClient closedQueueHub firstClient).hub.clients.get? firstClient = none ∧
    (removeClient closedQueueHub firstClient).hub.connections "room" =
      [firstClient, lateClient] := by
  decide

/-! ## Claims on the quiz content and the messages -/

theorem GetAnswerByID_loop_some (id : Int) (answers : List Answer) (a : Answer) :
    GetAnswerByID.loop id answers = some a ↔
      ∃ before after, answers = before ++ a :: after ∧ a.ID = id ∧
        ∀ b ∈ before, b.ID ≠ id := by
  induction answers with
  | nil => simp [GetAnswerByID.loop]
  | cons x rest ih =>
    by_cases hx : x.ID = id
    · simp only [GetAnswerByID.loop, hx, if_true, Option.some.injEq]
      constructor
      · intro h
        subst h
        exact ⟨[], rest, rfl, hx, by simp⟩
      · rintro ⟨before, after, hsplit, -, hbefore⟩
        cases before with
        | nil => exact (List.cons.inj hsplit).1
        | cons b bs =>
          have hb : x = b := (List.cons.inj hsplit).1
          exact absurd (hb ▸ hx) (hbefore b (List.mem_cons_self _ _))
    · simp only [GetAnswerByID.loop, hx, if_false, ih]
      constructor
      · rintro ⟨before, after, hsplit, hid, hbefore⟩
        refine ⟨x :: before, after, by rw [hsplit]; rfl, hid, ?_⟩
        intro b hb
        rcases List.mem_cons.1 hb with h | h
        · exact h ▸ hx
        · exact hbefore b h
      · rintro ⟨before, after, hsplit, hid, hbefore⟩
        cases before with
        | nil =>
          have : x = a := (List.cons.inj hsplit).1
          exact absurd (this ▸ hid) hx
        | cons b bs =>
          exact ⟨bs, after, (List.cons.inj hsplit).2, hid,
            fun c hc => hbefore c (List.mem_cons_of_mem _ hc)⟩

theorem GetAnswerByID_loop_none (id : Int) (answers : List Answer) :
    GetAnswerByID.loop id answers = none ↔ ∀ a ∈ answers, a.ID ≠ id := by
  induction answers with
  | nil => simp [GetAnswerByID.loop]
  | cons x rest ih =>
    by_cases hx : x.ID = id
    · simp [GetAnswerByID.loop, hx]
    · simp [GetAnswerByID.loop, hx, ih]

theorem GetQuestionByID_loop_some (id : Int) (questions : List Question) (q : Question) :
    GetQuestionByID.loop id questions = some q ↔
      ∃ before after, questions = before ++ q :: after ∧ q.ID = id ∧
        ∀ b ∈ before, b.ID ≠ id := by
  induction questions with
  | nil => simp [GetQuestionByID.loop]
  | cons x rest ih =>
    by_cases hx : x.ID = id
    · simp only [GetQuestionByID.loop, hx, if_true, Option.some.injEq]
      constructor
      · intro h
        subst h
        exact ⟨[], rest, rfl, hx, by simp⟩
      · rintro ⟨before, after, hsplit, -, hbefore⟩
        cases before with
        | nil => exact (List.cons.inj hsplit).1
        | cons b bs =>
          have hb : x = b := (List.cons.inj hsplit).1
          exact absurd (hb ▸ hx) (hbefore b (List.mem_cons_self _ _))
    · simp only [GetQuestionByID.loop, hx, if_false, ih]
      constructor
      · rintro ⟨before, after, hsplit, hid, hbefore⟩
        refine ⟨x :: before, after, by rw [hsplit]; rfl, hid, ?_⟩
        intro b hb
        rcases List.mem_cons.1 hb with h | h
        · exact h ▸ hx
        · exact hbefore b h
      · rintro ⟨before, after, hsplit, hid, hbefore⟩
        cases before with
        | nil =>
          have : x = q := (List.cons.inj hsplit).1
          exact absurd (this ▸ hid) hx
        | cons b bs =>
          exact ⟨bs, after, (List.cons.inj hsplit).2, hid,
            fun c hc => hbefore c (List.mem_cons_of_mem _ hc)⟩

theorem GetQuestionByID_loop_none (id : Int) (questions : List Question) :
    GetQuestionByID.loop id questions = none ↔ ∀ q ∈ questions, q.ID ≠ id := by
  induction questions with
  | nil => simp [GetQuestionByID.loop]
  | cons x rest ih =>
    by_cases hx : x.ID = id
    · simp [GetQuestionByID.loop, hx]
    · simp [GetQuestionByID.loop, hx, ih]

/-- C35: `GetAnswerByID` returns an answer exactly when it is the first answer
of the question, in the order of its answers, whose ID is the id, and nil
exactly when no answer of the question has that id; `GetQuestionByID` does the
same over the questions of a quiz. -/
theorem C35_lookup_by_id_returns_first_match (question : Question) (quiz : Quiz) (id : Int) :
    (∀ a, question.GetAnswerByID id = some a ↔
      ∃ before after, question.Answers = before ++ a :: after ∧ a.ID = id ∧
        ∀ b ∈ before, b.ID ≠ id) ∧
    (question.GetAnswerByID id = none ↔ ∀ a ∈ question.Answers, a.ID ≠ id) ∧
    (∀ q, quiz.GetQuestionByID id = some q ↔
      ∃ before after, quiz.Questions = before ++ q :: after ∧ q.ID = id ∧
        ∀ b ∈ before, b.ID ≠ id) ∧
    (quiz.GetQuestionByID id = none ↔ ∀ q ∈ quiz.Questions, q.ID ≠ id) :=
  ⟨GetAnswerByID_loop_some id question.Answers, GetAnswerByID_loop_none id question.Answers,
    GetQuestionByID_loop_some id quiz.Questions, GetQuestionByID_loop_none id quiz.Questions⟩

/-- Witness of C35: the lookups of the tests on the quiz of the fixture. -/
theorem C35_lookup_by_id_returns_first_match_witness :
    question101.GetAnswerByID 1002 =
      some { ID := 1002, Title := "A board game", URL := "/answer/1002", Correct := 0 } ∧
    validQuiz.GetQuestionByID 999 = none :=
  ⟨((C35_lookup_by_id_returns_first_match question101 validQuiz 1002).1 _).2
      ⟨[{ ID := 1001, Title := "A programming language", URL := "/answer/1001", Correct := 1 }],
        [], rfl, rfl, by decide⟩,
    (C35_lookup_by_id_returns_first_match question101 validQuiz 999).2.2.2.2 (by decide)⟩

theorem Event.apply_quiz (g : QuizGame) (event : Event) (hstart : event.isStart = false) :
    (event.apply g).quiz = g.quiz := by
  cases event with
  | start quiz user => cases hstart
  | next => exact (NextQuizQuestionMessage_frame g).1
  | answerMC q a u => exact (AnswerMCQuestion_progress g q a u).2.1
  | answerFreeText q a u => exact (AnswerFreeTextQuestion_progress g q a u).2.1
  | expire => exact (timerExpiry_progress g).2.1
  | connected n => rfl

theorem run_quiz (g : QuizGame) (events : List Event)
    (h : ∀ e ∈ events, e.isStart = false) : (run g events).quiz = g.quiz := by
  induction events generalizing g with
  | nil => rfl
  | cons e rest ih =>
    exact (ih (e.apply g) (fun x hx => h x (List.mem_cons_of_mem _ hx))).trans
      (Event.apply_quiz g e (h e (List.mem_cons_self _ _)))

/-- C36: no engine operation writes the quiz content.  After a call of
`NextQuizQuestionMessage`, a submission, a timer expiry or a change of the
number of connected players, and after any sequence of them, the quiz
referenced by the engine is the one referenced before, with its questions,
their order, their answers and the correctness of every answer; after `Start`
it is the quiz handed to `Start`.
When `NextQuizQuestionMessage` serves a question, every answer of the served
copy has correctness unknown while the question of the quiz at the new index
is the one it was. -/
theorem C36_quiz_content_is_never_written (g : QuizGame) (event : Event) :
    (event.isStart = false → (event.apply g).quiz = g.quiz) ∧
    (∀ events : List Event, (∀ e ∈ events, e.isStart = false) →
      (run g events).quiz = g.quiz) ∧
    (∀ quiz user, (Event.apply g (.start quiz user)).quiz = some quiz) ∧
    (∀ g' m, NextQuizQuestionMessage g = .returned g' (.quizQuestion m) →
      ∃ quiz question, g.quiz = some quiz ∧ g'.quiz = some quiz ∧
        index? quiz.Questions g'.currentQuestionIndex = some question ∧
        m.Question.Answers = redactAnswers question.Answers ∧
        (∀ a ∈ m.Question.Answers, a.Correct = -1) ∧
        g'.currentQuizQuestion = some m.Question) := by
  refine ⟨Event.apply_quiz g event, run_quiz g, fun _ _ => rfl, ?_⟩
  · intro g' m hret
    obtain ⟨quiz, question, hquiz, hq⟩ := NextQuizQuestionMessage_question_inv g g' m hret
    have hclosed := NextQuizQuestionMessage_question g quiz question hquiz hq
    rw [hclosed] at hret
    injection hret with hg hm
    injection hm with hm
    subst hg hm
    exact ⟨quiz, question, hquiz, hquiz, hq, rfl, redactAnswers_correct _, rfl⟩

/-- Witness of C36: the first question of the test quiz is served redacted and
the quiz still holds the correct answer. -/
theorem C36_quiz_content_is_never_written_witness :
    (Event.apply newQuizGame .next).quiz = some validQuiz ∧
    (Event.apply firstQuestionOpen (.answerMC 101 [1001] (userNamed "login1"))).quiz =
      some validQuiz :=
  ⟨((C36_quiz_content_is_never_written newQuizGame .next).1 rfl).trans (by decide),
    ((C36_quiz_content_is_never_written firstQuestionOpen
      (.answerMC 101 [1001] (userNamed "login1"))).1 rfl).trans (by decide)⟩

/-- C38: a graded free-text submission (open free-text question, armed timer,
login not yet graded, at least one text) adds exactly one to the cumulative
`countAnswered` of the player and leaves the cumulative `countCorrect` of the
player as it was, while the result of the player for that question is
recorded as correct. -/
theorem C38_free_text_counts_answered_not_correct (g : QuizGame) (question : Question)
    (questionId : Int) (text : String) (rest : List String) (user : User) (timer : Timer)
    (hopen : OpenQuestion g question) (hid : question.ID = questionId)
    (hty : question.QuestionType = QUESTION_TYPE_FREE_TEXT)
    (htimer : g.questionTimer = some timer)
    (hfresh : ∀ r, playerResult g questionId user.Login = some r →
      r.Correct = ANSWER_CORRECT_UNKNOWN) :
    ∃ g' m, AnswerFreeTextQuestion g questionId (text :: rest) user =
        .returned g' ⟨some m, none⟩ ∧
      countAnswered g' user.Login = countAnswered g user.Login + 1 ∧
      countCorrect g' user.Login = countCorrect g user.Login ∧
      (playerResult g' questionId user.Login).map (fun r => r.Correct) = some 1 ∧
      (g'.playerStats.get? user.Login).map (fun p => p.PlayerLogin) = some user.Login := by
  obtain ⟨g', m, hret, hqs, hps, -⟩ :=
    AnswerFreeTextQuestion_graded g question questionId text rest user timer hopen hid hty
      htimer hfresh
  refine ⟨g', m, hret, ?_, ?_, ?_, ?_⟩
  · simp only [countAnswered, hps, GoMap.get?_set_self, playerStatAfter]
  · simp only [countCorrect, hps, GoMap.get?_set_self, playerStatAfter]
    cases g.playerStats.get? user.Login <;> simp
  · rw [playerResult_of_get? _ _ _ _ hqs]
    simp [ftStatsAfter, ftResultsAfter, ANSWER_CORRECT_CORRECT]
  · simp [hps, playerStatAfter]

/-- Witness of C38: `login1` answers the open free-text question. -/
theorem C38_free_text_counts_answered_not_correct_witness :
    ∃ g' m, AnswerFreeTextQuestion freeTextOpen 301 ["because"] (userNamed "login1") =
        .returned g' ⟨some m, none⟩ ∧
      countAnswered g' "login1" = 1 ∧ countCorrect g' "login1" = 0 ∧
      (playerResult g' 301 "login1").map (fun r => r.Correct) = some 1 :=
  match C38_free_text_counts_answered_not_correct freeTextOpen question301 301 "because" []
      (userNamed "login1")
      { question := question301, duration := 1800000000000, stopped := false }
      ⟨freeTextQuiz, by decide, by decide⟩ rfl rfl (by decide) (by decide) with
  | ⟨g', m, hret, hanswered, hcorrect, hresult, _⟩ =>
    ⟨g', m, hret, hanswered.trans (by decide), hcorrect.trans (by decide), hresult⟩

/-- C39: whatever the type of the question served, the field `QuestionType` of
the Question-Started message returned by `NextQuizQuestionMessage` is 0
(multiple choice); the type of the question is carried by the nested question
only. -/
theorem C39_top_level_question_type_is_zero (g g' : QuizGame) (m : QuizQuestionMessage)
    (hret : NextQuizQuestionMessage g = .returned g' (.quizQuestion m)) :
    m.QuestionType = 0 ∧
    ∃ quiz question, g.quiz = some quiz ∧
      index? quiz.Questions (g.currentQuestionIndex + 1) = some question ∧
      m.Question.QuestionType = question.QuestionType := by
  obtain ⟨quiz, question, hquiz, hq⟩ := NextQuizQuestionMessage_question_inv g g' m hret
  have hclosed := NextQuizQuestionMessage_question g quiz question hquiz hq
  rw [hclosed] at hret
  injection hret with hg hm
  injection hm with hm
  subst hg hm
  exact ⟨rfl, quiz, question, hquiz, hq, rfl⟩

/-- Witness of C39: the free-text question of `freeTextQuiz` is announced with
the top-level type 0 and the nested type 1. -/
theorem C39_top_level_question_type_is_zero_witness :
    ∃ g' m, NextQuizQuestionMessage (Start (blankGame 2) freeTextQuiz (userNamed "login")) =
        .returned g' (.quizQuestion m) ∧
      m.QuestionType = 0 ∧ m.Question.QuestionType = 1 :=
  match NextQuizQuestionMessage_question (Start (blankGame 2) freeTextQuiz (userNamed "login"))
      freeTextQuiz question301 rfl (by decide) with
  | hret =>
    ⟨_, _, hret, (C39_top_level_question_type_is_zero _ _ _ hret).1, rfl⟩

/-! ## Lemmas on the soundness of the cumulative statistics -/

theorem PlayersSound.sound_of_eq (g g' : QuizGame) (heq : g'.playerStats = g.playerStats)
    (h : PlayersSound g) : PlayersSound g' := by
  intro login p hp
  rw [heq] at hp
  exact h login p hp

theorem PlayersSound.sound_after (g g' : QuizGame) (login : String) (correct : Bool)
    (heq : g'.playerStats =
      g.playerStats.set login (playerStatAfter (g.playerStats.get? login) login correct))
    (h : PlayersSound g) : PlayersSound g' := by
  intro l p hp
  rw [heq, GoMap.get?_set] at hp
  by_cases hl : l = login
  · subst hl
    rw [if_pos rfl] at hp
    cases hp
    cases hget : g.playerStats.get? l with
    | none =>
      cases correct <;> simp [playerStatAfter]
    | some before =>
      obtain ⟨h0, h1, -⟩ := h l before hget
      cases correct <;> simp [playerStatAfter] <;> omega
  · rw [if_neg hl] at hp
    exact h l p hp

theorem GetQuestionStatsOrCreate_sound (g : QuizGame) (questionId : Int)
    (h : PlayersSound g) : PlayersSound (GetQuestionStatsOrCreate g questionId).1 :=
  PlayersSound.sound_of_eq g _ (GetQuestionStatsOrCreate_fields g questionId).1 h

theorem timedOut_sound (g : QuizGame) (questionId : Int) (h : PlayersSound g) :
    PlayersSound (timedOut g questionId) :=
  PlayersSound.sound_of_eq g _ (GetQuestionStatsOrCreate_fields g questionId).1 h

theorem AnswerMCQuestion_grade_sound (g : QuizGame) (question : Question) (questionId : Int)
    (answers : List Int) (user : User) (qs : QuestionStats) (qps : QuestionPlayerStat)
    (h : PlayersSound g) :
    PlayersSound (AnswerMCQuestion.grade g question questionId answers user qs qps).game := by
  cases hv : firstInvalidAnswer (question.Answers.map (fun a => a.ID)) answers with
  | some bad =>
    unfold AnswerMCQuestion.grade
    simp only [hv]
    exact h
  | none =>
    rw [AnswerMCQuestion_grade_eq g question questionId answers user qs qps
      ((firstInvalidAnswer_none_iff _ _).1 hv)]
    exact PlayersSound.sound_after g _ user.Login _ rfl h

theorem AnswerFreeTextQuestion_grade_sound (g : QuizGame) (questionId : Int)
    (answers : List String) (user : User) (qs : QuestionStats) (qps : QuestionPlayerStat)
    (h : PlayersSound g) :
    PlayersSound (AnswerFreeTextQuestion.grade g questionId answers user qs qps).game := by
  cases answers with
  | nil =>
    have hidx : index? ([] : List String) 0 = none := by simp [index?]
    unfold AnswerFreeTextQuestion.grade
    simp only [hidx]
    split
    · exact PlayersSound.sound_of_eq g _ rfl h
    · exact h
  | cons text rest =>
    rw [AnswerFreeTextQuestion_grade_eq]
    exact PlayersSound.sound_after g _ user.Login false rfl h

theorem AnswerMCQuestion_sound (g : QuizGame) (questionId : Int) (answers : List Int)
    (user : User) (h : PlayersSound g) :
    PlayersSound (AnswerMCQuestion g questionId answers user).game := by
  have hc := GetQuestionStatsOrCreate_sound g questionId h
  have hto := timedOut_sound g questionId h
  unfold timedOut at hto
  unfold AnswerMCQuestion
  split
  · exact h
  · split
    · exact h
    · split
      · exact h
      · split
        · exact h
        · split
          · exact h
          · split
            · exact h
            · simp only []
              split
              · exact hto
              · split
                · split
                  · exact hc
                  · exact AnswerMCQuestion_grade_sound _ _ _ _ _ _ _ hc
                · exact AnswerMCQuestion_grade_sound _ _ _ _ _ _ _ hc

theorem AnswerFreeTextQuestion_sound (g : QuizGame) (questionId : Int)
    (answers : List String) (user : User) (h : PlayersSound g) :
    PlayersSound (AnswerFreeTextQuestion g questionId answers user).game := by
  have hc := GetQuestionStatsOrCreate_sound g questionId h
  have hto := timedOut_sound g questionId h
  unfold timedOut at hto
  unfold AnswerFreeTextQuestion
  split
  · exact h
  · split
    · exact h
    · split
      · exact h
      · split
        · exact h
        · split
          · exact h
          · split
            · exact h
            · simp only []
              split
              · exact hto
              · split
                · split
                  · exact hc
                  · exact AnswerFreeTextQuestion_grade_sound _ _ _ _ _ _ hc
                · exact AnswerFreeTextQuestion_grade_sound _ _ _ _ _ _ hc

theorem storeSharedAnswers_sound (g : QuizGame) (questionId : Int)
    (shared : GoMap Int AnswerStat) (h : PlayersSound g) :
    PlayersSound (storeSharedAnswers g questionId shared) := by
  unfold storeSharedAnswers
  split
  · exact PlayersSound.sound_of_eq g _ rfl h
  · exact h

theorem timerCallback_sound (g : QuizGame) (question : Question) (h : PlayersSound g) :
    PlayersSound (timerCallback g question).game := by
  have h0 : PlayersSound (g.setQuestionTimer none) := PlayersSound.sound_of_eq g _ rfl h
  have hstep : ∀ (r : Outcome AnswerReturn), PlayersSound r.game →
      PlayersSound
        (match r with
        | .panicked quizGame => (.panicked quizGame : Outcome (List Sent))
        | .returned quizGame r =>
          let (quizGame, questionStats) := GetQuestionStatsOrCreate quizGame question.ID
          let looped := timerCallback.loop question.ID question.Answers questionStats r.msg
          let quizGame :=
            storeSharedAnswers quizGame question.ID looped.questionStats.AnswersStats
          if looped.nilDereference then .panicked quizGame
          else
            match looped.message with
            | some m =>
              .returned quizGame
                [{ user :=
                     { Login := "system", UserID := "", SessionID := quizGame.SessionID,
                       InstanceName := "" }
                   message := .questionStats m }]
            | none => .returned quizGame []).game := by
    intro r hr
    cases r with
    | panicked q => exact hr
    | returned q v =>
      have h2 : PlayersSound
          (storeSharedAnswers (GetQuestionStatsOrCreate q question.ID).1 question.ID
            (timerCallback.loop question.ID question.Answers
              (GetQuestionStatsOrCreate q question.ID).2 v.msg).questionStats.AnswersStats) :=
        storeSharedAnswers_sound _ _ _ (GetQuestionStatsOrCreate_sound q question.ID hr)
      dsimp only
      split_ifs
      · exact h2
      · split <;> exact h2
  unfold timerCallback
  dsimp only
  split_ifs
  · exact hstep _ (AnswerMCQuestion_sound _ _ _ _ h0)
  · exact hstep _ (AnswerFreeTextQuestion_sound _ _ _ _ h0)
  · exact hstep (.returned (g.setQuestionTimer none) ⟨none, none⟩) h0

theorem timerExpiry_sound (g : QuizGame) (h : PlayersSound g) :
    PlayersSound (timerExpiry g).game := by
  unfold timerExpiry
  split
  · exact h
  · rename_i timer htimer
    split_ifs
    · exact h
    · exact timerCallback_sound _ _ (PlayersSound.sound_of_eq g _ rfl h)

theorem Start_sound (g : QuizGame) (quiz : Quiz) (user : User) :
    PlayersSound (Start g quiz user) := by
  intro login p hp
  cases hp

theorem Event.apply_sound (g : QuizGame) (e : Event) (h : PlayersSound g) :
    PlayersSound (e.apply g) := by
  cases e with
  | start quiz user => exact Start_sound g quiz user
  | next => exact PlayersSound.sound_of_eq g _ (NextQuizQuestionMessage_stats g).2 h
  | answerMC q a u => exact AnswerMCQuestion_sound g q a u h
  | answerFreeText q a u => exact AnswerFreeTextQuestion_sound g q a u h
  | expire => exact timerExpiry_sound g h
  | connected n => exact PlayersSound.sound_of_eq g _ rfl h

theorem run_players_sound (g : QuizGame) (events : List Event) (h : PlayersSound g) :
    PlayersSound (run g events) := by
  induction events generalizing g with
  | nil => exact h
  | cons e rest ih => exact ih (e.apply g) (Event.apply_sound g e h)

/-- C37: in every engine state reached from `Start` by any sequence of calls
of `NextQuizQuestionMessage`, submissions, timer expiries, changes of the
number of connected players and further calls of `Start`, every entry of
`playerStats` has `0 <= CountCorrect <= CountAnswered` and its `PlayerLogin`
is the key it is stored under. -/
theorem C37_player_statistics_are_sound (g : QuizGame) (quiz : Quiz) (user : User)
    (events : List Event) (login : String) (p : PlayerStat)
    (hentry : (run (Start g quiz user) events).playerStats.get? login = some p) :
    0 ≤ p.CountCorrect ∧ p.CountCorrect ≤ p.CountAnswered ∧ p.PlayerLogin = login :=
  run_players_sound (Start g quiz user) events (Start_sound g quiz user) login p hentry

/-- Witness of C37: `login1` answers the first question right and the second
one wrong. -/
theorem C37_player_statistics_are_sound_witness :
    (run (Start (blankGame 2) validQuiz (userNamed "login"))
        [.next, .answerMC 101 [1001] (userNamed "login1"), .next,
          .answerMC 102 [1003] (userNamed "login1")]).playerStats.get? "login1" =
      some { PlayerLogin := "login1", CountAnswered := 2, CountCorrect := 1 } ∧
    (0 : Int) ≤ 1 ∧ (1 : Int) ≤ 2 ∧ "login1" = "login1" :=
  ⟨by decide,
    C37_player_statistics_are_sound (blankGame 2) validQuiz (userNamed "login")
      [.next, .answerMC 101 [1001] (userNamed "login1"), .next,
        .answerMC 102 [1003] (userNamed "login1")] "login1"
      { PlayerLogin := "login1", CountAnswered := 2, CountCorrect := 1 } (by decide)⟩

/-! ## Lemmas on the broadcast -/

theorem Hub.queue_send_set (h : Hub) (client other : Client) (queue : Chan) :
    Hub.queue { h with send := h.send.set client queue } other =
      if other = client then queue else h.queue other := by
  simp only [Hub.queue, GoMap.get?_set]
  split <;> rfl

theorem GoMap.mem_keys_iff {K V : Type} [DecidableEq K] (m : GoMap K V) (k : K) :
    k ∈ m.keys ↔ m.get? k ≠ none := by
  rw [GoMap.keys, ← GoMap.lookup_isSome_iff, GoMap.get?, Option.isSome_iff_ne_none]

/-- The loop of a broadcast over connections whose queues are open and have
room: every queue visited gets the message at its tail, nothing else changes. -/
theorem Hub.broadcastLoop_room (message : String) :
    ∀ (l : List Client) (h : Hub), l.Nodup →
      (∀ c ∈ l, (h.queue c).closed = false ∧
        (h.queue c).buffer.length < (h.queue c).capacity) →
      ∃ h', Hub.broadcastLoop message l h = .done h' ∧ h'.clients = h.clients ∧
        h'.sessionClients = h.sessionClients ∧ h'.sessions = h.sessions ∧
        (∀ c ∈ l, h'.queue c =
          { h.queue c with buffer := (h.queue c).buffer ++ [message] }) ∧
        (∀ c, c ∉ l → h'.queue c = h.queue c) := by
  intro l
  induction l with
  | nil =>
    intro h _ _
    exact ⟨h, rfl, rfl, rfl, rfl, fun _ hc => absurd hc (List.not_mem_nil _), fun _ _ => rfl⟩
  | cons c rest ih =>
    intro h hnodup hroom
    obtain ⟨hc, hrest⟩ := List.nodup_cons.1 hnodup
    obtain ⟨hopen, hlt⟩ := hroom c (List.mem_cons_self _ _)
    have hother : ∀ x, x ≠ c →
        Hub.queue
          { h with
            send := h.send.set c { h.queue c with buffer := (h.queue c).buffer ++ [message] } }
          x = h.queue x := by
      intro x hx
      rw [Hub.queue_send_set, if_neg hx]
    obtain ⟨h', hrun, hclients, hlists, hsessions, hin, hout⟩ :=
      ih { h with
           send := h.send.set c { h.queue c with buffer := (h.queue c).buffer ++ [message] } }
        hrest
        (by
          intro x hx
          have hne : x ≠ c := fun e => hc (e ▸ hx)
          rw [hother x hne]
          exact hroom x (List.mem_cons_of_mem _ hx))
    refine ⟨h', ?_, hclients, hlists, hsessions, ?_, ?_⟩
    · rw [Hub.broadcastLoop]
      rw [if_neg (by rw [hopen]; decide), if_pos hlt]
      exact hrun
    · intro x hx
      rcases List.mem_cons.1 hx with he | hmem
      · subst he
        rw [hout x hc, Hub.queue_send_set, if_pos rfl]
      · have hne : x ≠ c := fun e => hc (e ▸ hmem)
        rw [hin x hmem, hother x hne]
    · intro x hx
      have hne : x ≠ c := fun e => hx (e ▸ List.mem_cons_self _ _)
      rw [hout x (fun hmem => hx (List.mem_cons_of_mem _ hmem)), hother x hne]

/-- The loop of a broadcast over connections of the flat set whose queues are
open, one of them full: the loop panics at the first full queue, on the second
`close` of its channel. -/
theorem Hub.broadcastLoop_full (message : String) :
    ∀ (l : List Client) (h : Hub), l.Nodup →
      (∀ c ∈ l, h.clients.get? c ≠ none ∧ (h.queue c).closed = false) →
      (∃ c ∈ l, (h.queue c).capacity ≤ (h.queue c).buffer.length) →
      ∃ h' c, Hub.broadcastLoop message l h = .panicked h' ∧ c ∈ l ∧
        (h.queue c).capacity ≤ (h.queue c).buffer.length ∧
        h'.clients.get? c = none ∧ (h'.queue c).closed = true ∧
        h'.sessionClients = h.sessionClients ∧ h'.sessions = h.sessions := by
  intro l
  induction l with
  | nil =>
    intro h _ _ hfull
    obtain ⟨c, hc, -⟩ := hfull
    exact absurd hc (List.not_mem_nil _)
  | cons c rest ih =>
    intro h hnodup hflat hfull
    obtain ⟨hc, hrest⟩ := List.nodup_cons.1 hnodup
    obtain ⟨hpresent, hopen⟩ := hflat c (List.mem_cons_self _ _)
    by_cases hlt : (h.queue c).buffer.length < (h.queue c).capacity
    · have hother : ∀ x, x ≠ c →
          Hub.queue
            { h with
              send :=
                h.send.set c { h.queue c with buffer := (h.queue c).buffer ++ [message] } }
            x = h.queue x := by
        intro x hx
        rw [Hub.queue_send_set, if_neg hx]
      obtain ⟨h', c0, hrun, hmem, hc0, hgone, hclosed, hlists, hsessions⟩ :=
        ih { h with
             send :=
               h.send.set c { h.queue c with buffer := (h.queue c).buffer ++ [message] } }
          hrest
          (by
            intro x hx
            have hne : x ≠ c := fun e => hc (e ▸ hx)
            rw [hother x hne]
            exact hflat x (List.mem_cons_of_mem _ hx))
          (by
            obtain ⟨x, hx, hxfull⟩ := hfull
            rcases List.mem_cons.1 hx with he | hmem
            · subst he
              omega
            · have hne : x ≠ c := fun e => hc (e ▸ hmem)
              exact ⟨x, hmem, by rw [hother x hne]; exact hxfull⟩)
      have hne : c0 ≠ c := fun e => hc (e ▸ hmem)
      refine ⟨h', c0, ?_, List.mem_cons_of_mem _ hmem, ?_, hgone, hclosed, hlists, hsessions⟩
      · rw [Hub.broadcastLoop]
        rw [if_neg (by rw [hopen]; decide), if_pos hlt]
        exact hrun
      · rw [hother c0 hne] at hc0
        exact hc0
    · obtain ⟨b, hb⟩ := Option.ne_none_iff_exists'.1 hpresent
      refine ⟨{ h with
          clients := h.clients.delete c
          send := h.send.set c { h.queue c with closed := true } },
        c, ?_, List.mem_cons_self _ _, by omega, ?_, ?_, rfl, rfl⟩
      · simp only [Hub.broadcastLoop, hopen, hlt, Bool.false_eq_true, if_false, removeClient,
          hb, Hub.queue_send_set, if_true]
      · exact GoMap.get?_delete_self _ _
      · show (Hub.queue { h with send := h.send.set c { h.queue c with closed := true } }
          c).closed = true
        rw [Hub.queue_send_set, if_pos rfl]

/-! ## Claims on the broadcast -/

/-- C31 (evaluation at the failing input included in the witness): in a hub
state in which the queues of the connections of the flat set are open and one
of them is full, the processing of a broadcast event does not complete.  The
default branch closes the channel of the first full connection and calls
`removeClient`, which deletes the connection from the flat set and closes the
channel a second time: the hub goroutine panics, the connection is still in
the list of its session and the connections not yet visited have not received
the message. -/
theorem C31_broadcast_to_a_full_queue_panics (h : Hub) (message : String)
    (hopen : ∀ c ∈ h.clients.keys, (h.queue c).closed = false)
    (hfull : ∃ c ∈ h.clients.keys, (h.queue c).capacity ≤ (h.queue c).buffer.length) :
    ∃ h' c, h.step (.broadcast message) = .panicked h' ∧ c ∈ h.clients.keys ∧
      (h.queue c).capacity ≤ (h.queue c).buffer.length ∧
      h'.clients.get? c = none ∧ (h'.queue c).closed = true ∧
      h'.sessionClients = h.sessionClients ∧ h'.sessions = h.sessions :=
  Hub.broadcastLoop_full message h.clients.keys h h.clients.nodupKeys
    (fun c hc => ⟨(GoMap.mem_keys_iff h.clients c).1 hc, hopen c hc⟩) hfull

set_option maxRecDepth 16384 in
/-- Witness of C31: a broadcast to `fullQueueHub`, where 256 messages wait in
the queue of `firstClient`. -/
theorem C31_broadcast_to_a_full_queue_panics_witness :
    ∃ h' c, fullQueueHub.step (.broadcast "hello") = .panicked h' ∧
      c ∈ fullQueueHub.clients.keys ∧
      (fullQueueHub.queue c).capacity ≤ (fullQueueHub.queue c).buffer.length ∧
      h'.clients.get? c = none ∧ (h'.queue c).closed = true ∧
      h'.sessionClients = fullQueueHub.sessionClients ∧ h'.sessions = fullQueueHub.sessions :=
  C31_broadcast_to_a_full_queue_panics fullQueueHub "hello" (by decide) (by decide)

/-- C32: in a hub state in which the queue of every connection of the flat set
is open and holds fewer messages than its capacity (256 for the channel built
by `ServeWs`), the processing of a broadcast event completes, appends the
message at the tail of the queue of every connection of the flat set, whatever
its session id, keeps the messages queued before in their order, leaves the
queues of the other connections as they were, and leaves the flat set, the
session lists and the sessions map unchanged. -/
theorem C32_broadcast_reaches_every_queue (h : Hub) (message : String)
    (hopen : ∀ c ∈ h.clients.keys, (h.queue c).closed = false)
    (hroom : ∀ c ∈ h.clients.keys, (h.queue c).buffer.length < (h.queue c).capacity) :
    ∃ h', h.step (.broadcast message) = .done h' ∧
      h'.clients = h.clients ∧ h'.sessionClients = h.sessionClients ∧
      h'.sessions = h.sessions ∧
      (∀ c, h.clients.get? c ≠ none →
        h'.queue c = { h.queue c with buffer := (h.queue c).buffer ++ [message] }) ∧
      (∀ c, h.clients.get? c = none → h'.queue c = h.queue c) := by
  obtain ⟨h', hrun, hclients, hlists, hsessions, hin, hout⟩ :=
    Hub.broadcastLoop_room message h.clients.keys h h.clients.nodupKeys
      (fun c hc => ⟨hopen c hc, hroom c hc⟩)
  refine ⟨h', hrun, hclients, hlists, hsessions, ?_, ?_⟩
  · intro c hc
    exact hin c ((GoMap.mem_keys_iff h.clients c).2 hc)
  · intro c hc
    exact hout c (fun hmem => (GoMap.mem_keys_iff h.clients c).1 hmem hc)

/-- Witness of C32: a broadcast to two connections with empty queues of
capacity 256. -/
theorem C32_broadcast_reaches_every_queue_witness :
    ∃ h', twoClientHub.step (.broadcast "hello") = .done h' ∧
      h'.queue firstClient = { buffer := ["hello"], capacity := 256, closed := false } ∧
      h'.queue lateClient = { buffer := ["hello"], capacity := 256, closed := false } ∧
      h'.clients = twoClientHub.clients ∧ h'.sessions = twoClientHub.sessions :=
  match C32_broadcast_reaches_every_queue twoClientHub "hello" (by decide) (by decide) with
  | ⟨h', hrun, hclients, _, hsessions, hin, _⟩ =>
    ⟨h', hrun, (hin firstClient (by decide)).trans (by decide),
      (hin lateClient (by decide)).trans (by decide), hclients, hsessions⟩

/-! ## Lemmas on the membership invariant of the hub -/

theorem registrations_append (pre post : List HubEvent) :
    registrations (pre ++ post) = registrations pre ++ registrations post := by
  induction pre with
  | nil => rfl
  | cons e rest ih =>
    cases e <;> simp [registrations, ih]

theorem Unregistered_snoc (past : List HubEvent) (event : HubEvent) (client : Client) :
    Unregistered (past ++ [event]) client ↔
      Unregistered past client ∨
        (event = .unregister client ∧ client ∈ registrations past) := by
  constructor
  · rintro ⟨before, after, hsplit, hmem⟩
    rcases List.eq_nil_or_concat after with hnil | ⟨init, last, hlast⟩
    · subst hnil
      have h2 : past ++ [event] = before ++ [HubEvent.unregister client] := hsplit
      obtain ⟨hpast, hevent⟩ := List.append_inj' h2 rfl
      right
      exact ⟨(List.cons.inj hevent).1, hpast ▸ hmem⟩
    · subst hlast
      have h2 : past ++ [event] = (before ++ HubEvent.unregister client :: init) ++ [last] := by
        rw [hsplit]
        simp
      obtain ⟨hpast, -⟩ := List.append_inj' h2 rfl
      left
      exact ⟨before, init, hpast, hmem⟩
  · rintro (⟨before, after, hsplit, hmem⟩ | ⟨hevent, hmem⟩)
    · exact ⟨before, after ++ [event], by rw [hsplit]; simp, hmem⟩
    · exact ⟨past, [], by rw [hevent], hmem⟩

theorem Hub.tracks_new : NewHub.Tracks [] := by
  refine ⟨List.nodup_nil, ?_, ?_, ?_, ?_⟩
  · intro c hc
    exact absurd rfl hc
  · intro s
    rfl
  · intro c
    constructor
    · intro hclosed
      cases hclosed
    · rintro ⟨hmem, -⟩
      cases hmem
  · intro c
    constructor
    · rintro ⟨before, after, hsplit, -⟩
      cases before <;> cases hsplit
    · rintro ⟨hmem, -⟩
      cases hmem

theorem Hub.register_tracks (h : Hub) (past : List HubEvent) (client : Client)
    (htracks : h.Tracks past) (hfresh : client ∉ registrations past) :
    (h.register client).Tracks (past ++ [.register client]) := by
  obtain ⟨hnodup, hflat, hlists, hclosed, hunreg⟩ := htracks
  have hregs : registrations (past ++ [HubEvent.register client]) =
      registrations past ++ [client] := by
    rw [registrations_append]
    rfl
  have hget : ∀ c, c ≠ client → (h.register client).clients.get? c = h.clients.get? c := by
    intro c hc
    rw [Hub.clients_register, if_neg hc]
  have hself : (h.register client).clients.get? client = some true := by
    rw [Hub.clients_register, if_pos rfl]
  have hside : ∀ c, (c ∈ registrations past ++ [client] ∧
      (h.register client).clients.get? c = none) ↔
      (c ∈ registrations past ∧ h.clients.get? c = none) := by
    intro c
    by_cases hc : c = client
    · subst hc
      simp [hself, hfresh]
    · simp [hget c hc, hc]
  rw [Hub.Tracks, hregs]
  refine ⟨?_, ?_, ?_, ?_, ?_⟩
  · refine List.Nodup.append hnodup (List.nodup_singleton _) ?_
    intro a ha hb
    rw [List.mem_singleton] at hb
    exact hfresh (hb ▸ ha)
  · intro c hc
    by_cases he : c = client
    · simp [he]
    · rw [hget c he] at hc
      exact List.mem_append_left _ (hflat c hc)
  · intro s
    rw [Hub.connections_register, List.filter_append, hlists s]
    have hold : (registrations past).filter (fun c =>
          decide (c.SessionID = s) && ((h.register client).clients.get? c).isSome) =
        (registrations past).filter (fun c =>
          decide (c.SessionID = s) && (h.clients.get? c).isSome) := by
      apply List.filter_congr
      intro c hc
      have hne : c ≠ client := fun e => hfresh (e ▸ hc)
      rw [hget c hne]
    rw [hold]
    by_cases hs : s = client.SessionID
    · subst hs
      simp [hself]
    · have hs' : ¬ client.SessionID = s := fun e => hs e.symm
      simp [hs, hs']
  · intro c
    rw [Hub.queue_register, hside c]
    exact hclosed c
  · intro c
    rw [Unregistered_snoc, hside c, ← hunreg c]
    constructor
    · rintro (hu | ⟨he, -⟩)
      · exact hu
      · cases he
    · exact Or.inl

theorem removeClient_tracks (h : Hub) (past : List HubEvent) (client : Client)
    (htracks : h.Tracks past) :
    ∃ h', removeClient h client = .done h' ∧ h'.Tracks (past ++ [.unregister client]) := by
  obtain ⟨hnodup, hflat, hlists, hclosed, hunreg⟩ := htracks
  have hregs : registrations (past ++ [HubEvent.unregister client]) = registrations past := by
    rw [registrations_append]
    simp [registrations]
  by_cases hpresent : h.clients.get? client = none
  · refine ⟨h, removeClient_absent h client hpresent, ?_⟩
    rw [Hub.Tracks, hregs]
    refine ⟨hnodup, hflat, hlists, hclosed, ?_⟩
    intro c
    rw [Unregistered_snoc, hunreg c]
    constructor
    · rintro (hu | ⟨he, hmem⟩)
      · exact hu
      · cases he
        exact ⟨hmem, hpresent⟩
    · exact Or.inl
  · have hopen : (h.queue client).closed = false := by
      cases hq : (h.queue client).closed with
      | false => rfl
      | true => exact absurd ((hclosed client).1 hq).2 hpresent
    obtain ⟨h', hrun, hclients, hsend, hsessions, hlist, hothers⟩ :=
      removeClient_present h client hpresent hopen
    have hget : ∀ c, c ≠ client → h'.clients.get? c = h.clients.get? c := by
      intro c hc
      rw [hclients, GoMap.get?_delete_ne _ _ _ hc]
    have hself : h'.clients.get? client = none := by
      rw [hclients]
      exact GoMap.get?_delete_self _ _
    have hreg : client ∈ registrations past := hflat client hpresent
    refine ⟨h', hrun, ?_⟩
    rw [Hub.Tracks, hregs]
    refine ⟨hnodup, ?_, ?_, ?_, ?_⟩
    · intro c hc
      by_cases he : c = client
      · exact he ▸ hreg
      · rw [hget c he] at hc
        exact hflat c hc
    · intro s
      have hfilter : (registrations past).filter (fun c =>
            decide (c.SessionID = s) && (h'.clients.get? c).isSome) =
          ((registrations past).filter (fun c =>
            decide (c.SessionID = s) && (h.clients.get? c).isSome)).filter
              (fun c => decide (c ≠ client)) := by
        rw [List.filter_filter]
        apply List.filter_congr
        intro c _
        by_cases he : c = client
        · subst he
          simp [hself]
        · simp [hget c he, he]
      rw [hfilter, ← hlists s]
      by_cases hs : s = client.SessionID
      · subst hs
        rw [hlist]
        have hnd : (h.connections client.SessionID).Nodup := by
          rw [hlists]
          exact hnodup.filter _
        rw [hnd.erase_eq_filter]
        apply List.filter_congr
        intro c _
        by_cases hcc : c = client <;> simp [hcc]
      · have hsame : h'.connections s = h.connections s := by
          simp only [Hub.connections, hothers s hs]
        rw [hsame]
        symm
        apply List.filter_eq_self.2
        intro c hc
        rw [hlists s] at hc
        have hsid : c.SessionID = s := by
          have := (List.mem_filter.1 hc).2
          simp only [Bool.and_eq_true, decide_eq_true_eq] at this
          exact this.1
        have hne : c ≠ client := fun e => hs (by rw [← hsid, e])
        simp [hne]
    · intro c
      by_cases he : c = client
      · subst he
        rw [removeClient_queue_self h h' c hsend]
        simp [hself, hreg]
      · rw [removeClient_queue_other h h' client c hsend he, hget c he]
        exact hclosed c
    · intro c
      rw [Unregistered_snoc, hunreg c]
      by_cases he : c = client
      · subst he
        simp [hself, hreg]
      · rw [hget c he]
        constructor
        · rintro (hu | ⟨hev, -⟩)
          · exact hu
          · exact absurd (HubEvent.unregister.inj hev).symm he
        · exact Or.inl

theorem Hub.broadcast_tracks (h : Hub) (past : List HubEvent) (message : String)
    (htracks : h.Tracks past) (hroom : h.hasRoom = true) :
    ∃ h', h.step (.broadcast message) = .done h' ∧
      h'.Tracks (past ++ [.broadcast message]) := by
  obtain ⟨hnodup, hflat, hlists, hclosed, hunreg⟩ := htracks
  have hregs : registrations (past ++ [HubEvent.broadcast message]) = registrations past := by
    rw [registrations_append]
    simp [registrations]
  have hkeys : ∀ c ∈ h.clients.keys, (h.queue c).closed = false ∧
      (h.queue c).buffer.length < (h.queue c).capacity := by
    intro c hc
    refine ⟨?_, ?_⟩
    · cases hq : (h.queue c).closed with
      | false => rfl
      | true => exact absurd ((hclosed c).1 hq).2 ((GoMap.mem_keys_iff h.clients c).1 hc)
    · have := List.all_eq_true.1 hroom c hc
      exact of_decide_eq_true this
  obtain ⟨h', hrun, hclients, hsessionClients, -, hin, hout⟩ :=
    Hub.broadcastLoop_room message h.clients.keys h h.clients.nodupKeys hkeys
  have hflag : ∀ c, (h'.queue c).closed = (h.queue c).closed := by
    intro c
    by_cases hc : c ∈ h.clients.keys
    · rw [hin c hc]
    · rw [hout c hc]
  refine ⟨h', hrun, ?_⟩
  rw [Hub.Tracks, hregs]
  refine ⟨hnodup, ?_, ?_, ?_, ?_⟩
  · intro c hc
    rw [hclients] at hc
    exact hflat c hc
  · intro s
    have hsame : h'.connections s = h.connections s := by
      simp only [Hub.connections, hsessionClients]
    rw [hsame, hclients]
    exact hlists s
  · intro c
    rw [hflag c, hclients]
    exact hclosed c
  · intro c
    rw [Unregistered_snoc, hclients, ← hunreg c]
    constructor
    · rintro (hu | ⟨he, -⟩)
      · exact hu
      · cases he
    · exact Or.inl

theorem Hub.run_tracks (events : List HubEvent) :
    ∀ (h : Hub) (past : List HubEvent), h.Tracks past →
      (registrations (past ++ events)).Nodup → h.broadcastsHaveRoom events = true →
      ∃ h', h.run events = .done h' ∧ h'.Tracks (past ++ events) := by
  induction events with
  | nil =>
    intro h past htracks _ _
    exact ⟨h, rfl, by simpa using htracks⟩
  | cons event rest ih =>
    intro h past htracks hnodup hroom
    have hassoc : past ++ event :: rest = (past ++ [event]) ++ rest := by simp
    rw [hassoc] at hnodup ⊢
    cases event with
    | register client =>
      have hfresh : client ∉ registrations past := by
        rw [registrations_append, registrations_append] at hnodup
        have hn := (List.nodup_append.1 hnodup).1
        have hd := (List.nodup_append.1 hn).2.2
        intro hmem
        exact hd hmem (by simp [registrations])
      obtain ⟨h', hrun, htracks'⟩ :=
        ih (h.register client) (past ++ [.register client])
          (Hub.register_tracks h past client htracks hfresh) hnodup
          (by simpa [Hub.broadcastsHaveRoom, Hub.step, HubOutcome.hub] using hroom)
      exact ⟨h', by simpa [Hub.run, Hub.step] using hrun, htracks'⟩
    | unregister client =>
      obtain ⟨h1, hremoved, htracks1⟩ := removeClient_tracks h past client htracks
      obtain ⟨h', hrun, htracks'⟩ :=
        ih h1 (past ++ [.unregister client]) htracks1 hnodup
          (by simpa [Hub.broadcastsHaveRoom, Hub.step, HubOutcome.hub, hremoved] using hroom)
      exact ⟨h', by simpa [Hub.run, Hub.step, hremoved] using hrun, htracks'⟩
    | broadcast message =>
      simp only [Hub.broadcastsHaveRoom, Bool.and_eq_true] at hroom
      obtain ⟨h1, hsent, htracks1⟩ := Hub.broadcast_tracks h past message htracks hroom.1
      obtain ⟨h', hrun, htracks'⟩ :=
        ih h1 (past ++ [.broadcast message]) htracks1 hnodup
          (by simpa [hsent, HubOutcome.hub] using hroom.2)
      exact ⟨h', by simpa [Hub.run, hsent] using hrun, htracks'⟩

/-! ## Claim on the membership invariant of the hub -/

/-- C40: after any sequence of events from the empty hub in which no
connection is registered twice and every broadcast finds room in the queues
of the flat set, the hub has not panicked and: a connection is in the flat set
exactly when it occurs in the list of its own session id; a connection that
occurs in the list of a session has that session id and occurs there once;
the list of a session is the sequence of the registered connections of that
session that are in the flat set, in the order of their registration; and the
queue of a connection is closed exactly when the connection has been
unregistered. -/
theorem C40_hub_membership_invariant (events : List HubEvent)
    (hfresh : (registrations events).Nodup)
    (hroom : NewHub.broadcastsHaveRoom events = true) :
    ∃ h, NewHub.run events = .done h ∧
      (∀ c, h.clients.get? c ≠ none ↔ c ∈ h.connections c.SessionID) ∧
      (∀ c s, c ∈ h.connections s → c.SessionID = s ∧ (h.connections s).count c = 1) ∧
      (∀ s, h.connections s =
        (registrations events).filter fun c =>
          decide (c.SessionID = s) && (h.clients.get? c).isSome) ∧
      (∀ s, (h.connections s).Sublist (registrations events)) ∧
      (∀ c, (h.queue c).closed = true ↔ Unregistered events c) := by
  obtain ⟨h, hrun, hnodup, hflat, hlists, hclosed, hunreg⟩ :=
    Hub.run_tracks events NewHub [] Hub.tracks_new (by simpa using hfresh) hroom
  simp only [List.nil_append] at hnodup hflat hlists hclosed hunreg
  refine ⟨h, hrun, ?_, ?_, hlists, ?_, ?_⟩
  · intro c
    rw [hlists]
    constructor
    · intro hc
      refine List.mem_filter.2 ⟨hflat c hc, ?_⟩
      simp [Option.isSome_iff_ne_none, hc]
    · intro hc
      have := (List.mem_filter.1 hc).2
      simp only [Bool.and_eq_true, decide_eq_true_eq, Option.isSome_iff_ne_none] at this
      exact this.2
  · intro c s hc
    have hnd : (h.connections s).Nodup := by
      rw [hlists]
      exact hnodup.filter _
    refine ⟨?_, List.count_eq_one_of_mem hnd hc⟩
    rw [hlists] at hc
    have := (List.mem_filter.1 hc).2
    simp only [Bool.and_eq_true, decide_eq_true_eq] at this
    exact this.1
  · intro s
    rw [hlists]
    exact List.filter_sublist _
  · intro c
    rw [hclosed c, hunreg c]

/-- Witness of C40: two connections join `room`, a message is broadcast, the
first connection leaves. -/
theorem C40_hub_membership_invariant_witness :
    ∃ h,
      NewHub.run
          [.register firstClient, .register lateClient, .broadcast "hello",
            .unregister firstClient] = .done h ∧
      h.connections "room" = [lateClient] ∧
      (h.clients.get? lateClient ≠ none ↔ lateClient ∈ h.connections "room") ∧
      ((h.queue firstClient).closed = true ↔
        Unregistered
          [.register firstClient, .register lateClient, .broadcast "hello",
            .unregister firstClient] firstClient) :=
  match C40_hub_membership_invariant
      [.register firstClient, .register lateClient, .broadcast "hello",
        .unregister firstClient] (by decide) (by decide) with
  | ⟨h, hrun, hflat, _, _, _, hclosed⟩ =>
    ⟨h, hrun,
      by
        have hh : h = (NewHub.run [.register firstClient, .register lateClient,
            .broadcast "hello", .unregister firstClient]).hub := by
          rw [hrun]
          rfl
        rw [hh]
        decide,
      hflat lateClient, hclosed firstClient⟩

/-! ## Claims on concurrency and on the read pump -/

/-- The two steps of one goroutine are one iteration of the grading loop. -/
theorem Grader.step_step (answers : List Int) (answer : Answer) (shared : QuestionStats) :
    (Grader.step answers answer
        (Grader.step answers answer shared .reading).1
        (Grader.step answers answer shared .reading).2).1.AnswersStats =
      stepStats answers answer shared.AnswersStats := by
  cases hget : shared.AnswersStats.get? answer.ID <;>
    cases hc : contains answers answer.ID <;>
    simp [Grader.step, QuestionStats.GetAnswerStatsOrCreate, hget, hc, stepStats, gradedEntry]

/-- C33 (evaluation at the failing schedule included in the witness): two
submissions that select the same answer and run one after the other add two
to its count, in either order; when both read the shared map before either
writes it back, the count grows by one only.  The steps of the two goroutines
interleave and one update is lost. -/
theorem C33_interleaved_submissions_lose_an_update (shared : QuestionStats) (answer : Answer)
    (answers₁ answers₂ : List Int) (h₁ : contains answers₁ answer.ID = true)
    (h₂ : contains answers₂ answer.ID = true) :
    (Race.run answers₁ answers₂ answer shared [true, true, false, false]).shared.countOf
        answer.ID = shared.countOf answer.ID + 2 ∧
    (Race.run answers₁ answers₂ answer shared [false, false, true, true]).shared.countOf
        answer.ID = shared.countOf answer.ID + 2 ∧
    (Race.run answers₁ answers₂ answer shared [true, false, true, false]).shared.countOf
        answer.ID = shared.countOf answer.ID + 1 ∧
    (Race.run answers₁ answers₂ answer shared [true, false, true, false]).first = .finished ∧
    (Race.run answers₁ answers₂ answer shared [true, false, true, false]).second =
      .finished := by
  cases hget : shared.AnswersStats.get? answer.ID with
  | none =>
    simp [Race.run, Race.step, Grader.step, QuestionStats.GetAnswerStatsOrCreate, hget, h₁, h₂,
      QuestionStats.countOf]
  | some stored =>
    simp [Race.run, Race.step, Grader.step, QuestionStats.GetAnswerStatsOrCreate, hget, h₁, h₂,
      QuestionStats.countOf]
    omega

/-- Witness of C33: two players select answer 1001 of question 101, whose
statistics are empty. -/
theorem C33_interleaved_submissions_lose_an_update_witness :
    (Race.run [1001] [1001] ⟨1001, "A programming language", "/answer/1001", 1⟩
        ⟨101, 0, GoMap.empty, [], GoMap.empty⟩ [true, true, false, false]).shared.countOf
        1001 = 2 ∧
    (Race.run [1001] [1001] ⟨1001, "A programming language", "/answer/1001", 1⟩
        ⟨101, 0, GoMap.empty, [], GoMap.empty⟩ [true, false, true, false]).shared.countOf
        1001 = 1 :=
  match C33_interleaved_submissions_lose_an_update ⟨101, 0, GoMap.empty, [], GoMap.empty⟩
      ⟨1001, "A programming language", "/answer/1001", 1⟩ [1001] [1001] rfl rfl with
  | ⟨hserial, _, hrace, _, _⟩ => ⟨hserial, hrace⟩

theorem readPump_loop_handled (reads : List ReadResult) (handled : List String) :
    readPump.loop reads handled =
      { readPump.loop reads [] with handled := handled ++ (readPump.loop reads []).handled } := by
  induction reads generalizing handled with
  | nil => simp [readPump.loop]
  | cons r rest ih =>
    cases r with
    | message data =>
      rw [readPump.loop, ih, readPump.loop, ih ([] ++ [normalise data])]
      simp
    | closeError => simp [readPump.loop]
    | otherError =>
      rw [readPump.loop, ih, readPump.loop, ih ([] ++ [normalise ""])]
      simp

/-- C34 (evaluation at the failing input): a read that fails with an error
that is not a `*websocket.CloseError` does not end the loop of `readPump`.  The
nil message of the failed read is handed to `MessageHandler` as an empty
message and the loop goes on with the next read: after the single result
`otherError` nothing was sent to `Hub.unregister` and `CloseHandler` was not
called.  A `*websocket.CloseError` ends the loop without a call of
`MessageHandler` for that read, with one send on `Hub.unregister` and one call
of `CloseHandler`. -/
theorem C34_only_close_errors_end_the_read_pump (reads : List ReadResult) :
    readPump [.otherError] =
      { handled := [""], exited := false, unregistered := 0, closeHandled := 0 } ∧
    readPump (.otherError :: reads) =
      { readPump reads with handled := "" :: (readPump reads).handled } ∧
    readPump (.otherError :: .closeError :: reads) =
      { handled := [""], exited := true, unregistered := 1, closeHandled := 1 } ∧
    readPump (.closeError :: reads) =
      { handled := [], exited := true, unregistered := 1, closeHandled := 1 } := by
  have hempty : normalise "" = "" := by decide
  refine ⟨?_, ?_, ?_, ?_⟩
  · simp [readPump, readPump.loop, hempty]
  · simp only [readPump, readPump.loop, hempty, List.nil_append]
    rw [readPump_loop_handled]
    rfl
  · simp [readPump, readPump.loop, hempty]
  · simp [readPump, readPump.loop]
